import Mathlib

/-!
# Walking-with-doom: the proximity-driven popup controller of `src/main.js`

A shallow embedding of `updatePopups`, `clearAllPopups` and of the body of the
staggered `setTimeout` callback that creates and places one popup.

Modelling conventions
* JavaScript numbers are idealised as exact rationals (`ℚ`); the literals
  `0.5`, `0.7`, `0.4`, `0.1` are the rationals 1/2, 7/10, 2/5, 1/10.
* `Date.now()` and `camera.position.x` are inputs of `updatePopups`.
* `Math.random()` is a stream `random : ℕ → ℚ`; iteration `k` of the placement
  loop consumes `random (2k)` and `random (2k+1)`.
* The global mutable variables are the fields of `State`.  A `setTimeout` call
  appends a `Timer` to `State.timers`; its callback does not run inside the
  call that scheduled it.
* DOM side effects (`element.remove()`, `appendChild`, `console.log`) are not
  part of the state; an element is the record of what the code writes to it
  and of the rectangle `getBoundingClientRect()` reports for it.
-/

namespace WalkingWithDoom

/-! ## Data model -/

/-- Catalog entry `{ number, text }` as pushed by `loadPopups`. -/
structure Message where
  number : Nat
  text : String
deriving DecidableEq, Repr

/-- The global `popups = { negative: [], positive: [] }`. -/
structure PopupCatalog where
  negative : List Message
  positive : List Message
deriving DecidableEq, Repr

/-- Result of `getBoundingClientRect()`. -/
structure Rect where
  left : ℚ
  top : ℚ
  right : ℚ
  bottom : ℚ
deriving DecidableEq, Repr

/-- A popup `div`: the properties the callback sets, and its bounding rectangle. -/
structure Element where
  className : String
  textContent : String
  styleLeft : Option ℚ
  styleTop : Option ℚ
  rect : Rect
deriving DecidableEq, Repr

/-- Entry `{ element, data }` of the global `activePopups`. -/
structure ActivePopup where
  element : Element
  data : Message
deriving DecidableEq, Repr

/-- A pending `setTimeout(callback, popupIndex * 800)`: the delay, the wall time of the
call that scheduled it, and the variables the callback closes over. -/
structure Timer where
  delay : Nat
  scheduledAt : Int
  popupData : Message
  isOnDarkSide : Bool
deriving DecidableEq, Repr

/-- Values of the global `currentScene`. -/
inductive Scene where
  | home
  | main
  | rooftop
deriving DecidableEq, Repr

/-- The global mutable variables read or written by the popup controller. -/
structure State where
  currentScene : Scene
  lastPopupUpdate : Int
  currentPopupTier : Nat
  popups : PopupCatalog
  activePopups : List ActivePopup
  active3DPopups : List Nat
  timers : List Timer
  fogDensity : ℚ
deriving DecidableEq, Repr

/-- The browser window: `window.innerWidth`, `window.innerHeight` (integers, in pixels). -/
structure Window where
  innerWidth : Nat
  innerHeight : Nat
deriving DecidableEq, Repr

/-! ## Constants -/

/-- Source: `let popupUpdateInterval = 1000` (never reassigned). -/
def popupUpdateInterval : Int := 1000

/-- Source: `const ROOM_WIDTH = 40`. -/
def ROOM_WIDTH : ℚ := 40

/-! ## `updatePopups` -/

/-- Source: `clearAllPopups()`: both popup arrays become empty. -/
def clearAllPopups (s : State) : State :=
  { s with activePopups := [], active3DPopups := [] }

/-- Source: `scene.fog.density = 0.02 + progress * 0.01`. -/
def updateDarkSideEffects (progress : ℚ) (s : State) : State :=
  { s with fogDensity := 2 / 100 + progress * (1 / 100) }

/-- Source: `scene.fog.density = Math.max(0.01, 0.02 - progress * 0.01)`. -/
def updateLightSideEffects (progress : ℚ) (s : State) : State :=
  { s with fogDensity := max (1 / 100) (2 / 100 - progress * (1 / 100)) }

/-- Source: `isOnDarkSide = distanceFromDoor < 0`. -/
def isOnDarkSide (distanceFromDoor : ℚ) : Bool :=
  decide (distanceFromDoor < 0)

/-- Source: `maxDistance = ROOM_WIDTH / 2 - 2`, for a room of width `roomWidth`. -/
def maxDistance (roomWidth : ℚ) : ℚ :=
  roomWidth / 2 - 2

/-- Source: `progress = Math.min(distance / maxDistance, 1)` with
`distance = Math.abs(distanceFromDoor)`.  (Division by zero, which Lean evaluates to 0
and JavaScript to Infinity, only arises for `roomWidth = 4`.) -/
def progress (roomWidth distanceFromDoor : ℚ) : ℚ :=
  min (|distanceFromDoor| / maxDistance roomWidth) 1

/-- Source: the `newTier` cascade:
`if (progress > 0.7) 3 else if (progress > 0.4) 2 else if (progress > 0.1) 1`, else 0. -/
def newTier (progress : ℚ) : Nat :=
  if progress > 7 / 10 then 3
  else if progress > 4 / 10 then 2
  else if progress > 1 / 10 then 1
  else 0

/-- Source: the `maxPopups` cascade: 10, 20, 30 for tiers 1, 2, 3 and 0 otherwise. -/
def maxPopups (newTier : Nat) : Nat :=
  if newTier = 1 then 10
  else if newTier = 2 then 20
  else if newTier = 3 then 30
  else 0

/-- Source: `isOnDarkSide ? popups.negative : popups.positive`. -/
def relevantPopups (dark : Bool) (popups : PopupCatalog) : List Message :=
  if dark then popups.negative else popups.positive

/-- Source: the `activePopups.filter(...)` that drops popups with `data.number > maxPopups`. -/
def filterActive (maxPopups : Nat) (activePopups : List ActivePopup) : List ActivePopup :=
  activePopups.filter (fun popup => if popup.data.number > maxPopups then false else true)

/-- Source: `new Set(activePopups.map(p => p.data.number))`, as the list of its members. -/
def existingNumbers (activePopups : List ActivePopup) : List Nat :=
  activePopups.map (fun p => p.data.number)

/-- Source: the loop
`for (let i = 0; i < maxPopups && i < relevantPopups.length; i++)`, started at index `i`
with the running counter `popupIndex`; returns the `setTimeout` calls it makes, in order.
(The `!popupData` half of the `continue` test never fires: every catalog entry is an object.) -/
def scheduleLoop (now : Int) (dark : Bool) (relevant : List Message) (existing : List Nat)
    (maxPopups : Nat) (i popupIndex : Nat) : List Timer :=
  if h : i < maxPopups ∧ i < relevant.length then
    let popupData := relevant.get ⟨i, h.2⟩
    if existing.contains popupData.number then
      scheduleLoop now dark relevant existing maxPopups (i + 1) popupIndex
    else
      { delay := popupIndex * 800, scheduledAt := now, popupData := popupData,
        isOnDarkSide := dark } ::
        scheduleLoop now dark relevant existing maxPopups (i + 1) (popupIndex + 1)
  else []
termination_by relevant.length - i
decreasing_by
  all_goals simp_wf
  all_goals omega

/-- Source: the body of `if (newTier !== currentPopupTier || activePopups.length === 0)`. -/
def reconcile (now : Int) (dark : Bool) (tier : Nat) (s : State) : State :=
  let kept := filterActive (maxPopups tier) s.activePopups
  { s with
    currentPopupTier := tier
    activePopups := kept
    timers := s.timers ++
      scheduleLoop now dark (relevantPopups dark s.popups) (existingNumbers kept)
        (maxPopups tier) 0 0 }

/-- Source: the guard `newTier !== currentPopupTier || activePopups.length === 0`. -/
def needsReconcile (tier : Nat) (s : State) : Bool :=
  tier != s.currentPopupTier || s.activePopups.length == 0

/-- Source: `updatePopups()`, for a room of width `roomWidth`, at wall time `now` and
camera abscissa `cameraX`. -/
def updatePopupsAt (roomWidth : ℚ) (now : Int) (cameraX : ℚ) (s : State) : State :=
  if s.currentScene ≠ Scene.main then s
  else if now - s.lastPopupUpdate < popupUpdateInterval then s
  else
    let s1 := { s with lastPopupUpdate := now }
    let distanceFromDoor := cameraX
    if |distanceFromDoor| < 1 / 2 then
      { clearAllPopups s1 with currentPopupTier := 0 }
    else
      let dark := isOnDarkSide distanceFromDoor
      let p := progress roomWidth distanceFromDoor
      let tier := newTier p
      let s2 := if needsReconcile tier s1 then reconcile now dark tier s1 else s1
      if dark then updateDarkSideEffects p s2 else updateLightSideEffects p s2

/-- Source: `updatePopups()` with the constant `ROOM_WIDTH`. -/
def updatePopups (now : Int) (cameraX : ℚ) (s : State) : State :=
  updatePopupsAt ROOM_WIDTH now cameraX s

/-- The timers that a step from `before` to `after` appended to the pending list. -/
def scheduledTimers (before after : State) : List Timer :=
  after.timers.drop before.timers.length

/-! ## The `setTimeout` callback: creating and placing one popup -/

/-- Local variables of the placement loop: `x`, `y` (undefined before the first draw),
`attempts`, `validPosition`. -/
structure Placement where
  x : Option ℚ
  y : Option ℚ
  attempts : Nat
  validPosition : Bool
deriving DecidableEq, Repr

/-- Source: `let x, y, attempts = 0; let validPosition = false;`. -/
def initialPlacement : Placement :=
  { x := none, y := none, attempts := 0, validPosition := false }

/-- Source: the overlap test of a 350x80 rectangle at `(x, y)` against `existingRect`
extended by a 20-unit margin. -/
def overlapsRect (x y : ℚ) (existingRect : Rect) : Bool :=
  decide (x < existingRect.right + 20) && decide (x + 350 > existingRect.left - 20) &&
    decide (y < existingRect.bottom + 20) && decide (y + 80 > existingRect.top - 20)

/-- Source: `validPosition = true; for (const existingPopup of activePopups)` with its
`validPosition = false; break;`. -/
def checkPosition (x y : ℚ) : List ActivePopup → Bool
  | [] => true
  | existingPopup :: rest =>
    if overlapsRect x y existingPopup.element.rect then false else checkPosition x y rest

/-- Source: `x = Math.random() * (window.innerWidth - popupSize.width - screenPadding * 2)
+ screenPadding`, for the draw of iteration `k`. -/
def candidateX (win : Window) (random : Nat → ℚ) (k : Nat) : ℚ :=
  random (2 * k) * ((win.innerWidth : ℚ) - 350 - 50 * 2) + 50

/-- Source: `y = Math.random() * (window.innerHeight - popupSize.height - screenPadding * 2)
+ screenPadding`, for the draw of iteration `k`. -/
def candidateY (win : Window) (random : Nat → ℚ) (k : Nat) : ℚ :=
  random (2 * k + 1) * ((win.innerHeight : ℚ) - 80 - 50 * 2) + 50

/-- Source: `while (!validPosition && attempts < 20) { ... attempts++; }`. -/
def placementLoop (win : Window) (random : Nat → ℚ) (activePopups : List ActivePopup)
    (st : Placement) : Placement :=
  if st.validPosition = false ∧ st.attempts < 20 then
    let x := candidateX win random st.attempts
    let y := candidateY win random st.attempts
    placementLoop win random activePopups
      { x := some x, y := some y, attempts := st.attempts + 1,
        validPosition := checkPosition x y activePopups }
  else st
termination_by 20 - st.attempts
decreasing_by
  all_goals simp_wf
  all_goals omega

/-- Source: the desktop fallback `gridX`, with `gridCols = Math.floor(window.innerWidth / 370)`
and `popupIndex = activePopups.length`.  (`% 0` is NaN in JavaScript and the identity in
Lean: the model is exact for `innerWidth >= 370`.) -/
def gridX (win : Window) (popupIndex : Nat) : ℚ :=
  ((popupIndex % (win.innerWidth / (350 + 20)) : Nat) : ℚ) * (350 + 20) + 50

/-- Source: the desktop fallback `gridY`. -/
def gridY (win : Window) (popupIndex : Nat) : ℚ :=
  ((popupIndex / (win.innerWidth / (350 + 20)) : Nat) : ℚ) * (80 + 20) + 50

/-- Source: the mobile slice layout `y`, with `sliceHeight = 70` and
`sliceIndex = activePopups.length`.  (`% 0` is NaN in JavaScript: the model is exact
when `Math.floor((innerHeight - 120) / 70)` is not 0.) -/
def mobileY (win : Window) (sliceIndex : Nat) : Int :=
  let y : Int := (sliceIndex : Int) * 70 + 10
  if y + 80 > (win.innerHeight : Int) - 100 then
    10 + ((sliceIndex : Int) % (((win.innerHeight : Int) - 120) / 70)) * 70
  else y

/-- Source: the final `(x, y)` written to `style.left` / `style.top` by the callback:
the placement loop runs first, then the `if (isMobile)` / desktop branches. -/
def popupPosition (isMobile : Bool) (win : Window) (random : Nat → ℚ)
    (activePopups : List ActivePopup) : Option ℚ × Option ℚ :=
  let st := placementLoop win random activePopups initialPlacement
  if isMobile then
    (some 10, some ((mobileY win activePopups.length : Int) : ℚ))
  else if st.validPosition = false then
    (some (gridX win activePopups.length), some (gridY win activePopups.length))
  else (st.x, st.y)

/-- Source: the CSS class `tier-1` / `tier-2` / `tier-3` chosen from `popupData.number`. -/
def tierClass (number : Nat) : String :=
  if number ≥ 21 then "tier-3" else if number ≥ 11 then "tier-2" else "tier-1"

/-- Source: the body of the `setTimeout` callback: build the element, place it, and
`activePopups.push({ element, data })`.  `rect` is the rectangle the browser will report
for the new element. -/
def popupCallback (isMobile : Bool) (win : Window) (random : Nat → ℚ) (rect : Rect)
    (t : Timer) (s : State) : State :=
  let pos := popupPosition isMobile win random s.activePopups
  let popupElement : Element :=
    { className := "popup " ++ (if t.isOnDarkSide then "dark-side" else "light-side") ++ " " ++
        tierClass t.popupData.number
      textContent := t.popupData.text
      styleLeft := pos.1
      styleTop := pos.2
      rect := rect }
  { s with activePopups := s.activePopups ++ [{ element := popupElement, data := t.popupData }] }

/-- The event "the `i`-th pending timer fires": it leaves the pending list and its callback runs. -/
def fireTimer (isMobile : Bool) (win : Window) (random : Nat → ℚ) (rect : Rect)
    (i : Nat) (s : State) : State :=
  match s.timers.get? i with
  | none => s
  | some t => popupCallback isMobile win random rect t { s with timers := s.timers.eraseIdx i }

/-! ## Concrete data used in examples -/

/-- A two-entry catalog per side. -/
def sampleCatalog : PopupCatalog :=
  { negative := [{ number := 1, text := "n1" }, { number := 2, text := "n2" }]
    positive := [{ number := 1, text := "p1" }, { number := 2, text := "p2" }] }

/-- The state right after the game has started: main scene, nothing displayed. -/
def sampleStart : State :=
  { currentScene := Scene.main, lastPopupUpdate := 0, currentPopupTier := 0,
    popups := sampleCatalog, activePopups := [], active3DPopups := [], timers := [],
    fogDensity := 1 / 100 }

/-- A popup record for message `m` occupying the rectangle at `(x, y)` of size 350x80. -/
def samplePopup (m : Message) (x y : ℚ) : ActivePopup :=
  { element := { className := "popup", textContent := m.text, styleLeft := some x,
                 styleTop := some y,
                 rect := { left := x, top := y, right := x + 350, bottom := y + 80 } }
    data := m }

/-- A 1000x800 desktop window. -/
def sampleWindow : Window :=
  { innerWidth := 1000, innerHeight := 800 }

/-- A state in which one dark-side popup and one 3D popup are displayed, tier 1 current. -/
def sampleShown : State :=
  { sampleStart with
    lastPopupUpdate := 1000
    currentPopupTier := 1
    activePopups := [samplePopup { number := 1, text := "n1" } 50 50]
    active3DPopups := [7] }

/-- A state in which popups 1, 12 and 25 of the dark side are displayed, tier 3 current. -/
def sampleThree : State :=
  { sampleStart with
    lastPopupUpdate := 1000
    currentPopupTier := 3
    activePopups := [samplePopup { number := 25, text := "n25" } 50 50,
                     samplePopup { number := 1, text := "n1" } 450 50,
                     samplePopup { number := 12, text := "n12" } 50 200] }

/-- The wording of the specification for the messages to create: the messages of `catalog`
whose index is within the ceiling `c` and that are not currently displayed, that is, that
are not the message of any popup of `activePopups`; in catalog order. -/
def withinCeilingNotDisplayed (c : Nat) (catalog : List Message)
    (activePopups : List ActivePopup) : List Message :=
  catalog.filter
    (fun d => decide (d.number ≤ c) && !(activePopups.map (fun p => p.data)).contains d)

/-- What the scheduling loop selects: among the first `c` entries of `catalog` (by position),
those whose number is not displayed in `kept`, the popups that survived the removal step. -/
def firstEntriesNotDisplayed (c : Nat) (catalog : List Message)
    (kept : List ActivePopup) : List Message :=
  (catalog.take c).filter (fun d => !(existingNumbers kept).contains d.number)

/-- A catalog is contiguous when its `i`-th entry (counting from 0) has index `i + 1`. -/
def Contiguous (catalog : List Message) : Prop :=
  ∀ (i : Nat) (h : i < catalog.length), (catalog.get ⟨i, h⟩).number = i + 1

/-- Contiguity of a catalog can be checked by running through its positions. -/
instance decidableContiguous (catalog : List Message) : Decidable (Contiguous catalog) :=
  Nat.decidableBallLT catalog.length
    (fun i h => (catalog.get ⟨i, h⟩).number = i + 1)

/-- The start state with a dark-side catalog that has a gap: indices 1 and 15. -/
def gapStart : State :=
  { sampleStart with
    popups := { negative := [{ number := 1, text := "n1" }, { number := 15, text := "n15" }]
                positive := [{ number := 1, text := "p1" }] } }

/-- The timer that the scheduling loop makes for message `kd.2` when its counter
`popupIndex` is `kd.1`: `setTimeout(callback, popupIndex * 800)`. -/
def mkTimer (now : Int) (dark : Bool) (kd : Nat × Message) : Timer :=
  { delay := kd.1 * 800, scheduledAt := now, popupData := kd.2, isOnDarkSide := dark }

/-- The rectangle reported for a 350x80 popup placed at (50, 50). -/
def sampleRect : Rect :=
  { left := 50, top := 50, right := 400, bottom := 130 }

/-- The start state after a first call at time 1000 on the dark side, at `x = -1.9`. -/
def sideChangeFirst : State :=
  updatePopups 1000 (-19 / 10) sampleStart

/-- The state once the two staggered timers of that call have fired (desktop, window
1000x800, all random draws 0). -/
def sideChangeShown : State :=
  fireTimer false sampleWindow (fun _ => 0) sampleRect 0
    (fireTimer false sampleWindow (fun _ => 0) sampleRect 0 sideChangeFirst)

/-- Random draws whose first candidate is (50, 50) and whose later candidates are the
centre of the placement area. -/
def sampleDraws (n : Nat) : ℚ :=
  if n < 2 then 0 else 1 / 2

/-! ## Scene switching -/

/-- Source: `switchToRooftop()`, its synchronous effect on the globals of this model:
`currentScene = 'rooftop'`.  (The gain ramps it starts and `controls.unlock()` do not touch
these globals; the deferred part is `rooftopCleanup`.) -/
def switchToRooftop (s : State) : State :=
  { s with currentScene := Scene.rooftop }

/-- Source: the body of the `setTimeout(..., 100)` callback of `switchToRooftop`, as far as
the popup globals go: `container.innerHTML = ''; activePopups = []; active3DPopups = []`. -/
def rooftopCleanup (s : State) : State :=
  { s with activePopups := [], active3DPopups := [] }

/-- Source: `switchToMain()`: `currentScene = 'main'`.  (Its deferred callback only rebinds
the controls, moves the camera to the spawn point and restores shadows.) -/
def switchToMain (s : State) : State :=
  { s with currentScene := Scene.main }

/-- The whole application state the scene machine needs: the popup globals (with
`currentScene`), `gameStarted`, the visibility of the home screen and of the tutorial popup
(`style.display`), and the number of `switchToRooftop` cleanups not yet run. -/
structure App where
  state : State
  gameStarted : Bool
  homeScreenVisible : Bool
  tutorialVisible : Bool
  pendingCleanups : Nat

/-- Source: the globals at load time: `currentScene = 'home'`, `gameStarted = false`,
`lastPopupUpdate = 0`, `currentPopupTier = 0`, empty popup arrays, fog density 0.01; the home
screen is shown and the tutorial popup is not. -/
def initialApp (popups : PopupCatalog) : App :=
  { state :=
      { currentScene := Scene.home, lastPopupUpdate := 0, currentPopupTier := 0,
        popups := popups, activePopups := [], active3DPopups := [], timers := [],
        fogDensity := 1 / 100 }
    gameStarted := false
    homeScreenVisible := true
    tutorialVisible := false
    pendingCleanups := 0 }

/-- Source: the click handler of `start-btn`: hide the home screen, show the tutorial. -/
def startHandler (a : App) : App :=
  { a with homeScreenVisible := false, tutorialVisible := true }

/-- Source: the click handler of `continue-btn`:
`tutorialPopup.style.display = 'none'; currentScene = 'main'; gameStarted = true`. -/
def continueHandler (a : App) : App :=
  { a with
    tutorialVisible := false
    state := { a.state with currentScene := Scene.main }
    gameStarted := true }

/-- Source: the click handler of the canvas, after `if (!controls.isLocked) return;`:
in the main scene a hit on `takeBackButton` calls `switchToRooftop()`, in the rooftop scene
a hit on `returnButton` calls `switchToMain()`. -/
def canvasClickHandler (isLocked hitsButton : Bool) (a : App) : App :=
  if !isLocked then a
  else if a.state.currentScene = Scene.main then
    if hitsButton then
      { a with state := switchToRooftop a.state, pendingCleanups := a.pendingCleanups + 1 }
    else a
  else if a.state.currentScene = Scene.rooftop then
    if hitsButton then { a with state := switchToMain a.state } else a
  else a

/-- The events of the application: the two buttons of the start screens, a click on the
canvas, an animation frame (time and camera abscissa), a staggered popup timer firing, and
a deferred rooftop cleanup running. -/
inductive Event where
  | startClick
  | continueClick
  | canvasClick (isLocked hitsButton : Bool)
  | frame (now : Int) (cameraX : ℚ)
  | popupTimer (isMobile : Bool) (win : Window) (random : Nat → ℚ) (rect : Rect) (i : Nat)
  | cleanupTimer

/-- One event.  A button only receives clicks while its screen is displayed; `animate`
calls `updatePopups` only in the main scene; a cleanup runs only if one is pending. -/
def step (e : Event) (a : App) : App :=
  match e with
  | Event.startClick => if a.homeScreenVisible then startHandler a else a
  | Event.continueClick => if a.tutorialVisible then continueHandler a else a
  | Event.canvasClick isLocked hitsButton => canvasClickHandler isLocked hitsButton a
  | Event.frame now cameraX =>
    if a.state.currentScene = Scene.main then
      { a with state := updatePopups now cameraX a.state }
    else a
  | Event.popupTimer isMobile win random rect i =>
    { a with state := fireTimer isMobile win random rect i a.state }
  | Event.cleanupTimer =>
    if a.pendingCleanups = 0 then a
    else { a with state := rooftopCleanup a.state, pendingCleanups := a.pendingCleanups - 1 }

/-- A run of events, in order. -/
def run (es : List Event) (a : App) : App :=
  es.foldl (fun acc e => step e acc) a

/-- The states the application can reach from load time. -/
def Reachable (popups : PopupCatalog) (a : App) : Prop :=
  ∃ es : List Event, run es (initialApp popups) = a

/-- Five dark-side popups on display in the main scene, and two 3D popups. -/
def sampleFive : State :=
  { sampleStart with
    lastPopupUpdate := 1000
    currentPopupTier := 1
    activePopups := (List.range 5).map
      (fun i => samplePopup { number := i + 1, text := "n" } 50 (50 + 100 * (i : ℚ)))
    active3DPopups := [3, 4] }

/-- The invariant that ties the flags to the scene: the game has started exactly when the
scene is not `home`, a start-screen button is displayed only in the scene `home`, and the
tutorial is displayed only once the home screen is hidden. -/
def SceneInv (a : App) : Prop :=
  (a.gameStarted = true ↔ a.state.currentScene ≠ Scene.home) ∧
  (a.tutorialVisible = true → a.state.currentScene = Scene.home) ∧
  (a.homeScreenVisible = true → a.state.currentScene = Scene.home) ∧
  (a.tutorialVisible = true → a.homeScreenVisible = false)

/-- The application right after the start and continue buttons were clicked. -/
def sampleStarted : App :=
  run [Event.startClick, Event.continueClick] (initialApp sampleCatalog)

/-! ## Audio mixer -/

/-- A `THREE.Vector3`. -/
structure Vector3 where
  x : ℚ
  y : ℚ
  z : ℚ
deriving DecidableEq, Repr

/-- A positional buffer source as `initializeMusic` builds it: `position` (fixed) and the
value of `gainNode.gain`. -/
structure Emitter where
  position : Vector3
  gain : ℚ
deriving DecidableEq, Repr

/-- The nodes that exist inside `audioContext`: the value of `gain` for `staticGainNode`,
`musicGainNode` and `rooftopMusicGainNode` (`none` while the variable is undefined),
`riverSource` (`none` until its file is loaded) and the array `window.fireSources` (empty
until its file is loaded). -/
structure AudioGraph where
  staticGain : Option ℚ
  musicGain : Option ℚ
  rooftopMusicGain : Option ℚ
  riverSource : Option Emitter
  fireSources : List Emitter
deriving DecidableEq, Repr

/-- Source: `staticLevel = Math.min(Math.abs(distanceFromDoor) / (ROOM_WIDTH/2), 0.02)`. -/
def staticLevel (distanceFromDoor : ℚ) : ℚ :=
  min (|distanceFromDoor| / (ROOM_WIDTH / 2)) (2 / 100)

/-- Source: `musicLevel = Math.min(distanceFromDoor / (ROOM_WIDTH/2), 0.5)`. -/
def musicLevel (distanceFromDoor : ℚ) : ℚ :=
  min (distanceFromDoor / (ROOM_WIDTH / 2)) (1 / 2)

/-- Source: `riverVolume = Math.max(0, 1 - riverDist / 10) * 0.4`. -/
def riverVolume (riverDist : ℚ) : ℚ :=
  max 0 (1 - riverDist / 10) * (4 / 10)

/-- Source: `fireVolume = Math.max(0, 1 - fireDist / 8) * 0.5`. -/
def fireVolume (fireDist : ℚ) : ℚ :=
  max 0 (1 - fireDist / 8) * (5 / 10)

/-- Source: `if (node) node.gain.value = v` (also used for `gain.setValueAtTime(v, now)`):
an existing node takes the value, an undefined one stays undefined. -/
def setGain (node : Option ℚ) (v : ℚ) : Option ℚ :=
  node.map (fun _ => v)

/-- Source: the `if / else if / else` on `distanceFromDoor` in the main branch of
`updateAudio`: the two ambient loops. -/
def updateAmbient (distanceFromDoor : ℚ) (g : AudioGraph) : AudioGraph :=
  if distanceFromDoor < -(1 / 2) then
    { g with staticGain := setGain g.staticGain (staticLevel distanceFromDoor)
             musicGain := setGain g.musicGain 0 }
  else if distanceFromDoor > 1 / 2 then
    { g with musicGain := setGain g.musicGain (musicLevel distanceFromDoor)
             staticGain := setGain g.staticGain 0 }
  else
    { g with staticGain := setGain g.staticGain 0
             musicGain := setGain g.musicGain 0 }

/-- Source: `source.gainNode.gain.value = v` for one positional source. -/
def setEmitterGain (v : ℚ) (source : Emitter) : Emitter :=
  { source with gain := v }

/-- Source: the river block of the main branch:
`riverSource.gainNode.gain.value = riverVolume`, when the source exists. -/
def updateRiver (distanceTo : Vector3 → Vector3 → ℚ) (camera : Vector3)
    (riverSource : Option Emitter) : Option Emitter :=
  riverSource.map (fun r => setEmitterGain (riverVolume (distanceTo camera r.position)) r)

/-- Source: the `window.fireSources.forEach` block of the main branch. -/
def updateFires (distanceTo : Vector3 → Vector3 → ℚ) (camera : Vector3)
    (fireSources : List Emitter) : List Emitter :=
  fireSources.map (fun f => setEmitterGain (fireVolume (distanceTo camera f.position)) f)

/-- Source: `updateAudio()`.  `audio` is `none` when `audioContext` is undefined (no node
exists without a context); `distanceTo` is `THREE.Vector3.distanceTo`, `camera` is
`camera.position`. -/
def updateAudio (distanceTo : Vector3 → Vector3 → ℚ) (gameStarted : Bool)
    (currentScene : Scene) (camera : Vector3) (audio : Option AudioGraph) :
    Option AudioGraph :=
  match audio with
  | none => none
  | some g =>
    if !gameStarted then some g
    else if currentScene = Scene.main then
      let g1 := updateAmbient camera.x g
      some
        { staticGain := g1.staticGain
          musicGain := g1.musicGain
          riverSource := updateRiver distanceTo camera g1.riverSource
          fireSources := updateFires distanceTo camera g1.fireSources
          rooftopMusicGain := setGain g1.rooftopMusicGain 0 }
    else if currentScene = Scene.rooftop then
      some
        { staticGain := setGain g.staticGain 0
          musicGain := setGain g.musicGain 0
          riverSource := g.riverSource.map (setEmitterGain 0)
          fireSources := g.fireSources.map (setEmitterGain 0)
          rooftopMusicGain := setGain g.rooftopMusicGain (3 / 10) }
    else some g

/-- Source: the emitter positions of `initializeMusic`: the river at (12, 0, 0) and the
fires at (-8, 0.5, -5) and (-15, 0.5, 5), all gains created at 0, like the three gain nodes. -/
def loadedAudio : AudioGraph :=
  { staticGain := some 0, musicGain := some 0, rooftopMusicGain := some 0
    riverSource := some { position := { x := 12, y := 0, z := 0 }, gain := 0 }
    fireSources := [{ position := { x := -8, y := 1 / 2, z := -5 }, gain := 0 },
                    { position := { x := -15, y := 1 / 2, z := 5 }, gain := 0 }] }

/-- A stand-in for `distanceTo` with rational values: the distance along the x axis. -/
def sampleDistance (p q : Vector3) : ℚ :=
  |p.x - q.x|

/-- Two audio graphs have the same nodes and emitters: the same gain nodes exist and the
positional sources sit at the same positions; only gain values may differ. -/
def sameNodes (g h : AudioGraph) : Prop :=
  g.staticGain.isSome = h.staticGain.isSome ∧
  g.musicGain.isSome = h.musicGain.isSome ∧
  g.rooftopMusicGain.isSome = h.rooftopMusicGain.isSome ∧
  g.riverSource.map Emitter.position = h.riverSource.map Emitter.position ∧
  g.fireSources.map Emitter.position = h.fireSources.map Emitter.position

/-- The loaded audio graph with the river gain at 0.5, as `window.testAudio` sets it. -/
def loadedAudioRiverOn : AudioGraph :=
  { loadedAudio with
    riverSource := some { position := { x := 12, y := 0, z := 0 }, gain := 1 / 2 } }

/-! ## A stale staggered timer -/

/-- A contiguous catalog of 13 messages. -/
def catalogThirteen : List Message :=
  (List.range 13).map (fun i => { number := i + 1, text := "n" })

/-- Main scene, dark side, tier 1 current, messages 1 to 10 on display, no timer pending. -/
def staleStart : State :=
  { currentScene := Scene.main, lastPopupUpdate := 1000, currentPopupTier := 1,
    popups := { negative := catalogThirteen, positive := catalogThirteen },
    activePopups := (List.range 10).map
      (fun i => samplePopup { number := i + 1, text := "n" } 50 50),
    active3DPopups := [], timers := [], fogDensity := 1 / 100 }

/-- The call at time 2000 and `x = -7.5`: tier 2, messages 11, 12, 13 are scheduled. -/
def staleTierTwo : State :=
  updatePopups 2000 (-15 / 2) staleStart

/-- The timers of messages 11 and 12 (due at 2000 and 2800) have fired. -/
def staleTwoFired : State :=
  fireTimer false sampleWindow (fun _ => 0) sampleRect 0
    (fireTimer false sampleWindow (fun _ => 0) sampleRect 0 staleTierTwo)

/-- The call at time 3000 and `x = -7`: back to tier 1, messages 11 and 12 are removed. -/
def staleTierOne : State :=
  updatePopups 3000 (-7) staleTwoFired

/-- The timer of message 13 (due at 3600) fires while tier 1 is current. -/
def staleShown : State :=
  fireTimer false sampleWindow (fun _ => 0) sampleRect 0 staleTierOne

/-- The messages on display, in order. -/
def displayed (s : State) : List Message :=
  s.activePopups.map ActivePopup.data

/-- Tier 1 current, message 1 on display, and a timer for message 13 still pending. -/
def stalePending : State :=
  { sampleShown with timers := [mkTimer 500 true (2, { number := 13, text := "n" })] }

/-! ## Popup catalog: `loadPopups`

JavaScript strings are modelled as lists of characters (code points rather than UTF-16
units). -/

/-- The characters removed by `String.prototype.trim` and matched by `\s`: the ECMAScript
white space and line terminator code points. -/
def isJsWhitespace (c : Char) : Bool :=
  [9, 10, 11, 12, 13, 32, 160, 5760, 8192, 8193, 8194, 8195, 8196, 8197, 8198, 8199, 8200,
    8201, 8202, 8232, 8233, 8239, 8287, 12288, 65279].contains c.toNat

/-- The characters that `.` of a regular expression does not match: LF, CR, LS, PS. -/
def isLineTerminator (c : Char) : Bool :=
  [10, 13, 8232, 8233].contains c.toNat

/-- The characters matched by `\d`: the ASCII digits. -/
def isAsciiDigit (c : Char) : Bool :=
  decide (48 ≤ c.toNat) && decide (c.toNat ≤ 57)

/-- Source: `line.trim()`. -/
def jsTrim (line : List Char) : List Char :=
  (line.rdropWhile isJsWhitespace).dropWhile isJsWhitespace

/-- Source: `text.split('\n')`. -/
def splitNewline : List Char → List (List Char)
  | [] => [[]]
  | c :: cs =>
    if c.toNat = 10 then [] :: splitNewline cs
    else
      match splitNewline cs with
      | [] => [[c]]
      | l :: ls => (c :: l) :: ls

/-- Source: `line.includes(phrase)`. -/
def includes (phrase line : List Char) : Bool :=
  decide (phrase <:+: line)

/-- The phrase `'Negative thoughts'`. -/
def negativeHeader : List Char :=
  "Negative thoughts".toList

/-- The phrase `'Positive thoughts'`. -/
def positiveHeader : List Char :=
  "Positive thoughts".toList

/-- Source: `line.match(/^\d+\./)`: a non-empty run of digits followed by a dot. -/
def matchesNumbered (line : List Char) : Bool :=
  !(line.takeWhile isAsciiDigit).isEmpty &&
    ((line.dropWhile isAsciiDigit).head? == some '.')

/-- Source: `match[1]` of `line.match(/^(\d+)\.\s*(.*)/)`: the leading digits. -/
def matchNumber (line : List Char) : List Char :=
  line.takeWhile isAsciiDigit

/-- Source: `match[2]` of `line.match(/^(\d+)\.\s*(.*)/)`: after the dot, the white space
is skipped and the group takes the characters up to the first line terminator. -/
def matchText (line : List Char) : List Char :=
  (((line.dropWhile isAsciiDigit).drop 1).dropWhile isJsWhitespace).takeWhile
    (fun c => !isLineTerminator c)

/-- Source: `parseInt(match[1])` on a string of ASCII digits (exact below 2^53). -/
def parseInt (digits : List Char) : Nat :=
  digits.foldl (fun acc c => acc * 10 + (c.toNat - 48)) 0

/-- Values of `currentType` other than `null`. -/
inductive Category where
  | negative
  | positive
deriving DecidableEq, Repr

/-- The variables of the `forEach` loop of `loadPopups`: `currentType` and the catalog.
(`currentNumber` is only ever reset to 0 and never read.) -/
structure LoadState where
  currentType : Option Category
  popups : PopupCatalog
deriving DecidableEq, Repr

/-- Source: `popups.negative.push(...)` or `popups.positive.push(...)` by `currentType`;
nothing is pushed while `currentType` is `null`. -/
def pushMessage (m : Message) (st : LoadState) : LoadState :=
  match st.currentType with
  | some Category.negative =>
    { st with popups := { st.popups with negative := st.popups.negative ++ [m] } }
  | some Category.positive =>
    { st with popups := { st.popups with positive := st.popups.positive ++ [m] } }
  | none => st

/-- Source: the body of `lines.forEach((line, index) => ...)`. -/
def processLine (st : LoadState) (originalLine : List Char) : LoadState :=
  let line := jsTrim originalLine
  if includes negativeHeader line then
    { st with currentType := some Category.negative }
  else if includes positiveHeader line then
    { st with currentType := some Category.positive }
  else if matchesNumbered line then
    if !(jsTrim (matchText line)).isEmpty then
      let content := jsTrim (matchText line)
      pushMessage { number := parseInt (matchNumber line), text := String.mk content } st
    else st
  else st

/-- Source: the array assigned to `popups.negative` by `createFallbackPopups()`. -/
def fallbackNegative : List Message :=
  [
    { number := 1, text := "I'm a bit off today." },
    { number := 2, text := "People probably don't notice me." },
    { number := 3, text := "I always say the wrong thing." },
    { number := 4, text := "I'm behind everyone my age." },
    { number := 5, text := "I'm not attractive enough." },
    { number := 6, text := "My best is average." },
    { number := 7, text := "I mess up first impressions." },
    { number := 8, text := "I'm wasting my time." },
    { number := 9, text := "Everyone else has it figured out." },
    { number := 10, text := "I'm not cut out for this." },
    { number := 11, text := "I'll never meet a girl who likes me." },
    { number := 12, text := "I'm boring." },
    { number := 13, text := "She'd never be into me." },
    { number := 14, text := "My work isn't good enough to share." },
    { number := 15, text := "They can tell I'm insecure." },
    { number := 16, text := "I'm an impostor." },
    { number := 17, text := "Nothing I try ever sticks." },
    { number := 18, text := "I'm destined to be mediocre." },
    { number := 19, text := "I'm too late to the party." },
    { number := 20, text := "I'm fundamentally unlovable." },
    { number := 21, text := "Success happens to other people." },
    { number := 22, text := "I'll never be successful in business." },
    { number := 23, text := "Any win I get is a fluke." },
    { number := 24, text := "If they knew me, they'd leave." },
    { number := 25, text := "I don't deserve good things." },
    { number := 26, text := "I'll die alone." },
    { number := 27, text := "My future is already ruined." },
    { number := 28, text := "There's no point trying anymore." },
    { number := 29, text := "I'm a burden to people." },
    { number := 30, text := "Nothing I do will ever matter." }
  ]

/-- Source: the array assigned to `popups.positive` by `createFallbackPopups()`. -/
def fallbackPositive : List Message :=
  [
    { number := 1, text := "I'm a little off, but it's temporary." },
    { number := 2, text := "Some people notice me; the right ones will." },
    { number := 3, text := "I can learn to say the right thing." },
    { number := 4, text := "I'm on my own timeline." },
    { number := 5, text := "People have found me attractive before." },
    { number := 6, text := "My best improves with reps." },
    { number := 7, text := "First impressions can be fixed." },
    { number := 8, text := "Every hour I invest compounds." },
    { number := 9, text := "Nobody has it fully figured out." },
    { number := 10, text := "I'm learning the skills I need." },
    { number := 11, text := "I will meet someone who likes me for me." },
    { number := 12, text := "I'm interesting when I'm present." },
    { number := 13, text := "Attraction is unpredictable; I only need one yes." },
    { number := 14, text := "My work deserves to be seen." },
    { number := 15, text := "Confidence grows with practice." },
    { number := 16, text := "I belong in the rooms I enter." },
    { number := 17, text := "Attempts are data; iteration works." },
    { number := 18, text := "I can be exceptional at my niche." },
    { number := 19, text := "The right time beats early or late." },
    { number := 20, text := "I'm fully worthy of love." },
    { number := 21, text := "I'm already building momentum." },
    { number := 22, text := "I can build a real business; revenue follows persistence." },
    { number := 23, text := "Wins come from systems, not luck." },
    { number := 24, text := "The more real I am, the closer people get." },
    { number := 25, text := "I deserve good things and I'm working toward them." },
    { number := 26, text := "I will build a life with someone." },
    { number := 27, text := "My future is flexible and forgiving." },
    { number := 28, text := "Effort creates momentum; momentum creates options." },
    { number := 29, text := "People benefit from me being here." },
    { number := 30, text := "What I do can matter a lot\u00e2\u20ac\u201dto me and to others." }
  ]

/-- Source: `createFallbackPopups()`: both arrays are replaced. -/
def createFallbackPopups : PopupCatalog :=
  { negative := fallbackNegative, positive := fallbackPositive }

/-- Source: `loadPopups()`.  `response` is the text of `popups.txt`, or `none` when the
fetch fails or answers with an error status (the `catch` branch); `popups` is the catalog
before the call. -/
def loadPopups (response : Option String) (popups : PopupCatalog) : PopupCatalog :=
  match response with
  | none => createFallbackPopups
  | some text =>
    let parsed :=
      ((splitNewline text.toList).foldl processLine
        { currentType := none, popups := popups }).popups
    if parsed.negative.length = 0 ∨ parsed.positive.length = 0 then createFallbackPopups
    else parsed

/-- The catalog at load time: `{ negative: [], positive: [] }`. -/
def emptyCatalog : PopupCatalog :=
  { negative := [], positive := [] }

/-- The line `k.<text>`: the decimal digits of `k`, a dot, and the text (which may begin
with spaces or tabs). -/
def entryLine (k : Nat) (text : List Char) : List Char :=
  (toString k).toList ++ '.' :: text

/-- The lines `1.<text 0>`, ..., `n.<text (n-1)>`. -/
def entryLines (n : Nat) (texts : Nat → List Char) : List (List Char) :=
  (List.range n).map (fun i => entryLine (i + 1) (texts i))

/-- Lines joined by line feeds, the inverse of `split('\n')`. -/
def joinLines : List (List Char) → List Char
  | [] => []
  | [l] => l
  | l :: ls => l ++ Char.ofNat 10 :: joinLines ls

/-- The two-section text: a header line, `n` numbered lines, a header line, `n` numbered
lines. -/
def sectionsText (headerN headerP : List Char) (n : Nat) (neg pos : Nat → List Char) :
    String :=
  String.mk (joinLines (headerN :: entryLines n neg ++ headerP :: entryLines n pos))

/-- The messages `{ number: i + 1, text: trim(text i) }` for `i < n`. -/
def expectedMessages (n : Nat) (texts : Nat → List Char) : List Message :=
  (List.range n).map (fun i => { number := i + 1, text := String.mk (jsTrim (texts i)) })

/-- A numbered line `k.<text>` whose text is acceptable: no line feed in it, a non-empty
trimmed text without line terminator, and no category phrase anywhere in the line. -/
def GoodText (k : Nat) (text : List Char) : Prop :=
  (∀ c ∈ text, c.toNat ≠ 10) ∧
  jsTrim text ≠ [] ∧
  (∀ c ∈ jsTrim text, isLineTerminator c = false) ∧
  ¬ negativeHeader <:+: entryLine k text ∧
  ¬ positiveHeader <:+: entryLine k text

/-- Acceptability of a numbered line can be checked by running through it. -/
instance decidableGoodText (k : Nat) (text : List Char) : Decidable (GoodText k text) := by
  unfold GoodText
  infer_instance

/-- Texts for a two-section file in which the second dark-side entry mentions the other
category. -/
def trapTexts (i : Nat) : List Char :=
  if i = 1 then " Positive thoughts help".toList else " x".toList

/-- Texts for a plain section: every entry reads `ok`, after a tab. -/
def plainTexts (_i : Nat) : List Char :=
  "\tok ".toList

/-! ## Tiers along the room -/

/-- The tier that a call of `updatePopups` which passes the throttle leaves in
`currentPopupTier` at camera abscissa `x`: 0 in the dead zone, else the tier of the
progress. -/
def selectedTier (x : ℚ) : Nat :=
  if |x| < 1 / 2 then 0 else newTier (progress ROOM_WIDTH x)

/-- The thresholds written in the comment of `createProgressLines`
("Tier 1 ... progress > 0.05", "Tier 2 ... progress > 0.33", "Tier 3 ... progress > 0.66"),
read as a tier cascade. -/
def commentTier (progress : ℚ) : Nat :=
  if progress > 66 / 100 then 3
  else if progress > 33 / 100 then 2
  else if progress > 5 / 100 then 1
  else 0

/-- Source: the floor lines of `createProgressLines`, as pairs (x, tier of the label):
`darkSideLines` followed by `lightSideLines`. -/
def progressLines : List (ℚ × Nat) :=
  [(-3, 1), (-8, 2), (-15, 3), (3, 1), (8, 2), (15, 3)]

/-- The catalog after the `forEach` loop of `loadPopups`, before the fallback test. -/
def parsePopups (text : String) (popups : PopupCatalog) : PopupCatalog :=
  ((splitNewline text.toList).foldl processLine
    { currentType := none, popups := popups }).popups

/-! ## Gain ramps at a scene switch -/

/-- The gain parameters of the program: the three gain nodes, the gain of the river source
and the gain of the fire source at a given index of `window.fireSources`. -/
inductive Channel where
  | static
  | music
  | rooftopMusic
  | river
  | fire (index : Nat)
deriving DecidableEq, Repr

/-- Source: the pair `gain.setValueAtTime(start, audioContext.currentTime)`,
`gain.linearRampToValueAtTime(target, audioContext.currentTime + duration)` on one gain
parameter; `duration` is in seconds. -/
structure Ramp where
  channel : Channel
  start : ℚ
  target : ℚ
  duration : ℚ
deriving DecidableEq, Repr

/-- Source: `if (node) { node.gain.setValueAtTime(start, now);
node.gain.linearRampToValueAtTime(target, now + duration) }`, where `start` may be read from
`node.gain.value`. -/
def rampIf (node : Option ℚ) (channel : Channel) (start : ℚ → ℚ) (target duration : ℚ) :
    List Ramp :=
  match node with
  | none => []
  | some v => [{ channel := channel, start := start v, target := target, duration := duration }]

/-- Source: the audio statements of `switchToRooftop()`, in order: the ramps it schedules. -/
def switchToRooftopAudio (g : AudioGraph) : List Ramp :=
  rampIf g.staticGain Channel.static (fun v => v) 0 (1 / 2) ++
  rampIf g.musicGain Channel.music (fun v => v) 0 (1 / 2) ++
  rampIf g.rooftopMusicGain Channel.rooftopMusic (fun _ => 0) (3 / 10) 1

/-- Source: the audio statements of `switchToMain()`: the ramp it schedules. -/
def switchToMainAudio (g : AudioGraph) : List Ramp :=
  rampIf g.rooftopMusicGain Channel.rooftopMusic (fun v => v) 0 1

/-- A loaded audio graph in which the static loop, the river and the first fire are
audible. -/
def loadedAudioPlaying : AudioGraph :=
  { staticGain := some (2 / 100), musicGain := some 0, rooftopMusicGain := some 0
    riverSource := some { position := { x := 12, y := 0, z := 0 }, gain := 1 / 10 }
    fireSources := [{ position := { x := -8, y := 1 / 2, z := -5 }, gain := 1 / 4 },
                    { position := { x := -15, y := 1 / 2, z := 5 }, gain := 0 }] }

/-! ## A staggered timer that fires on the rooftop -/

/-- A session: start, continue, a frame at time 1000 and `x = -1.9` (dark side, tier 1: the
two dark-side messages are scheduled, due at 1000 and 1800), the first timer fires, a click
on the take-back button at about 1100, the deferred cleanup at about 1200, and the second
timer fires at 1800. -/
def rooftopEvents : List Event :=
  [Event.startClick, Event.continueClick, Event.frame 1000 (-19 / 10),
   Event.popupTimer false sampleWindow (fun _ => 0) sampleRect 0,
   Event.canvasClick true true, Event.cleanupTimer,
   Event.popupTimer false sampleWindow (fun _ => 0) sampleRect 0]

/-- The application once the deferred cleanup of `switchToRooftop` has run. -/
def rooftopCleaned : App :=
  run (rooftopEvents.take 6) (initialApp sampleCatalog)

/-- The application once the second timer has fired. -/
def rooftopLate : App :=
  run rooftopEvents (initialApp sampleCatalog)

/-! ## Two timers for the same message -/

/-- The state right after the game has started with the 13-message catalog: main scene,
nothing displayed, no timer pending. -/
def dupStart : State :=
  { currentScene := Scene.main, lastPopupUpdate := 0, currentPopupTier := 0,
    popups := { negative := catalogThirteen, positive := catalogThirteen },
    activePopups := [], active3DPopups := [], timers := [], fogDensity := 1 / 100 }

/-- The call at time 1000 and `x = -7`: tier 1, messages 1 to 10 are scheduled, due at
1000, 1800, 2600, ... -/
def dupTierOne : State :=
  updatePopups 1000 (-7) dupStart

/-- The timers of messages 1 and 2 (due at 1000 and 1800) have fired. -/
def dupTwoFired : State :=
  fireTimer false sampleWindow (fun _ => 0) sampleRect 0
    (fireTimer false sampleWindow (fun _ => 0) sampleRect 0 dupTierOne)

/-- The call at time 2000 and `x = -7.5`: tier 2, messages 3 to 13 are scheduled again,
due at 2000, 2800, ..., while the timers of the first call for messages 3 to 10 are still
pending. -/
def dupTierTwo : State :=
  updatePopups 2000 (-15 / 2) dupTwoFired

/-- The timer of the second call for message 3 (due at 2000, at index 8 of the pending
list) fires, then the timer of the first call for message 3 (due at 2600, at index 0). -/
def dupShown : State :=
  fireTimer false sampleWindow (fun _ => 0) sampleRect 0
    (fireTimer false sampleWindow (fun _ => 0) sampleRect 8 dupTierTwo)

/-! ## Basic facts about `updatePopups` -/

/-- Outside the main scene `updatePopups` returns at once. -/
theorem updatePopupsAt_not_main (roomWidth : ℚ) (now : Int) (x : ℚ) (s : State)
    (hscene : s.currentScene ≠ Scene.main) : updatePopupsAt roomWidth now x s = s := by
  simp [updatePopupsAt, hscene]

/-- Inside the throttle window `updatePopups` returns at once. -/
theorem updatePopupsAt_throttled (roomWidth : ℚ) (now : Int) (x : ℚ) (s : State)
    (hthr : now - s.lastPopupUpdate < popupUpdateInterval) :
    updatePopupsAt roomWidth now x s = s := by
  unfold updatePopupsAt
  split
  · rfl
  · simp [hthr]

/-- Unfolding of a call that passes the throttle in the dead zone. -/
theorem updatePopupsAt_neutral (roomWidth : ℚ) (now : Int) (x : ℚ) (s : State)
    (hscene : s.currentScene = Scene.main)
    (hthr : ¬ now - s.lastPopupUpdate < popupUpdateInterval) (hx : |x| < 1 / 2) :
    updatePopupsAt roomWidth now x s =
      { clearAllPopups { s with lastPopupUpdate := now } with currentPopupTier := 0 } := by
  unfold updatePopupsAt
  rw [if_neg (not_not.mpr hscene), if_neg hthr]
  exact if_pos hx

/-- Unfolding of a call that passes the throttle outside the dead zone. -/
theorem updatePopupsAt_outside (roomWidth : ℚ) (now : Int) (x : ℚ) (s : State)
    (hscene : s.currentScene = Scene.main)
    (hthr : ¬ now - s.lastPopupUpdate < popupUpdateInterval) (hx : ¬ |x| < 1 / 2) :
    updatePopupsAt roomWidth now x s =
      (if isOnDarkSide x then updateDarkSideEffects (progress roomWidth x)
        else updateLightSideEffects (progress roomWidth x))
      (if needsReconcile (newTier (progress roomWidth x)) { s with lastPopupUpdate := now } then
        reconcile now (isOnDarkSide x) (newTier (progress roomWidth x))
          { s with lastPopupUpdate := now }
       else { s with lastPopupUpdate := now }) := by
  unfold updatePopupsAt
  rw [if_neg (not_not.mpr hscene), if_neg hthr]
  show (if |x| < 1 / 2 then _ else _) = _
  rw [if_neg hx]
  cases isOnDarkSide x <;> rfl

/-- After a call that passes the throttle outside the dead zone, `currentPopupTier` is the
tier computed from the progress, whether or not the reconciliation branch ran. -/
theorem updatePopupsAt_tier (roomWidth : ℚ) (now : Int) (x : ℚ) (s : State)
    (hscene : s.currentScene = Scene.main)
    (hthr : ¬ now - s.lastPopupUpdate < popupUpdateInterval) (hx : ¬ |x| < 1 / 2) :
    (updatePopupsAt roomWidth now x s).currentPopupTier = newTier (progress roomWidth x) := by
  rw [updatePopupsAt_outside roomWidth now x s hscene hthr hx]
  by_cases hrec : needsReconcile (newTier (progress roomWidth x))
      { s with lastPopupUpdate := now } = true
  · rw [if_pos hrec]
    cases isOnDarkSide x <;> rfl
  · rw [if_neg hrec]
    have hrec2 : needsReconcile (newTier (progress roomWidth x))
        { s with lastPopupUpdate := now } = false := by simpa using hrec
    have h : s.currentPopupTier = newTier (progress roomWidth x) := by
      simp only [needsReconcile, Bool.or_eq_false_iff, bne_eq_false_iff_eq] at hrec2
      exact hrec2.1.symm
    cases isOnDarkSide x <;> simpa [updateDarkSideEffects, updateLightSideEffects] using h

/-- The active popups after a call that passes the throttle outside the dead zone. -/
theorem updatePopupsAt_activePopups (roomWidth : ℚ) (now : Int) (x : ℚ) (s : State)
    (hscene : s.currentScene = Scene.main)
    (hthr : ¬ now - s.lastPopupUpdate < popupUpdateInterval) (hx : ¬ |x| < 1 / 2) :
    (updatePopupsAt roomWidth now x s).activePopups =
      if needsReconcile (newTier (progress roomWidth x)) { s with lastPopupUpdate := now } then
        filterActive (maxPopups (newTier (progress roomWidth x))) s.activePopups
      else s.activePopups := by
  rw [updatePopupsAt_outside roomWidth now x s hscene hthr hx]
  by_cases hrec : needsReconcile (newTier (progress roomWidth x))
      { s with lastPopupUpdate := now } = true
  · rw [if_pos hrec, if_pos hrec]
    cases isOnDarkSide x <;> rfl
  · rw [if_neg hrec, if_neg hrec]
    cases isOnDarkSide x <;> rfl

/-- The pending timers after a call that passes the throttle outside the dead zone. -/
theorem updatePopupsAt_timers (roomWidth : ℚ) (now : Int) (x : ℚ) (s : State)
    (hscene : s.currentScene = Scene.main)
    (hthr : ¬ now - s.lastPopupUpdate < popupUpdateInterval) (hx : ¬ |x| < 1 / 2) :
    (updatePopupsAt roomWidth now x s).timers =
      s.timers ++
      (if needsReconcile (newTier (progress roomWidth x)) { s with lastPopupUpdate := now } then
        scheduleLoop now (isOnDarkSide x) (relevantPopups (isOnDarkSide x) s.popups)
          (existingNumbers
            (filterActive (maxPopups (newTier (progress roomWidth x))) s.activePopups))
          (maxPopups (newTier (progress roomWidth x))) 0 0
      else []) := by
  rw [updatePopupsAt_outside roomWidth now x s hscene hthr hx]
  by_cases hrec : needsReconcile (newTier (progress roomWidth x))
      { s with lastPopupUpdate := now } = true
  · rw [if_pos hrec, if_pos hrec]
    cases isOnDarkSide x <;> rfl
  · rw [if_neg hrec, if_neg hrec]
    cases isOnDarkSide x <;>
      simp [updateDarkSideEffects, updateLightSideEffects]

/-- Whatever a step appended to the pending list is recovered by `scheduledTimers`. -/
theorem scheduledTimers_of_append (s s2 : State) (l : List Timer)
    (h : s2.timers = s.timers ++ l) : scheduledTimers s s2 = l := by
  simp [scheduledTimers, h]

/-- With `ROOM_WIDTH = 40` the progress lies in `[0, 1]`. -/
theorem progress_bounds (x : ℚ) :
    0 ≤ progress ROOM_WIDTH x ∧ progress ROOM_WIDTH x ≤ 1 := by
  have h18 : maxDistance ROOM_WIDTH = 18 := by norm_num [maxDistance, ROOM_WIDTH]
  unfold progress
  rw [h18]
  refine ⟨le_min (div_nonneg (abs_nonneg x) (by norm_num)) (by norm_num), min_le_right _ _⟩

/-- The four tiers as intervals of the progress. -/
theorem newTier_intervals (p : ℚ) :
    (newTier p = 3 ↔ 7 / 10 < p) ∧ (newTier p = 2 ↔ 4 / 10 < p ∧ p ≤ 7 / 10) ∧
    (newTier p = 1 ↔ 1 / 10 < p ∧ p ≤ 4 / 10) ∧ (newTier p = 0 ↔ p ≤ 1 / 10) := by
  unfold newTier
  refine ⟨?_, ?_, ?_, ?_⟩
  all_goals
    constructor
    · intro h
      split_ifs at h <;> first | omega | (constructor <;> linarith) | linarith
    · intro h
      split_ifs <;> first | rfl | (exfalso; obtain ⟨h1, h2⟩ := h; linarith) | (exfalso; linarith)

/-! ## Proximity evaluation: dead zone, tiers, side -/

/-- C1: for every camera offset `x` with `|x| < 0.5`, a call of `updatePopups` in the main
scene that passes the throttle selects no tier, whatever the room width: `currentPopupTier`
becomes 0, `activePopups` (and `active3DPopups`) are emptied as by `clearAllPopups`, and no
popup creation is scheduled. -/
theorem dead_zone_selects_no_tier (roomWidth : ℚ) (now : Int) (x : ℚ) (s : State)
    (hscene : s.currentScene = Scene.main)
    (hthr : ¬ now - s.lastPopupUpdate < popupUpdateInterval)
    (hx : |x| < 1 / 2) :
    (updatePopupsAt roomWidth now x s).currentPopupTier = 0 ∧
    (updatePopupsAt roomWidth now x s).activePopups = [] ∧
    (updatePopupsAt roomWidth now x s).activePopups = (clearAllPopups s).activePopups ∧
    (updatePopupsAt roomWidth now x s).active3DPopups = (clearAllPopups s).active3DPopups ∧
    (updatePopupsAt roomWidth now x s).timers = s.timers ∧
    scheduledTimers s (updatePopupsAt roomWidth now x s) = [] := by
  rw [updatePopupsAt_neutral roomWidth now x s hscene hthr hx]
  refine ⟨rfl, rfl, rfl, rfl, rfl, ?_⟩
  simp [scheduledTimers, clearAllPopups]

/-- Witness for C1: `x = 0.2` in a room of width 40, with popups on display. -/
theorem dead_zone_selects_no_tier_witness :
    sampleShown.activePopups ≠ [] ∧
    sampleShown.currentScene = Scene.main ∧
    ¬ (2000 - sampleShown.lastPopupUpdate < popupUpdateInterval) ∧
    |(1 / 5 : ℚ)| < 1 / 2 ∧
    (updatePopupsAt 40 2000 (1 / 5) sampleShown).currentPopupTier = 0 ∧
    (updatePopupsAt 40 2000 (1 / 5) sampleShown).activePopups = [] ∧
    scheduledTimers sampleShown (updatePopupsAt 40 2000 (1 / 5) sampleShown) = [] :=
  have h1 : sampleShown.currentScene = Scene.main := rfl
  have h2 : ¬ (2000 - sampleShown.lastPopupUpdate < popupUpdateInterval) := by
    norm_num [sampleShown, popupUpdateInterval]
  have h3 : |(1 / 5 : ℚ)| < 1 / 2 := by rw [abs_lt]; constructor <;> norm_num
  have h := dead_zone_selects_no_tier 40 2000 (1 / 5) sampleShown h1 h2 h3
  ⟨by simp [sampleShown], h1, h2, h3, h.1, h.2.1, h.2.2.2.2.2⟩

/-- C2: for every offset `x` with `|x| >= 0.5` and `progress = min(|x| / maxDistance, 1)`,
the tier that `updatePopups` computes (and leaves in `currentPopupTier`) is 3 exactly when
the progress is in (0.7, 1], 2 exactly when it is in (0.4, 0.7], 1 exactly when it is in
(0.1, 0.4] and 0 exactly when it is in [0, 0.1]; progress 0.1, 0.4 and 0.7 fall in the
lower tier. -/
theorem tier_matches_progress_interval (now : Int) (x : ℚ) (s : State)
    (hscene : s.currentScene = Scene.main)
    (hthr : ¬ now - s.lastPopupUpdate < popupUpdateInterval)
    (hx : 1 / 2 ≤ |x|) :
    progress ROOM_WIDTH x = min (|x| / maxDistance ROOM_WIDTH) 1 ∧
    ((updatePopups now x s).currentPopupTier = 3 ↔
      7 / 10 < progress ROOM_WIDTH x ∧ progress ROOM_WIDTH x ≤ 1) ∧
    ((updatePopups now x s).currentPopupTier = 2 ↔
      4 / 10 < progress ROOM_WIDTH x ∧ progress ROOM_WIDTH x ≤ 7 / 10) ∧
    ((updatePopups now x s).currentPopupTier = 1 ↔
      1 / 10 < progress ROOM_WIDTH x ∧ progress ROOM_WIDTH x ≤ 4 / 10) ∧
    ((updatePopups now x s).currentPopupTier = 0 ↔
      0 ≤ progress ROOM_WIDTH x ∧ progress ROOM_WIDTH x ≤ 1 / 10) ∧
    newTier (1 / 10) = 0 ∧ newTier (4 / 10) = 1 ∧ newTier (7 / 10) = 2 := by
  have ht : (updatePopups now x s).currentPopupTier = newTier (progress ROOM_WIDTH x) :=
    updatePopupsAt_tier ROOM_WIDTH now x s hscene hthr (not_lt.mpr hx)
  obtain ⟨h0, h1⟩ := progress_bounds x
  obtain ⟨i3, i2, i1, i0⟩ := newTier_intervals (progress ROOM_WIDTH x)
  rw [ht]
  refine ⟨rfl, ?_, i2, i1, ?_, ?_, ?_, ?_⟩
  · rw [i3]; exact ⟨fun h => ⟨h, h1⟩, fun h => h.1⟩
  · rw [i0]; exact ⟨fun h => ⟨h0, h⟩, fun h => h.2⟩
  · norm_num [newTier]
  · norm_num [newTier]
  · norm_num [newTier]

/-- Witness for C2: the boundary offset `x = 12.6` (progress exactly 0.7) from the start
state: the tier is 2, not 3. -/
theorem tier_matches_progress_interval_witness :
    sampleStart.currentScene = Scene.main ∧
    ¬ (1000 - sampleStart.lastPopupUpdate < popupUpdateInterval) ∧
    1 / 2 ≤ |(63 / 5 : ℚ)| ∧
    progress ROOM_WIDTH (63 / 5) = 7 / 10 ∧
    ((updatePopups 1000 (63 / 5) sampleStart).currentPopupTier = 2 ↔
      4 / 10 < progress ROOM_WIDTH (63 / 5) ∧ progress ROOM_WIDTH (63 / 5) ≤ 7 / 10) ∧
    ((updatePopups 1000 (63 / 5) sampleStart).currentPopupTier = 3 ↔
      7 / 10 < progress ROOM_WIDTH (63 / 5) ∧ progress ROOM_WIDTH (63 / 5) ≤ 1) :=
  have h1 : sampleStart.currentScene = Scene.main := rfl
  have h2 : ¬ (1000 - sampleStart.lastPopupUpdate < popupUpdateInterval) := by
    norm_num [sampleStart, popupUpdateInterval]
  have h3 : 1 / 2 ≤ |(63 / 5 : ℚ)| := by rw [abs_of_pos (by norm_num)]; norm_num
  have h := tier_matches_progress_interval 1000 (63 / 5) sampleStart h1 h2 h3
  ⟨h1, h2, h3, by norm_num [progress, maxDistance, ROOM_WIDTH, abs_of_pos], h.2.2.1, h.2.1⟩

/-! ## The scheduling loop -/

/-- The timers made for the messages `l`, numbered from `k`. -/
theorem enumFrom_map_popupData (now : Int) (dark : Bool) (l : List Message) (k : Nat) :
    ((l.enumFrom k).map (mkTimer now dark)).map Timer.popupData = l := by
  induction l generalizing k with
  | nil => rfl
  | cons a l ih => simp [List.enumFrom, ih, mkTimer]

/-- The scheduling loop started at index `i` walks the first `maxPopups` catalog entries
from position `i`, skips those whose number is on display, and numbers the others
consecutively from `popupIndex`. -/
theorem scheduleLoop_eq (now : Int) (dark : Bool) (relevant : List Message)
    (existing : List Nat) (m : Nat) (i popupIndex : Nat) :
    scheduleLoop now dark relevant existing m i popupIndex =
      (((((relevant.take m).drop i).filter
          (fun d => !existing.contains d.number)).enumFrom popupIndex).map
        (mkTimer now dark)) := by
  generalize hn : relevant.length - i = n
  induction n using Nat.strong_induction_on generalizing i popupIndex with
  | _ n ih =>
    subst hn
    rw [scheduleLoop]
    split
    · rename_i h
      have hlen : i < (relevant.take m).length := by
        rw [List.length_take]; exact lt_min h.1 h.2
      have hdrop : (relevant.take m).drop i =
          relevant.get ⟨i, h.2⟩ :: (relevant.take m).drop (i + 1) := by
        rw [List.drop_eq_getElem_cons hlen]
        simp [List.getElem_take]
      rw [hdrop]
      simp only []
      by_cases hex : existing.contains (relevant.get ⟨i, h.2⟩).number = true
      · rw [if_pos hex]
        rw [ih (relevant.length - (i + 1)) (by omega) (i + 1) popupIndex rfl]
        have hmem : (relevant.get ⟨i, h.2⟩).number ∈ existing := by simpa using hex
        simp only [List.get_eq_getElem] at hmem
        simp [List.filter_cons, hmem]
      · rw [if_neg hex]
        rw [ih (relevant.length - (i + 1)) (by omega) (i + 1) (popupIndex + 1) rfl]
        have hmem : (relevant.get ⟨i, h.2⟩).number ∉ existing := by simpa using hex
        simp only [List.get_eq_getElem] at hmem
        simp [List.filter_cons, hmem, List.enumFrom, mkTimer]
    · rename_i h
      have hnil : (relevant.take m).drop i = [] := by
        apply List.drop_eq_nil_of_le
        rw [List.length_take]
        rcases not_and_or.mp h with h1 | h1
        · exact le_trans (min_le_left _ _) (not_lt.mp h1)
        · exact le_trans (min_le_right _ _) (not_lt.mp h1)
      rw [hnil]
      rfl

/-- The guard of the reconciliation branch, as a proposition. -/
theorem needsReconcile_iff (tier : Nat) (s : State) :
    needsReconcile tier s = true ↔ tier ≠ s.currentPopupTier ∨ s.activePopups.length = 0 := by
  simp [needsReconcile]

/-- Every timer built from the messages `l` carries the side flag and a message of `l`. -/
theorem mem_enumFrom_map (now : Int) (dark : Bool) (l : List Message) (k : Nat) (t : Timer)
    (ht : t ∈ (l.enumFrom k).map (mkTimer now dark)) :
    t.isOnDarkSide = dark ∧ t.popupData ∈ l := by
  induction l generalizing k with
  | nil => simp at ht
  | cons a l ih =>
    simp only [List.enumFrom, List.map_cons, List.mem_cons] at ht
    rcases ht with h | h
    · subst h
      exact ⟨rfl, List.mem_cons_self _ _⟩
    · exact ⟨(ih (k + 1) h).1, List.mem_cons_of_mem _ (ih (k + 1) h).2⟩

/-- Every timer made by the scheduling loop carries the side flag of the call and a message
of the catalog it walks. -/
theorem scheduleLoop_mem (now : Int) (dark : Bool) (relevant : List Message)
    (existing : List Nat) (m i popupIndex : Nat) (t : Timer)
    (ht : t ∈ scheduleLoop now dark relevant existing m i popupIndex) :
    t.isOnDarkSide = dark ∧ t.popupData ∈ relevant := by
  rw [scheduleLoop_eq] at ht
  obtain ⟨h1, h2⟩ := mem_enumFrom_map now dark _ _ t ht
  exact ⟨h1, List.mem_of_mem_take (List.mem_of_mem_drop (List.mem_of_mem_filter h2))⟩

/-- C3: for lateral offset -12 and the room constant `ROOM_WIDTH = 40` (so that the room
half width is 20 and `maxDistance = 20 - 2 = 18`), the progress
`min(|-12| / maxDistance, 1)` is exactly 12/18, the side is Negative (dark) and the tier
is Mid (2). -/
theorem scenario_offset_minus_twelve :
    ROOM_WIDTH = 40 ∧
    maxDistance ROOM_WIDTH = ROOM_WIDTH / 2 - 2 ∧
    maxDistance ROOM_WIDTH = 18 ∧
    progress ROOM_WIDTH (-12) = min (|(-12 : ℚ)| / maxDistance ROOM_WIDTH) 1 ∧
    progress ROOM_WIDTH (-12) = 12 / 18 ∧
    isOnDarkSide (-12) = true ∧
    newTier (progress ROOM_WIDTH (-12)) = 2 ∧
    (updatePopups 1000 (-12) sampleStart).currentPopupTier = 2 := by
  have hp : progress ROOM_WIDTH (-12) = 12 / 18 := by
    norm_num [progress, maxDistance, ROOM_WIDTH]
  have ht : newTier (progress ROOM_WIDTH (-12)) = 2 := by
    rw [hp]; norm_num [newTier]
  refine ⟨rfl, rfl, by norm_num [maxDistance, ROOM_WIDTH], rfl, hp, by simp [isOnDarkSide],
    ht, ?_⟩
  have h := updatePopupsAt_tier ROOM_WIDTH 1000 (-12) sampleStart rfl
    (by norm_num [sampleStart, popupUpdateInterval]) (by norm_num)
  exact h.trans ht

/-- Remark on C3: the value 40 is the full room width.  In a room whose half width is 40
(width 80) the same offset gives `maxDistance = 38`, progress 12/38 and tier 1. -/
theorem scenario_offset_minus_twelve_half_width_forty :
    maxDistance 80 = 38 ∧ progress 80 (-12) = 12 / 38 ∧ newTier (progress 80 (-12)) = 1 := by
  have hp : progress 80 (-12) = 12 / 38 := by norm_num [progress, maxDistance]
  refine ⟨by norm_num [maxDistance], hp, ?_⟩
  rw [hp]; norm_num [newTier]

/-- C4: for every offset `x` with `|x| >= 0.5`, the side is Negative (`isOnDarkSide`) when
`x < 0` and Positive otherwise, and every popup that the call schedules is taken from
`popups.negative` when the side is Negative and from `popups.positive` when it is Positive. -/
theorem side_selects_catalog (now : Int) (x : ℚ) (s : State)
    (hscene : s.currentScene = Scene.main)
    (hthr : ¬ now - s.lastPopupUpdate < popupUpdateInterval)
    (hx : 1 / 2 ≤ |x|) :
    (x < 0 → isOnDarkSide x = true) ∧
    (¬ x < 0 → isOnDarkSide x = false) ∧
    (updatePopups now x s).timers = s.timers ++ scheduledTimers s (updatePopups now x s) ∧
    (∀ t ∈ scheduledTimers s (updatePopups now x s),
      t.isOnDarkSide = isOnDarkSide x ∧
      (isOnDarkSide x = true → t.popupData ∈ s.popups.negative) ∧
      (isOnDarkSide x = false → t.popupData ∈ s.popups.positive)) := by
  have htim := updatePopupsAt_timers ROOM_WIDTH now x s hscene hthr (not_lt.mpr hx)
  have hsch := scheduledTimers_of_append s (updatePopups now x s) _ htim
  refine ⟨fun h => by simp [isOnDarkSide, h], fun h => by simp [isOnDarkSide, h], ?_, ?_⟩
  · rw [hsch]; exact htim
  · rw [hsch]
    intro t ht
    split at ht
    · obtain ⟨h1, h2⟩ := scheduleLoop_mem _ _ _ _ _ _ _ t ht
      refine ⟨h1, fun hd => ?_, fun hd => ?_⟩
      · simpa [relevantPopups, hd] using h2
      · simpa [relevantPopups, hd] using h2
    · simp at ht

/-- The active popups after a reconciling call are those that pass the removal filter. -/
theorem activePopups_reconcile (now : Int) (x : ℚ) (s : State)
    (hscene : s.currentScene = Scene.main)
    (hthr : ¬ now - s.lastPopupUpdate < popupUpdateInterval)
    (hx : 1 / 2 ≤ |x|)
    (hrec : newTier (progress ROOM_WIDTH x) ≠ s.currentPopupTier ∨ s.activePopups.length = 0) :
    (updatePopups now x s).activePopups =
      filterActive (maxPopups (newTier (progress ROOM_WIDTH x))) s.activePopups := by
  have hact := updatePopupsAt_activePopups ROOM_WIDTH now x s hscene hthr (not_lt.mpr hx)
  have hrec2 : needsReconcile (newTier (progress ROOM_WIDTH x))
      { s with lastPopupUpdate := now } = true := (needsReconcile_iff _ _).mpr hrec
  rw [if_pos hrec2] at hact
  exact hact

/-- C5: when `updatePopups` reconciles at tier `t`, with ceiling `maxPopups t` = 0, 10, 20, 30
for tiers 0, 1, 2, 3, the active popups after the call are exactly the previously active
popups whose message index is at most the ceiling, in their previous order: every popup
with a larger index is removed in that same call and every other one is kept. -/
theorem reconcile_removes_beyond_ceiling (now : Int) (x : ℚ) (s : State)
    (hscene : s.currentScene = Scene.main)
    (hthr : ¬ now - s.lastPopupUpdate < popupUpdateInterval)
    (hx : 1 / 2 ≤ |x|)
    (hrec : newTier (progress ROOM_WIDTH x) ≠ s.currentPopupTier ∨ s.activePopups.length = 0) :
    (maxPopups 0 = 0 ∧ maxPopups 1 = 10 ∧ maxPopups 2 = 20 ∧ maxPopups 3 = 30) ∧
    (updatePopups now x s).activePopups =
      s.activePopups.filter
        (fun p => decide (p.data.number ≤ maxPopups (newTier (progress ROOM_WIDTH x)))) ∧
    (∀ p ∈ s.activePopups, maxPopups (newTier (progress ROOM_WIDTH x)) < p.data.number →
      p ∉ (updatePopups now x s).activePopups) ∧
    (∀ p ∈ s.activePopups, p.data.number ≤ maxPopups (newTier (progress ROOM_WIDTH x)) →
      p ∈ (updatePopups now x s).activePopups) ∧
    List.Sublist (updatePopups now x s).activePopups s.activePopups := by
  have hact := updatePopupsAt_activePopups ROOM_WIDTH now x s hscene hthr (not_lt.mpr hx)
  have hrec2 : needsReconcile (newTier (progress ROOM_WIDTH x))
      { s with lastPopupUpdate := now } = true := (needsReconcile_iff _ _).mpr hrec
  rw [if_pos hrec2] at hact
  have hfil : (updatePopups now x s).activePopups =
      s.activePopups.filter
        (fun p => decide (p.data.number ≤ maxPopups (newTier (progress ROOM_WIDTH x)))) := by
    rw [show (updatePopups now x s).activePopups = _ from hact, filterActive]
    apply List.filter_congr
    intro p _
    by_cases h : p.data.number > maxPopups (newTier (progress ROOM_WIDTH x))
    · simp [h]
    · simp [h, not_lt.mp h]
  refine ⟨⟨rfl, rfl, rfl, rfl⟩, hfil, ?_, ?_, ?_⟩
  · intro p _ hgt hmem
    rw [hfil, List.mem_filter] at hmem
    have := of_decide_eq_true hmem.2
    omega
  · intro p hp hle
    rw [hfil, List.mem_filter]
    exact ⟨hp, decide_eq_true hle⟩
  · rw [hfil]
    exact List.filter_sublist _

/-- Witness for C5: from popups 25, 1, 12 at tier 3, a call at `x = -3` (tier 1, ceiling 10)
keeps exactly popup 1. -/
theorem reconcile_removes_beyond_ceiling_witness :
    sampleThree.currentScene = Scene.main ∧
    ¬ (2000 - sampleThree.lastPopupUpdate < popupUpdateInterval) ∧
    1 / 2 ≤ |(-3 : ℚ)| ∧
    newTier (progress ROOM_WIDTH (-3)) = 1 ∧
    (updatePopups 2000 (-3) sampleThree).activePopups =
      sampleThree.activePopups.filter
        (fun p => decide (p.data.number ≤ maxPopups (newTier (progress ROOM_WIDTH (-3))))) ∧
    sampleThree.activePopups.filter (fun p => decide (p.data.number ≤ maxPopups 1)) =
      [samplePopup { number := 1, text := "n1" } 450 50] :=
  have h1 : sampleThree.currentScene = Scene.main := rfl
  have h2 : ¬ (2000 - sampleThree.lastPopupUpdate < popupUpdateInterval) := by
    norm_num [sampleThree, popupUpdateInterval]
  have h3 : 1 / 2 ≤ |(-3 : ℚ)| := by norm_num
  have h4 : newTier (progress ROOM_WIDTH (-3)) = 1 := by
    norm_num [newTier, progress, maxDistance, ROOM_WIDTH]
  have h := reconcile_removes_beyond_ceiling 2000 (-3) sampleThree h1 h2 h3
    (Or.inl (by rw [h4]; decide))
  ⟨h1, h2, h3, h4, h.2.1, by simp [sampleThree, maxPopups, samplePopup]⟩

/-- Witness for C4: from the start state at `x = -3` both scheduled popups are dark-side
messages. -/
theorem side_selects_catalog_witness :
    sampleStart.currentScene = Scene.main ∧
    ¬ (1000 - sampleStart.lastPopupUpdate < popupUpdateInterval) ∧
    1 / 2 ≤ |(-3 : ℚ)| ∧
    isOnDarkSide (-3) = true ∧
    (∀ t ∈ scheduledTimers sampleStart (updatePopups 1000 (-3) sampleStart),
      t.isOnDarkSide = isOnDarkSide (-3) ∧
      (isOnDarkSide (-3) = true → t.popupData ∈ sampleStart.popups.negative) ∧
      (isOnDarkSide (-3) = false → t.popupData ∈ sampleStart.popups.positive)) :=
  have h1 : sampleStart.currentScene = Scene.main := rfl
  have h2 : ¬ (1000 - sampleStart.lastPopupUpdate < popupUpdateInterval) := by
    norm_num [sampleStart, popupUpdateInterval]
  have h3 : 1 / 2 ≤ |(-3 : ℚ)| := by norm_num
  have h := side_selects_catalog 1000 (-3) sampleStart h1 h2 h3
  ⟨h1, h2, h3, h.1 (by norm_num), h.2.2.2⟩

/-! ## Which popups are scheduled -/

/-- The `j`-th timer made from a list numbered from `k` has delay `(k + j) * 800`. -/
theorem enumFrom_map_delay (now : Int) (dark : Bool) (l : List Message) (k j : Nat)
    (hj : j < ((l.enumFrom k).map (mkTimer now dark)).length) :
    (((l.enumFrom k).map (mkTimer now dark)).get ⟨j, hj⟩).delay = (k + j) * 800 := by
  simp only [List.get_eq_getElem, List.getElem_map, List.getElem_enumFrom, mkTimer]

/-- In a catalog whose entries are numbered consecutively from `off + 1`, the first
`c - off` entries are exactly the entries with index at most `c`. -/
theorem take_eq_filter_of_consecutive (l : List Message) (off c : Nat)
    (h : ∀ (i : Nat) (hi : i < l.length), (l.get ⟨i, hi⟩).number = off + i + 1) :
    l.take (c - off) = l.filter (fun d => decide (d.number ≤ c)) := by
  induction l generalizing off with
  | nil => simp
  | cons a l ih =>
    have ha : a.number = off + 1 := by simpa using h 0 (by simp)
    have ht : ∀ (i : Nat) (hi : i < l.length), (l.get ⟨i, hi⟩).number = (off + 1) + i + 1 := by
      intro i hi
      have := h (i + 1) (by simpa using hi)
      simp only [List.get_eq_getElem, List.getElem_cons_succ] at this
      simp only [List.get_eq_getElem]
      omega
    by_cases hc : c ≤ off
    · have h0 : c - off = 0 := by omega
      rw [h0, List.take_zero]
      symm
      rw [List.filter_eq_nil_iff]
      intro d hd
      obtain ⟨i, hi, rfl⟩ := List.getElem_of_mem hd
      have := h i hi
      simp only [List.get_eq_getElem] at this
      simp only [decide_eq_true_eq]
      omega
    · have h1 : c - off = (c - (off + 1)) + 1 := by omega
      rw [h1, List.take_succ_cons, ih (off + 1) ht]
      have : decide (a.number ≤ c) = true := by simp only [decide_eq_true_eq]; omega
      rw [List.filter_cons, if_pos this]

/-- A message within the ceiling is displayed after the removal step exactly when it was
displayed before it. -/
theorem mem_existingNumbers_filterActive (c n : Nat) (hn : n ≤ c) (act : List ActivePopup) :
    n ∈ existingNumbers (filterActive c act) ↔ n ∈ existingNumbers act := by
  simp only [existingNumbers, filterActive, List.mem_map, List.mem_filter]
  constructor
  · rintro ⟨p, ⟨hp, _⟩, rfl⟩
    exact ⟨p, hp, rfl⟩
  · rintro ⟨p, hp, rfl⟩
    refine ⟨p, ⟨hp, ?_⟩, rfl⟩
    simp [not_lt.mpr hn]

/-- In a contiguous catalog two entries with the same index are the same entry. -/
theorem contiguous_number_inj (catalog : List Message) (hc : Contiguous catalog)
    (a b : Message) (ha : a ∈ catalog) (hb : b ∈ catalog) (h : a.number = b.number) :
    a = b := by
  obtain ⟨i, rfl⟩ := List.mem_iff_get.mp ha
  obtain ⟨j, rfl⟩ := List.mem_iff_get.mp hb
  have hi := hc i.1 i.2
  have hj := hc j.1 j.2
  have hij : i = j := by
    apply Fin.ext
    have h2 : (catalog.get ⟨i.1, i.2⟩).number = (catalog.get ⟨j.1, j.2⟩).number := h
    rw [hi, hj] at h2
    omega
  rw [hij]

/-- When every popup on display shows an entry of a contiguous catalog, an entry of the
catalog has the index of a displayed popup exactly when it is itself displayed. -/
theorem mem_existingNumbers_iff_displayed (catalog : List Message) (act : List ActivePopup)
    (hc : Contiguous catalog) (hside : ∀ p ∈ act, p.data ∈ catalog)
    (d : Message) (hd : d ∈ catalog) :
    d.number ∈ existingNumbers act ↔ d ∈ act.map (fun p => p.data) := by
  simp only [existingNumbers, List.mem_map]
  constructor
  · rintro ⟨p, hp, hnum⟩
    exact ⟨p, hp, contiguous_number_inj catalog hc p.data d (hside p hp) hd hnum⟩
  · rintro ⟨p, hp, rfl⟩
    exact ⟨p, hp, rfl⟩

/-- For a contiguous catalog, in a state whose popups all show entries of that catalog, the
positional selection of the loop coincides with the selection of the messages within the
ceiling that are not displayed. -/
theorem firstEntries_eq_withinCeiling (c : Nat) (catalog : List Message)
    (act : List ActivePopup) (hc : Contiguous catalog)
    (hside : ∀ p ∈ act, p.data ∈ catalog) :
    firstEntriesNotDisplayed c catalog (filterActive c act) =
      withinCeilingNotDisplayed c catalog act := by
  unfold firstEntriesNotDisplayed withinCeilingNotDisplayed
  have h := take_eq_filter_of_consecutive catalog 0 c (by
    intro i hi
    have := hc i hi
    omega)
  rw [Nat.sub_zero] at h
  rw [h, List.filter_filter]
  apply List.filter_congr
  intro d hdmem
  by_cases hd : d.number ≤ c
  · have h1 := mem_existingNumbers_filterActive c d.number hd act
    have h2 := mem_existingNumbers_iff_displayed catalog act hc hside d hdmem
    by_cases hm : d ∈ act.map (fun p => p.data)
    · have hm1 : d.number ∈ existingNumbers (filterActive c act) := h1.mpr (h2.mpr hm)
      simp [hd, hm, hm1]
    · have hm1 : ¬ d.number ∈ existingNumbers (filterActive c act) :=
        fun h3 => hm (h2.mp (h1.mp h3))
      simp [hd, hm, hm1]
  · simp [hd]

/-- The timers scheduled by a reconciling call, in closed form. -/
theorem scheduledTimers_reconcile (now : Int) (x : ℚ) (s : State)
    (hscene : s.currentScene = Scene.main)
    (hthr : ¬ now - s.lastPopupUpdate < popupUpdateInterval)
    (hx : 1 / 2 ≤ |x|)
    (hrec : newTier (progress ROOM_WIDTH x) ≠ s.currentPopupTier ∨ s.activePopups.length = 0) :
    scheduledTimers s (updatePopups now x s) =
      ((firstEntriesNotDisplayed (maxPopups (newTier (progress ROOM_WIDTH x)))
          (relevantPopups (isOnDarkSide x) s.popups)
          (filterActive (maxPopups (newTier (progress ROOM_WIDTH x))) s.activePopups)).enumFrom
        0).map (mkTimer now (isOnDarkSide x)) := by
  have htim := updatePopupsAt_timers ROOM_WIDTH now x s hscene hthr (not_lt.mpr hx)
  have hrec2 : needsReconcile (newTier (progress ROOM_WIDTH x))
      { s with lastPopupUpdate := now } = true := (needsReconcile_iff _ _).mpr hrec
  rw [if_pos hrec2] at htim
  rw [scheduledTimers_of_append s (updatePopups now x s) _ htim, scheduleLoop_eq]
  rfl

/-- All delays of a list of timers numbered from 0 are the multiples of 800, in order. -/
theorem delays_of_enumFrom_zero (now : Int) (dark : Bool) (l : List Message)
    (ts : List Timer) (hts : ts = (l.enumFrom 0).map (mkTimer now dark))
    (k : Nat) (hk : k < ts.length) : (ts.get ⟨k, hk⟩).delay = 800 * k := by
  subst hts
  rw [enumFrom_map_delay]
  ring

/-- Counterexample to C6 as stated: with the dark-side catalog of indices 1 and 15, a call
at `x = -3` selects tier 1 (ceiling 10) and schedules both messages, although message 15
is not within the ceiling. -/
theorem scheduled_within_ceiling_counterexample :
    gapStart.currentScene = Scene.main ∧
    ¬ (1000 - gapStart.lastPopupUpdate < popupUpdateInterval) ∧
    newTier (progress ROOM_WIDTH (-3)) = 1 ∧
    maxPopups (newTier (progress ROOM_WIDTH (-3))) = 10 ∧
    (scheduledTimers gapStart (updatePopups 1000 (-3) gapStart)).map Timer.popupData =
      [{ number := 1, text := "n1" }, { number := 15, text := "n15" }] ∧
    withinCeilingNotDisplayed 10 (relevantPopups (isOnDarkSide (-3)) gapStart.popups)
      gapStart.activePopups = [{ number := 1, text := "n1" }] ∧
    (scheduledTimers gapStart (updatePopups 1000 (-3) gapStart)).map Timer.popupData ≠
      withinCeilingNotDisplayed (maxPopups (newTier (progress ROOM_WIDTH (-3))))
        (relevantPopups (isOnDarkSide (-3)) gapStart.popups) gapStart.activePopups := by
  have h1 : gapStart.currentScene = Scene.main := rfl
  have h2 : ¬ (1000 - gapStart.lastPopupUpdate < popupUpdateInterval) := by
    norm_num [gapStart, sampleStart, popupUpdateInterval]
  have h3 : 1 / 2 ≤ |(-3 : ℚ)| := by norm_num
  have h4 : newTier (progress ROOM_WIDTH (-3)) = 1 := by
    norm_num [newTier, progress, maxDistance, ROOM_WIDTH]
  have hd : isOnDarkSide (-3) = true := by simp [isOnDarkSide]
  have hs := scheduledTimers_reconcile 1000 (-3) gapStart h1 h2 h3 (Or.inr rfl)
  have hdata : (scheduledTimers gapStart (updatePopups 1000 (-3) gapStart)).map
      Timer.popupData = [{ number := 1, text := "n1" }, { number := 15, text := "n15" }] := by
    rw [hs, enumFrom_map_popupData, h4, hd]
    decide
  have hspec : withinCeilingNotDisplayed 10 (relevantPopups (isOnDarkSide (-3)) gapStart.popups)
      gapStart.activePopups = [{ number := 1, text := "n1" }] := by
    rw [hd]
    decide
  refine ⟨h1, h2, h4, by rw [h4]; rfl, hdata, hspec, ?_⟩
  rw [hdata, h4, show maxPopups 1 = 10 from rfl, hspec]
  decide

/-- C6 (amended): when `updatePopups` reconciles at tier `t` for a side, the popups it
schedules are exactly the entries among the first `maxPopups t` positions of that side's
catalog whose number is not the number of a popup left on display by the removal step, in
catalog order, the `k`-th scheduled one with a delay of `800 * k` ms; for a contiguous
catalog (entry `i` has index `i + 1`), when every popup on display shows a message of that
catalog, these are exactly the catalog messages whose index is within the ceiling and that
are not currently displayed. -/
theorem scheduled_are_first_entries_not_displayed (now : Int) (x : ℚ) (s : State)
    (hscene : s.currentScene = Scene.main)
    (hthr : ¬ now - s.lastPopupUpdate < popupUpdateInterval)
    (hx : 1 / 2 ≤ |x|)
    (hrec : newTier (progress ROOM_WIDTH x) ≠ s.currentPopupTier ∨ s.activePopups.length = 0) :
    (scheduledTimers s (updatePopups now x s)).map Timer.popupData =
      firstEntriesNotDisplayed (maxPopups (newTier (progress ROOM_WIDTH x)))
        (relevantPopups (isOnDarkSide x) s.popups) (updatePopups now x s).activePopups ∧
    (∀ (k : Nat) (hk : k < (scheduledTimers s (updatePopups now x s)).length),
      ((scheduledTimers s (updatePopups now x s)).get ⟨k, hk⟩).delay = 800 * k) ∧
    (Contiguous (relevantPopups (isOnDarkSide x) s.popups) →
      (∀ p ∈ s.activePopups, p.data ∈ relevantPopups (isOnDarkSide x) s.popups) →
      (scheduledTimers s (updatePopups now x s)).map Timer.popupData =
        withinCeilingNotDisplayed (maxPopups (newTier (progress ROOM_WIDTH x)))
          (relevantPopups (isOnDarkSide x) s.popups) s.activePopups) := by
  have hs := scheduledTimers_reconcile now x s hscene hthr hx hrec
  have hact := updatePopupsAt_activePopups ROOM_WIDTH now x s hscene hthr (not_lt.mpr hx)
  have hrec2 : needsReconcile (newTier (progress ROOM_WIDTH x))
      { s with lastPopupUpdate := now } = true := (needsReconcile_iff _ _).mpr hrec
  rw [if_pos hrec2] at hact
  have hact2 : (updatePopups now x s).activePopups =
      filterActive (maxPopups (newTier (progress ROOM_WIDTH x))) s.activePopups := hact
  refine ⟨?_, ?_, ?_⟩
  · rw [hs, enumFrom_map_popupData, hact2]
  · intro k hk
    exact delays_of_enumFrom_zero now (isOnDarkSide x) _ _ hs k hk
  · intro hc hside
    rw [hs, enumFrom_map_popupData]
    exact firstEntries_eq_withinCeiling _ _ _ hc hside

/-- Witness for C6 (amended): with the contiguous catalog 1 to 13 and messages 1 to 10 on
display at tier 1, a call at `x = -7.5` (tier 2, ceiling 20) schedules messages 11, 12
and 13. -/
theorem scheduled_are_first_entries_not_displayed_witness :
    staleStart.currentScene = Scene.main ∧
    ¬ (2000 - staleStart.lastPopupUpdate < popupUpdateInterval) ∧
    1 / 2 ≤ |(-15 / 2 : ℚ)| ∧
    (newTier (progress ROOM_WIDTH (-15 / 2)) ≠ staleStart.currentPopupTier ∨
      staleStart.activePopups.length = 0) ∧
    Contiguous (relevantPopups (isOnDarkSide (-15 / 2)) staleStart.popups) ∧
    (∀ p ∈ staleStart.activePopups,
      p.data ∈ relevantPopups (isOnDarkSide (-15 / 2)) staleStart.popups) ∧
    (scheduledTimers staleStart (updatePopups 2000 (-15 / 2) staleStart)).map Timer.popupData =
      withinCeilingNotDisplayed (maxPopups (newTier (progress ROOM_WIDTH (-15 / 2))))
        (relevantPopups (isOnDarkSide (-15 / 2)) staleStart.popups) staleStart.activePopups ∧
    withinCeilingNotDisplayed 20 staleStart.popups.negative staleStart.activePopups =
      [{ number := 11, text := "n" }, { number := 12, text := "n" },
       { number := 13, text := "n" }] :=
  have h1 : staleStart.currentScene = Scene.main := rfl
  have h2 : ¬ (2000 - staleStart.lastPopupUpdate < popupUpdateInterval) := by
    norm_num [staleStart, popupUpdateInterval]
  have h3 : 1 / 2 ≤ |(-15 / 2 : ℚ)| := by rw [abs_of_neg (by norm_num)]; norm_num
  have ht : newTier (progress ROOM_WIDTH (-15 / 2)) = 2 := by
    norm_num [newTier, progress, maxDistance, ROOM_WIDTH, abs_of_neg]
  have h4 : newTier (progress ROOM_WIDTH (-15 / 2)) ≠ staleStart.currentPopupTier ∨
      staleStart.activePopups.length = 0 := Or.inl (by rw [ht]; decide)
  have hd : isOnDarkSide (-15 / 2) = true := by simp [isOnDarkSide]; norm_num
  have h5 : Contiguous (relevantPopups (isOnDarkSide (-15 / 2)) staleStart.popups) := by
    rw [hd]
    decide
  have h6 : ∀ p ∈ staleStart.activePopups,
      p.data ∈ relevantPopups (isOnDarkSide (-15 / 2)) staleStart.popups := by
    rw [hd]
    decide
  have h := scheduled_are_first_entries_not_displayed 2000 (-15 / 2) staleStart h1 h2 h3 h4
  ⟨h1, h2, h3, h4, h5, h6, h.2.2 h5 h6, by decide⟩

/-! ## When reconciliation runs -/

/-- A call that passes the throttle in the main scene records its time. -/
theorem updatePopupsAt_lastPopupUpdate (roomWidth : ℚ) (now : Int) (x : ℚ) (s : State)
    (hscene : s.currentScene = Scene.main)
    (hthr : ¬ now - s.lastPopupUpdate < popupUpdateInterval) :
    (updatePopupsAt roomWidth now x s).lastPopupUpdate = now := by
  by_cases hx : |x| < 1 / 2
  · rw [updatePopupsAt_neutral roomWidth now x s hscene hthr hx]
    rfl
  · rw [updatePopupsAt_outside roomWidth now x s hscene hthr hx]
    by_cases hrec : needsReconcile (newTier (progress roomWidth x))
        { s with lastPopupUpdate := now } = true
    · rw [if_pos hrec]
      cases isOnDarkSide x <;> rfl
    · rw [if_neg hrec]
      cases isOnDarkSide x <;> rfl

/-- The scene is never changed by `updatePopups`. -/
theorem updatePopupsAt_currentScene (roomWidth : ℚ) (now : Int) (x : ℚ) (s : State) :
    (updatePopupsAt roomWidth now x s).currentScene = s.currentScene := by
  by_cases hscene : s.currentScene = Scene.main
  · by_cases hthr : now - s.lastPopupUpdate < popupUpdateInterval
    · rw [updatePopupsAt_throttled roomWidth now x s hthr]
    · by_cases hx : |x| < 1 / 2
      · rw [updatePopupsAt_neutral roomWidth now x s hscene hthr hx]
        rfl
      · rw [updatePopupsAt_outside roomWidth now x s hscene hthr hx]
        by_cases hrec : needsReconcile (newTier (progress roomWidth x))
            { s with lastPopupUpdate := now } = true
        · rw [if_pos hrec]
          cases isOnDarkSide x <;> rfl
        · rw [if_neg hrec]
          cases isOnDarkSide x <;> rfl
  · rw [updatePopupsAt_not_main roomWidth now x s hscene]

/-- Outside the dead zone, a call whose tier equals `currentPopupTier` while some popup is
active skips the reconciliation branch, whatever the side: nothing is removed and nothing
is scheduled. -/
theorem same_tier_skips_reconcile (now : Int) (x : ℚ) (s : State)
    (hscene : s.currentScene = Scene.main)
    (hthr : ¬ now - s.lastPopupUpdate < popupUpdateInterval)
    (hx : 1 / 2 ≤ |x|)
    (htier : newTier (progress ROOM_WIDTH x) = s.currentPopupTier)
    (hact : s.activePopups.length ≠ 0) :
    (updatePopups now x s).activePopups = s.activePopups ∧
    (updatePopups now x s).timers = s.timers := by
  have hrec : ¬ needsReconcile (newTier (progress ROOM_WIDTH x))
      { s with lastPopupUpdate := now } = true := by
    rw [needsReconcile_iff]
    simp [htier, hact]
  have h1 := updatePopupsAt_activePopups ROOM_WIDTH now x s hscene hthr (not_lt.mpr hx)
  have h2 := updatePopupsAt_timers ROOM_WIDTH now x s hscene hthr (not_lt.mpr hx)
  rw [if_neg hrec] at h1 h2
  exact ⟨h1, by simpa using h2⟩

/-- Firing a pending timer leaves scene, throttle time, tier and catalog untouched, and
appends one popup for the timer's message. -/
theorem fireTimer_fields (isMobile : Bool) (win : Window) (random : Nat → ℚ) (rect : Rect)
    (i : Nat) (s : State) (t : Timer) (ht : s.timers.get? i = some t) :
    (fireTimer isMobile win random rect i s).currentScene = s.currentScene ∧
    (fireTimer isMobile win random rect i s).lastPopupUpdate = s.lastPopupUpdate ∧
    (fireTimer isMobile win random rect i s).currentPopupTier = s.currentPopupTier ∧
    (fireTimer isMobile win random rect i s).popups = s.popups ∧
    (fireTimer isMobile win random rect i s).timers = s.timers.eraseIdx i ∧
    (fireTimer isMobile win random rect i s).activePopups.map ActivePopup.data =
      s.activePopups.map ActivePopup.data ++ [t.popupData] := by
  unfold fireTimer
  rw [ht]
  simp [popupCallback]

/-- The pending list after a call is the previous list followed by the scheduled timers. -/
theorem timers_eq_append_scheduled (now : Int) (x : ℚ) (s : State)
    (hscene : s.currentScene = Scene.main)
    (hthr : ¬ now - s.lastPopupUpdate < popupUpdateInterval)
    (hx : 1 / 2 ≤ |x|) :
    (updatePopups now x s).timers = s.timers ++ scheduledTimers s (updatePopups now x s) := by
  have htim := updatePopupsAt_timers ROOM_WIDTH now x s hscene hthr (not_lt.mpr hx)
  rw [scheduledTimers_of_append s (updatePopups now x s) _ htim]
  exact htim

/-- C7 (evaluation of the code at the failing input): from the start state, a first call at
time 1000 and `x = -1.9` (dark side, tier 1) schedules the two dark-side messages; after
both timers fired, a call at time 2000 and `x = 1.9` passes the throttle on the light
side with the same tier 1, and it removes nothing and schedules nothing: the two dark-side
popups stay and no light-side popup is created. -/
theorem side_change_same_tier_no_reconcile :
    isOnDarkSide (-19 / 10) = true ∧ isOnDarkSide (19 / 10) = false ∧
    newTier (progress ROOM_WIDTH (-19 / 10)) = 1 ∧ newTier (progress ROOM_WIDTH (19 / 10)) = 1 ∧
    sideChangeShown.currentScene = Scene.main ∧
    ¬ (2000 - sideChangeShown.lastPopupUpdate < popupUpdateInterval) ∧
    sideChangeShown.timers = [] ∧
    sideChangeShown.activePopups.map ActivePopup.data = sampleCatalog.negative ∧
    (updatePopups 2000 (19 / 10) sideChangeShown).activePopups = sideChangeShown.activePopups ∧
    (updatePopups 2000 (19 / 10) sideChangeShown).timers = sideChangeShown.timers ∧
    scheduledTimers sideChangeShown (updatePopups 2000 (19 / 10) sideChangeShown) = [] := by
  have hd1 : isOnDarkSide (-19 / 10) = true := by simp [isOnDarkSide]; norm_num
  have hd2 : isOnDarkSide (19 / 10) = false := by simp [isOnDarkSide]; norm_num
  have ht1 : newTier (progress ROOM_WIDTH (-19 / 10)) = 1 := by
    norm_num [newTier, progress, maxDistance, ROOM_WIDTH, abs_of_neg]
  have ht2 : newTier (progress ROOM_WIDTH (19 / 10)) = 1 := by
    norm_num [newTier, progress, maxDistance, ROOM_WIDTH, abs_of_pos]
  -- the first call
  have a1 : sampleStart.currentScene = Scene.main := rfl
  have a2 : ¬ (1000 - sampleStart.lastPopupUpdate < popupUpdateInterval) := by
    norm_num [sampleStart, popupUpdateInterval]
  have a3 : 1 / 2 ≤ |(-19 / 10 : ℚ)| := by rw [abs_of_neg (by norm_num)]; norm_num
  have f_scene : sideChangeFirst.currentScene = Scene.main :=
    updatePopupsAt_currentScene ROOM_WIDTH 1000 (-19 / 10) sampleStart
  have f_last : sideChangeFirst.lastPopupUpdate = 1000 :=
    updatePopupsAt_lastPopupUpdate ROOM_WIDTH 1000 (-19 / 10) sampleStart a1 a2
  have f_tier : sideChangeFirst.currentPopupTier = 1 :=
    (updatePopupsAt_tier ROOM_WIDTH 1000 (-19 / 10) sampleStart a1 a2 (not_lt.mpr a3)).trans ht1
  have f_act : sideChangeFirst.activePopups = [] :=
    (activePopups_reconcile 1000 (-19 / 10) sampleStart a1 a2 a3 (Or.inr rfl)).trans rfl
  have f_sched := scheduledTimers_reconcile 1000 (-19 / 10) sampleStart a1 a2 a3 (Or.inr rfl)
  have f_app := (timers_eq_append_scheduled 1000 (-19 / 10) sampleStart a1 a2 a3)
  have f_tim : sideChangeFirst.timers =
      [mkTimer 1000 true (0, { number := 1, text := "n1" }),
       mkTimer 1000 true (1, { number := 2, text := "n2" })] := by
    show (updatePopups 1000 (-19 / 10) sampleStart).timers = _
    rw [f_app, f_sched, ht1, hd1]
    decide
  -- the two timers fire
  have g := fireTimer_fields false sampleWindow (fun _ => 0) sampleRect 0 sideChangeFirst
    (mkTimer 1000 true (0, { number := 1, text := "n1" })) (by rw [f_tim]; rfl)
  have g_tim : (fireTimer false sampleWindow (fun _ => 0) sampleRect 0 sideChangeFirst).timers =
      [mkTimer 1000 true (1, { number := 2, text := "n2" })] := by
    rw [g.2.2.2.2.1, f_tim]; rfl
  have k := fireTimer_fields false sampleWindow (fun _ => 0) sampleRect 0
    (fireTimer false sampleWindow (fun _ => 0) sampleRect 0 sideChangeFirst)
    (mkTimer 1000 true (1, { number := 2, text := "n2" })) (by rw [g_tim]; rfl)
  have s_scene : sideChangeShown.currentScene = Scene.main := (k.1.trans g.1).trans f_scene
  have s_last : sideChangeShown.lastPopupUpdate = 1000 := (k.2.1.trans g.2.1).trans f_last
  have s_tier : sideChangeShown.currentPopupTier = 1 := (k.2.2.1.trans g.2.2.1).trans f_tier
  have s_tim : sideChangeShown.timers = [] := by
    show (fireTimer false sampleWindow (fun _ => 0) sampleRect 0
      (fireTimer false sampleWindow (fun _ => 0) sampleRect 0 sideChangeFirst)).timers = []
    rw [k.2.2.2.2.1, g_tim]; rfl
  have s_data : sideChangeShown.activePopups.map ActivePopup.data = sampleCatalog.negative := by
    show (fireTimer false sampleWindow (fun _ => 0) sampleRect 0
      (fireTimer false sampleWindow (fun _ => 0) sampleRect 0
        sideChangeFirst)).activePopups.map ActivePopup.data = _
    rw [k.2.2.2.2.2, g.2.2.2.2.2, f_act]; rfl
  have s_thr : ¬ (2000 - sideChangeShown.lastPopupUpdate < popupUpdateInterval) := by
    rw [s_last]; norm_num [popupUpdateInterval]
  have s_len : sideChangeShown.activePopups.length ≠ 0 := by
    have := congrArg List.length s_data
    rw [List.length_map] at this
    rw [this]; decide
  have b3 : 1 / 2 ≤ |(19 / 10 : ℚ)| := by rw [abs_of_pos (by norm_num)]; norm_num
  have r := same_tier_skips_reconcile 2000 (19 / 10) sideChangeShown s_scene s_thr b3
    (ht2.trans s_tier.symm) s_len
  refine ⟨hd1, hd2, ht1, ht2, s_scene, s_thr, s_tim, s_data, r.1, r.2, ?_⟩
  simp [scheduledTimers, r.2]

/-- C8: for two calls in the main scene at times `t1 <= t2` with `t2 - t1 < 1000` ms, the
first of which passed the throttle, the second call changes nothing, for every camera
position: no popup is created or removed, no timer is scheduled, and `currentPopupTier`
and `lastPopupUpdate` keep their values.  The same holds in any later state that still
has `lastPopupUpdate = t1`, such as after staggered timers have fired. -/
theorem throttled_call_changes_nothing (t1 t2 : Int) (x1 x2 : ℚ) (s0 : State)
    (hscene : s0.currentScene = Scene.main)
    (hfirst : ¬ t1 - s0.lastPopupUpdate < popupUpdateInterval)
    (_hle : t1 ≤ t2) (hlt : t2 - t1 < 1000) :
    updatePopups t2 x2 (updatePopups t1 x1 s0) = updatePopups t1 x1 s0 ∧
    (updatePopups t2 x2 (updatePopups t1 x1 s0)).activePopups =
      (updatePopups t1 x1 s0).activePopups ∧
    scheduledTimers (updatePopups t1 x1 s0) (updatePopups t2 x2 (updatePopups t1 x1 s0)) = [] ∧
    (updatePopups t2 x2 (updatePopups t1 x1 s0)).currentPopupTier =
      (updatePopups t1 x1 s0).currentPopupTier ∧
    (updatePopups t2 x2 (updatePopups t1 x1 s0)).lastPopupUpdate = t1 ∧
    (∀ s : State, s.lastPopupUpdate = t1 → updatePopups t2 x2 s = s) := by
  have hlast : (updatePopups t1 x1 s0).lastPopupUpdate = t1 :=
    updatePopupsAt_lastPopupUpdate ROOM_WIDTH t1 x1 s0 hscene hfirst
  have hgen : ∀ s : State, s.lastPopupUpdate = t1 → updatePopups t2 x2 s = s := by
    intro s hs
    apply updatePopupsAt_throttled
    rw [hs]
    exact hlt
  have heq := hgen _ hlast
  rw [heq]
  exact ⟨rfl, rfl, by simp [scheduledTimers], rfl, hlast, hgen⟩

/-- Witness for C8: a reconciling call at time 1000 and a second call 999 ms later on the
other side of the room. -/
theorem throttled_call_changes_nothing_witness :
    sampleStart.currentScene = Scene.main ∧
    ¬ (1000 - sampleStart.lastPopupUpdate < popupUpdateInterval) ∧
    (1000 : Int) ≤ 1999 ∧ (1999 : Int) - 1000 < 1000 ∧
    updatePopups 1999 15 (updatePopups 1000 (-3) sampleStart) =
      updatePopups 1000 (-3) sampleStart :=
  have h1 : sampleStart.currentScene = Scene.main := rfl
  have h2 : ¬ (1000 - sampleStart.lastPopupUpdate < popupUpdateInterval) := by
    norm_num [sampleStart, popupUpdateInterval]
  have h3 : (1000 : Int) ≤ 1999 := by norm_num
  have h4 : (1999 : Int) - 1000 < 1000 := by norm_num
  ⟨h1, h2, h3, h4, (throttled_call_changes_nothing 1000 1999 (-3) 15 sampleStart h1 h2 h3 h4).1⟩

/-! ## Placement of a new popup -/

/-- The overlap test, as a proposition. -/
theorem overlapsRect_iff (x y : ℚ) (r : Rect) :
    overlapsRect x y r = true ↔
      (x < r.right + 20 ∧ x + 350 > r.left - 20 ∧ y < r.bottom + 20 ∧ y + 80 > r.top - 20) := by
  simp [overlapsRect, and_assoc]

/-- A position is valid exactly when it overlaps no active popup. -/
theorem checkPosition_iff (x y : ℚ) (aps : List ActivePopup) :
    checkPosition x y aps = true ↔
      ∀ p ∈ aps, ¬ (x < p.element.rect.right + 20 ∧ x + 350 > p.element.rect.left - 20 ∧
        y < p.element.rect.bottom + 20 ∧ y + 80 > p.element.rect.top - 20) := by
  induction aps with
  | nil => simp [checkPosition]
  | cons a l ih =>
    unfold checkPosition
    by_cases h : overlapsRect x y a.element.rect = true
    · rw [if_pos h]
      simp only [Bool.false_eq_true, List.mem_cons, forall_eq_or_imp, false_iff]
      intro h2
      exact h2.1 ((overlapsRect_iff _ _ _).mp h)
    · rw [if_neg h, ih]
      simp only [List.mem_cons, forall_eq_or_imp]
      exact ⟨fun h2 => ⟨fun h3 => h ((overlapsRect_iff _ _ _).mpr h3), h2⟩, fun h2 => h2.2⟩

/-- A position is invalid exactly when it overlaps some active popup. -/
theorem checkPosition_false_iff (x y : ℚ) (aps : List ActivePopup) :
    checkPosition x y aps = false ↔
      ∃ p ∈ aps, (x < p.element.rect.right + 20 ∧ x + 350 > p.element.rect.left - 20 ∧
        y < p.element.rect.bottom + 20 ∧ y + 80 > p.element.rect.top - 20) := by
  rw [← Bool.not_eq_true, checkPosition_iff]
  push_neg
  rfl

/-- Invariant of the placement loop, from any state that has not yet found a position:
either it stops on the first valid candidate from `st.attempts` on, or it stops after
attempt 20 with every candidate rejected. -/
theorem placementLoop_spec (win : Window) (random : Nat → ℚ) (aps : List ActivePopup)
    (st : Placement) (hv : st.validPosition = false) (ha : st.attempts ≤ 20) :
    ((placementLoop win random aps st).validPosition = true →
      ∃ k, st.attempts ≤ k ∧ k < 20 ∧
        (placementLoop win random aps st).attempts = k + 1 ∧
        (placementLoop win random aps st).x = some (candidateX win random k) ∧
        (placementLoop win random aps st).y = some (candidateY win random k) ∧
        checkPosition (candidateX win random k) (candidateY win random k) aps = true ∧
        ∀ j, st.attempts ≤ j → j < k →
          checkPosition (candidateX win random j) (candidateY win random j) aps = false) ∧
    ((placementLoop win random aps st).validPosition = false →
      (placementLoop win random aps st).attempts = 20 ∧
        ∀ j, st.attempts ≤ j → j < 20 →
          checkPosition (candidateX win random j) (candidateY win random j) aps = false) := by
  generalize hn : 20 - st.attempts = n
  induction n generalizing st with
  | zero =>
    have h20 : st.attempts = 20 := by omega
    have hstop : placementLoop win random aps st = st := by
      rw [placementLoop, if_neg (by omega)]
    rw [hstop]
    refine ⟨fun h => ?_, fun _ => ⟨h20, fun j h1 h2 => ?_⟩⟩
    · rw [hv] at h; cases h
    · omega
  | succ n ih =>
    have hlt : st.attempts < 20 := by omega
    rw [placementLoop, if_pos ⟨hv, hlt⟩]
    simp only []
    by_cases hc : checkPosition (candidateX win random st.attempts)
        (candidateY win random st.attempts) aps = true
    · rw [placementLoop, if_neg (by simp [hc])]
      refine ⟨fun _ => ⟨st.attempts, le_refl _, hlt, rfl, rfl, rfl, hc, fun j h1 h2 => ?_⟩,
        fun h => ?_⟩
      · omega
      · simp only [] at h
        rw [hc] at h; cases h
    · have hc2 : checkPosition (candidateX win random st.attempts)
          (candidateY win random st.attempts) aps = false := by simpa using hc
      obtain ⟨ih1, ih2⟩ := ih
        { x := some (candidateX win random st.attempts),
          y := some (candidateY win random st.attempts),
          attempts := st.attempts + 1,
          validPosition := checkPosition (candidateX win random st.attempts)
            (candidateY win random st.attempts) aps }
        hc2 (by simp only []; omega) (by simp only []; omega)
      refine ⟨fun h => ?_, fun h => ?_⟩
      · obtain ⟨k, hk1, hk2, hk3, hk4, hk5, hk6, hk7⟩ := ih1 h
        refine ⟨k, by simp only [] at hk1; omega, hk2, hk3, hk4, hk5, hk6, fun j h1 h2 => ?_⟩
        by_cases hj : j = st.attempts
        · rw [hj]; exact hc2
        · exact hk7 j (by simp only []; omega) h2
      · obtain ⟨hk1, hk2⟩ := ih2 h
        refine ⟨hk1, fun j h1 h2 => ?_⟩
        by_cases hj : j = st.attempts
        · rw [hj]; exact hc2
        · exact hk2 j (by simp only []; omega) h2

/-- The loop always stops after at most 20 draws, with a valid position or 20 attempts. -/
theorem placementLoop_stops (win : Window) (random : Nat → ℚ) (aps : List ActivePopup) :
    (placementLoop win random aps initialPlacement).attempts ≤ 20 ∧
    ((placementLoop win random aps initialPlacement).validPosition = true ∨
      (placementLoop win random aps initialPlacement).attempts = 20) := by
  obtain ⟨h1, h2⟩ := placementLoop_spec win random aps initialPlacement rfl (by decide)
  cases hv : (placementLoop win random aps initialPlacement).validPosition with
  | true =>
    obtain ⟨k, _, hk, hk3, _⟩ := h1 hv
    exact ⟨by omega, Or.inl rfl⟩
  | false =>
    exact ⟨by rw [(h2 hv).1], Or.inr (h2 hv).1⟩

/-- If candidate `k` is the first valid one among the first 20, the loop accepts it. -/
theorem placementLoop_accepts (win : Window) (random : Nat → ℚ) (aps : List ActivePopup)
    (k : Nat) (hk : k < 20)
    (hc : checkPosition (candidateX win random k) (candidateY win random k) aps = true) :
    (placementLoop win random aps initialPlacement).validPosition = true := by
  obtain ⟨_, h2⟩ := placementLoop_spec win random aps initialPlacement rfl (by decide)
  cases hv : (placementLoop win random aps initialPlacement).validPosition with
  | true => rfl
  | false =>
    have := (h2 hv).2 k (Nat.zero_le _) hk
    rw [hc] at this
    cases this

/-- If all 20 candidates are rejected, the loop ends without a valid position. -/
theorem placementLoop_exhausted (win : Window) (random : Nat → ℚ) (aps : List ActivePopup)
    (hall : ∀ k, k < 20 →
      checkPosition (candidateX win random k) (candidateY win random k) aps = false) :
    (placementLoop win random aps initialPlacement).validPosition = false := by
  obtain ⟨h1, _⟩ := placementLoop_spec win random aps initialPlacement rfl (by decide)
  cases hv : (placementLoop win random aps initialPlacement).validPosition with
  | false => rfl
  | true =>
    obtain ⟨k, _, hk, _, _, _, hk6, _⟩ := h1 hv
    rw [hall k hk] at hk6
    cases hk6

/-- C9: on desktop, for every stream of random draws and every list of active popups, if
the placement search accepts a candidate, then the position given to the popup is the
first candidate in draw order (candidate `k`, with `k < 20`) whose 350x80 rectangle does
not overlap any active popup rectangle extended by a 20-unit margin: it overlaps none, and
every earlier candidate overlaps some active popup. -/
theorem accepted_candidate_is_first_free (win : Window) (random : Nat → ℚ)
    (aps : List ActivePopup)
    (hvalid : (placementLoop win random aps initialPlacement).validPosition = true) :
    ∃ k, k < 20 ∧
      (placementLoop win random aps initialPlacement).attempts = k + 1 ∧
      popupPosition false win random aps =
        (some (candidateX win random k), some (candidateY win random k)) ∧
      (∀ p ∈ aps, ¬ (candidateX win random k < p.element.rect.right + 20 ∧
        candidateX win random k + 350 > p.element.rect.left - 20 ∧
        candidateY win random k < p.element.rect.bottom + 20 ∧
        candidateY win random k + 80 > p.element.rect.top - 20)) ∧
      (∀ j, j < k → ∃ p ∈ aps, (candidateX win random j < p.element.rect.right + 20 ∧
        candidateX win random j + 350 > p.element.rect.left - 20 ∧
        candidateY win random j < p.element.rect.bottom + 20 ∧
        candidateY win random j + 80 > p.element.rect.top - 20)) := by
  obtain ⟨h1, _⟩ := placementLoop_spec win random aps initialPlacement rfl (by decide)
  obtain ⟨k, _, hk, hk3, hk4, hk5, hk6, hk7⟩ := h1 hvalid
  refine ⟨k, hk, hk3, ?_, (checkPosition_iff _ _ _).mp hk6, fun j hj => ?_⟩
  · unfold popupPosition
    simp only [Bool.false_eq_true, if_false]
    rw [if_neg (by rw [hvalid]; simp), hk4, hk5]
  · exact (checkPosition_false_iff _ _ _).mp (hk7 j (Nat.zero_le _) hj)

/-- Witness for C9: one popup at (50, 50); the first candidate (50, 50) overlaps it, the
second candidate (325, 360) is free and is accepted. -/
theorem accepted_candidate_is_first_free_witness :
    (placementLoop sampleWindow sampleDraws [samplePopup { number := 1, text := "n1" } 50 50]
      initialPlacement).validPosition = true ∧
    candidateX sampleWindow sampleDraws 1 = 325 ∧ candidateY sampleWindow sampleDraws 1 = 360 ∧
    ∃ k, k < 20 ∧
      (placementLoop sampleWindow sampleDraws [samplePopup { number := 1, text := "n1" } 50 50]
        initialPlacement).attempts = k + 1 ∧
      popupPosition false sampleWindow sampleDraws
          [samplePopup { number := 1, text := "n1" } 50 50] =
        (some (candidateX sampleWindow sampleDraws k),
         some (candidateY sampleWindow sampleDraws k)) :=
  have hc : checkPosition (candidateX sampleWindow sampleDraws 1)
      (candidateY sampleWindow sampleDraws 1)
      [samplePopup { number := 1, text := "n1" } 50 50] = true := by
    rw [checkPosition_iff]
    intro p hp
    rw [List.mem_singleton] at hp
    subst hp
    norm_num [candidateX, candidateY, sampleDraws, sampleWindow, samplePopup]
  have hv := placementLoop_accepts sampleWindow sampleDraws
    [samplePopup { number := 1, text := "n1" } 50 50] 1 (by decide) hc
  have h := accepted_candidate_is_first_free sampleWindow sampleDraws
    [samplePopup { number := 1, text := "n1" } 50 50] hv
  ⟨hv, by norm_num [candidateX, sampleDraws, sampleWindow],
    by norm_num [candidateY, sampleDraws, sampleWindow],
    h.elim fun k hk => ⟨k, hk.1, hk.2.1, hk.2.2.1⟩⟩

/-- C10: on desktop the placement search draws at most 20 candidates and always stops (with
a valid position or after attempt 20); if all 20 candidates overlap an active popup, then
for a window of width `W >= 370` the popup is placed at the grid slot of `n`, the number
of active popups: `cols = floor(W / 370)`, `x = (n mod cols) * 370 + 50`,
`y = floor(n / cols) * 100 + 50`, whatever the random draws were. -/
theorem exhausted_search_uses_grid (win : Window) (random : Nat → ℚ)
    (aps : List ActivePopup) :
    (placementLoop win random aps initialPlacement).attempts ≤ 20 ∧
    ((placementLoop win random aps initialPlacement).validPosition = true ∨
      (placementLoop win random aps initialPlacement).attempts = 20) ∧
    ((∀ k, k < 20 → ∃ p ∈ aps, (candidateX win random k < p.element.rect.right + 20 ∧
        candidateX win random k + 350 > p.element.rect.left - 20 ∧
        candidateY win random k < p.element.rect.bottom + 20 ∧
        candidateY win random k + 80 > p.element.rect.top - 20)) →
      370 ≤ win.innerWidth →
      1 ≤ win.innerWidth / 370 ∧
      (placementLoop win random aps initialPlacement).attempts = 20 ∧
      popupPosition false win random aps =
        (some (((aps.length % (win.innerWidth / 370) : Nat) : ℚ) * 370 + 50),
         some (((aps.length / (win.innerWidth / 370) : Nat) : ℚ) * 100 + 50))) := by
  obtain ⟨hs1, hs2⟩ := placementLoop_stops win random aps
  refine ⟨hs1, hs2, fun hall hw => ?_⟩
  have hall2 : ∀ k, k < 20 →
      checkPosition (candidateX win random k) (candidateY win random k) aps = false :=
    fun k hk => (checkPosition_false_iff _ _ _).mpr (hall k hk)
  have hv := placementLoop_exhausted win random aps hall2
  obtain ⟨_, h2⟩ := placementLoop_spec win random aps initialPlacement rfl (by decide)
  refine ⟨?_, (h2 hv).1, ?_⟩
  · exact (Nat.one_le_div_iff (by decide)).mpr hw
  · unfold popupPosition
    simp only [Bool.false_eq_true, if_false]
    rw [if_pos hv]
    norm_num [gridX, gridY]

/-- Witness for C10: one popup at (50, 50) in a window 1000 wide and draws that are all 0,
so that each of the 20 candidates is (50, 50); the popup goes to grid slot 1 of 2 columns,
at (420, 50). -/
theorem exhausted_search_uses_grid_witness :
    (∀ k, k < 20 → ∃ p ∈ [samplePopup { number := 1, text := "n1" } 50 50],
      (candidateX sampleWindow (fun _ => 0) k < p.element.rect.right + 20 ∧
        candidateX sampleWindow (fun _ => 0) k + 350 > p.element.rect.left - 20 ∧
        candidateY sampleWindow (fun _ => 0) k < p.element.rect.bottom + 20 ∧
        candidateY sampleWindow (fun _ => 0) k + 80 > p.element.rect.top - 20)) ∧
    370 ≤ sampleWindow.innerWidth ∧
    (placementLoop sampleWindow (fun _ => 0) [samplePopup { number := 1, text := "n1" } 50 50]
      initialPlacement).attempts = 20 ∧
    popupPosition false sampleWindow (fun _ => 0)
        [samplePopup { number := 1, text := "n1" } 50 50] = (some 420, some 50) :=
  have hall : ∀ k, k < 20 → ∃ p ∈ [samplePopup { number := 1, text := "n1" } 50 50],
      (candidateX sampleWindow (fun _ => 0) k < p.element.rect.right + 20 ∧
        candidateX sampleWindow (fun _ => 0) k + 350 > p.element.rect.left - 20 ∧
        candidateY sampleWindow (fun _ => 0) k < p.element.rect.bottom + 20 ∧
        candidateY sampleWindow (fun _ => 0) k + 80 > p.element.rect.top - 20) := by
    intro k _
    refine ⟨_, List.mem_singleton_self _, ?_⟩
    norm_num [candidateX, candidateY, samplePopup]
  have hw : 370 ≤ sampleWindow.innerWidth := by decide
  have h := (exhausted_search_uses_grid sampleWindow (fun _ => 0)
    [samplePopup { number := 1, text := "n1" } 50 50]).2.2 hall hw
  ⟨hall, hw, h.2.1, by
    rw [h.2.2]
    norm_num [sampleWindow]⟩

/-! ## Mobile placement -/

/-- C11: on a mobile form factor the position given to a new popup does not depend on the
random draws: two runs that differ only in the draws give the same final `(x, y)` and the
same state after the callback, with `x = 10` and, when the slot fits on screen
(`70 * n + 10 + 80 <= innerHeight - 100`), `y = 10 + 70 * n`, where `n` is the number of
popups active on arrival. -/
theorem mobile_position_ignores_random (win : Window) (random random2 : Nat → ℚ)
    (aps : List ActivePopup) (rect : Rect) (t : Timer) (s : State) :
    popupPosition true win random aps = popupPosition true win random2 aps ∧
    popupCallback true win random rect t s = popupCallback true win random2 rect t s ∧
    (popupPosition true win random aps).1 = some 10 ∧
    (¬ ((aps.length : Int) * 70 + 10 + 80 > (win.innerHeight : Int) - 100) →
      (popupPosition true win random aps).2 = some (10 + 70 * (aps.length : ℚ))) := by
  refine ⟨rfl, rfl, rfl, fun hfit => ?_⟩
  have hy : mobileY win aps.length = (aps.length : Int) * 70 + 10 := by
    unfold mobileY
    simp only []
    rw [if_neg hfit]
  show some ((mobileY win aps.length : Int) : ℚ) = _
  rw [hy]
  push_cast
  ring_nf

/-- Witness for C11: three popups active in a window of height 800; the fourth popup goes
to (10, 220) whatever the draws. -/
theorem mobile_position_ignores_random_witness :
    ¬ (((List.replicate 3 (samplePopup { number := 1, text := "n1" } 10 10)).length : Int) * 70
        + 10 + 80 > (sampleWindow.innerHeight : Int) - 100) ∧
    popupPosition true sampleWindow sampleDraws
        (List.replicate 3 (samplePopup { number := 1, text := "n1" } 10 10)) =
      popupPosition true sampleWindow (fun _ => 0)
        (List.replicate 3 (samplePopup { number := 1, text := "n1" } 10 10)) ∧
    (popupPosition true sampleWindow sampleDraws
        (List.replicate 3 (samplePopup { number := 1, text := "n1" } 10 10))).2 =
      some (10 + 70 * ((List.replicate 3
        (samplePopup { number := 1, text := "n1" } 10 10)).length : ℚ)) :=
  have hfit : ¬ (((List.replicate 3 (samplePopup { number := 1, text := "n1" } 10 10)).length
      : Int) * 70 + 10 + 80 > (sampleWindow.innerHeight : Int) - 100) := by
    simp [sampleWindow]
  have h := mobile_position_ignores_random sampleWindow sampleDraws (fun _ => 0)
    (List.replicate 3 (samplePopup { number := 1, text := "n1" } 10 10)) sampleRect
    (mkTimer 0 true (0, { number := 1, text := "n1" })) sampleStart
  ⟨hfit, h.1, h.2.2.2 hfit⟩

/-! ## Scene switching and popups -/

/-- C12: switching from Main to Rooftop (`switchToRooftop` followed by its deferred cleanup)
from any state, whatever the number of active popups, leaves `activePopups` and
`active3DPopups` both empty in the rooftop scene; the cleanup empties them in whatever
state it runs.  Example: from a state with 5 active popups.  As events: from any
application state in the main scene, a canvas click on the button followed by the cleanup
timer leaves both arrays empty. -/
theorem rooftop_switch_clears_popups (s : State) :
    (rooftopCleanup (switchToRooftop s)).activePopups = [] ∧
    (rooftopCleanup (switchToRooftop s)).active3DPopups = [] ∧
    (rooftopCleanup (switchToRooftop s)).currentScene = Scene.rooftop ∧
    (∀ s2 : State, (rooftopCleanup s2).activePopups = [] ∧
      (rooftopCleanup s2).active3DPopups = []) ∧
    sampleFive.activePopups.length = 5 ∧
    (rooftopCleanup (switchToRooftop sampleFive)).activePopups.length = 0 ∧
    (∀ a : App, a.state.currentScene = Scene.main →
      (step Event.cleanupTimer (step (Event.canvasClick true true) a)).state =
        rooftopCleanup (switchToRooftop a.state)) := by
  refine ⟨rfl, rfl, rfl, fun _ => ⟨rfl, rfl⟩, rfl, rfl, fun a hm => ?_⟩
  have h1 : step (Event.canvasClick true true) a =
      { a with state := switchToRooftop a.state, pendingCleanups := a.pendingCleanups + 1 } := by
    show canvasClickHandler true true a = _
    simp [canvasClickHandler, hm]
  rw [h1]
  have heq : ∀ b : App, step Event.cleanupTimer b =
      if b.pendingCleanups = 0 then b
      else { b with state := rooftopCleanup b.state,
                    pendingCleanups := b.pendingCleanups - 1 } := fun _ => rfl
  rw [heq, if_neg (by simp)]

/-- Witness for C12: the application in the main scene with 5 active popups. -/
theorem rooftop_switch_clears_popups_witness :
    ({ sampleStarted with state := sampleFive } : App).state.currentScene = Scene.main ∧
    ({ sampleStarted with state := sampleFive } : App).state.activePopups.length = 5 ∧
    (step Event.cleanupTimer (step (Event.canvasClick true true)
      { sampleStarted with state := sampleFive })).state =
        rooftopCleanup (switchToRooftop sampleFive) ∧
    (rooftopCleanup (switchToRooftop sampleFive)).activePopups = [] :=
  ⟨rfl, rfl,
    (rooftop_switch_clears_popups sampleFive).2.2.2.2.2.2
      { sampleStarted with state := sampleFive } rfl,
    rfl⟩

/-- Firing a timer never changes the scene. -/
theorem fireTimer_currentScene (isMobile : Bool) (win : Window) (random : Nat → ℚ)
    (rect : Rect) (i : Nat) (s : State) :
    (fireTimer isMobile win random rect i s).currentScene = s.currentScene := by
  unfold fireTimer
  cases h : s.timers.get? i with
  | none => rfl
  | some t => rfl

/-- A click on the canvas, case by case. -/
theorem canvasClickHandler_cases (isLocked hitsButton : Bool) (a : App) :
    (canvasClickHandler isLocked hitsButton a = a) ∨
    (isLocked = true ∧ hitsButton = true ∧ a.state.currentScene = Scene.main ∧
      canvasClickHandler isLocked hitsButton a =
        { a with state := switchToRooftop a.state, pendingCleanups := a.pendingCleanups + 1 }) ∨
    (isLocked = true ∧ hitsButton = true ∧ a.state.currentScene = Scene.rooftop ∧
      canvasClickHandler isLocked hitsButton a = { a with state := switchToMain a.state }) := by
  cases isLocked with
  | false => left; rfl
  | true =>
    cases hitsButton with
    | false =>
      left
      by_cases hm : a.state.currentScene = Scene.main
      · simp [canvasClickHandler, hm]
      · by_cases hr : a.state.currentScene = Scene.rooftop
        · simp [canvasClickHandler, hr]
        · simp [canvasClickHandler, hm, hr]
    | true =>
      by_cases hm : a.state.currentScene = Scene.main
      · right; left
        exact ⟨rfl, rfl, hm, by simp [canvasClickHandler, hm]⟩
      · by_cases hr : a.state.currentScene = Scene.rooftop
        · right; right
          exact ⟨rfl, rfl, hr, by simp [canvasClickHandler, hr]⟩
        · left
          simp [canvasClickHandler, hm, hr]

/-- An animation frame changes neither the scene nor the flags. -/
theorem step_frame (now : Int) (cameraX : ℚ) (a : App) :
    (step (Event.frame now cameraX) a).state.currentScene = a.state.currentScene ∧
    (step (Event.frame now cameraX) a).gameStarted = a.gameStarted ∧
    (step (Event.frame now cameraX) a).tutorialVisible = a.tutorialVisible ∧
    (step (Event.frame now cameraX) a).homeScreenVisible = a.homeScreenVisible := by
  have heq : step (Event.frame now cameraX) a =
      if a.state.currentScene = Scene.main then
        { a with state := updatePopups now cameraX a.state }
      else a := rfl
  by_cases hm : a.state.currentScene = Scene.main
  · rw [heq, if_pos hm]
    exact ⟨updatePopupsAt_currentScene ROOM_WIDTH now cameraX a.state, rfl, rfl, rfl⟩
  · rw [heq, if_neg hm]
    exact ⟨rfl, rfl, rfl, rfl⟩

/-- A cleanup changes neither the scene nor the flags. -/
theorem step_cleanupTimer (a : App) :
    (step Event.cleanupTimer a).state.currentScene = a.state.currentScene ∧
    (step Event.cleanupTimer a).gameStarted = a.gameStarted ∧
    (step Event.cleanupTimer a).tutorialVisible = a.tutorialVisible ∧
    (step Event.cleanupTimer a).homeScreenVisible = a.homeScreenVisible := by
  have heq : step Event.cleanupTimer a =
      if a.pendingCleanups = 0 then a
      else { a with state := rooftopCleanup a.state,
                    pendingCleanups := a.pendingCleanups - 1 } := rfl
  by_cases hp : a.pendingCleanups = 0
  · rw [heq, if_pos hp]
    exact ⟨rfl, rfl, rfl, rfl⟩
  · rw [heq, if_neg hp]
    exact ⟨rfl, rfl, rfl, rfl⟩

/-- What one event can do to the scene: nothing, or one of the three assignments of
`currentScene`, each under the guard of its handler. -/
theorem step_scene (e : Event) (a : App) :
    (step e a).state.currentScene = a.state.currentScene ∨
    (e = Event.continueClick ∧ a.tutorialVisible = true ∧
      (step e a).state.currentScene = Scene.main) ∨
    (e = Event.canvasClick true true ∧ a.state.currentScene = Scene.main ∧
      (step e a).state = switchToRooftop a.state) ∨
    (e = Event.canvasClick true true ∧ a.state.currentScene = Scene.rooftop ∧
      (step e a).state = switchToMain a.state) := by
  cases e with
  | startClick =>
    left
    by_cases hv : a.homeScreenVisible = true <;> simp [step, hv, startHandler]
  | continueClick =>
    by_cases h : a.tutorialVisible = true
    · right; left
      exact ⟨rfl, h, by simp [step, h, continueHandler]⟩
    · left
      simp [step, h]
  | canvasClick isLocked hitsButton =>
    rcases canvasClickHandler_cases isLocked hitsButton a with h | ⟨h1, h2, h3, h4⟩ | ⟨h1, h2, h3, h4⟩
    · left
      show (canvasClickHandler isLocked hitsButton a).state.currentScene = _
      rw [h]
    · right; right; left
      subst h1 h2
      refine ⟨rfl, h3, ?_⟩
      show (canvasClickHandler true true a).state = _
      rw [h4]
    · right; right; right
      subst h1 h2
      refine ⟨rfl, h3, ?_⟩
      show (canvasClickHandler true true a).state = _
      rw [h4]
  | frame now cameraX =>
    left
    exact (step_frame now cameraX a).1
  | popupTimer isMobile win random rect i =>
    left
    exact fireTimer_currentScene isMobile win random rect i a.state
  | cleanupTimer =>
    left
    exact (step_cleanupTimer a).1

/-- The scene invariant holds at load time. -/
theorem sceneInv_initial (popups : PopupCatalog) : SceneInv (initialApp popups) := by
  simp [SceneInv, initialApp]

/-- Every event preserves the scene invariant. -/
theorem sceneInv_step (e : Event) (a : App) (h : SceneInv a) : SceneInv (step e a) := by
  obtain ⟨h1, h2, h3, h4⟩ := h
  cases e with
  | startClick =>
    have heq : step Event.startClick a =
        if a.homeScreenVisible = true then startHandler a else a := rfl
    by_cases hv : a.homeScreenVisible = true
    · have hh := h3 hv
      rw [heq, if_pos hv]
      refine ⟨h1, fun _ => hh, ?_, fun _ => rfl⟩
      intro hc
      simp [startHandler] at hc
    · rw [heq, if_neg hv]
      exact ⟨h1, h2, h3, h4⟩
  | continueClick =>
    have heq : step Event.continueClick a =
        if a.tutorialVisible = true then continueHandler a else a := rfl
    by_cases hv : a.tutorialVisible = true
    · rw [heq, if_pos hv]
      have hhome := h4 hv
      refine ⟨⟨fun _ => by simp [continueHandler], fun _ => rfl⟩, ?_, ?_, ?_⟩
      · intro hc
        simp [continueHandler] at hc
      · intro hc
        have hc2 : a.homeScreenVisible = true := hc
        rw [hhome] at hc2
        cases hc2
      · intro hc
        simp [continueHandler] at hc
    · rw [heq, if_neg hv]
      exact ⟨h1, h2, h3, h4⟩
  | canvasClick isLocked hitsButton =>
    show SceneInv (canvasClickHandler isLocked hitsButton a)
    rcases canvasClickHandler_cases isLocked hitsButton a with h | ⟨_, _, h3', h5⟩ | ⟨_, _, h3', h5⟩
    · rw [h]; exact ⟨h1, h2, h3, h4⟩
    · rw [h5]
      have hg : a.gameStarted = true := h1.mpr (by rw [h3']; decide)
      refine ⟨⟨fun _ => by simp [switchToRooftop], fun _ => hg⟩, fun hc => ?_, fun hc => ?_, h4⟩
      · have := h2 hc; rw [h3'] at this; cases this
      · have := h3 hc; rw [h3'] at this; cases this
    · rw [h5]
      have hg : a.gameStarted = true := h1.mpr (by rw [h3']; decide)
      refine ⟨⟨fun _ => by simp [switchToMain], fun _ => hg⟩, fun hc => ?_, fun hc => ?_, h4⟩
      · have := h2 hc; rw [h3'] at this; cases this
      · have := h3 hc; rw [h3'] at this; cases this
  | frame now cameraX =>
    obtain ⟨f1, f2, f3, f4⟩ := step_frame now cameraX a
    unfold SceneInv
    rw [f1, f2, f3, f4]
    exact ⟨h1, h2, h3, h4⟩
  | popupTimer isMobile win random rect i =>
    have f1 := fireTimer_currentScene isMobile win random rect i a.state
    show SceneInv { a with state := fireTimer isMobile win random rect i a.state }
    unfold SceneInv
    simp only []
    rw [f1]
    exact ⟨h1, h2, h3, h4⟩
  | cleanupTimer =>
    obtain ⟨f1, f2, f3, f4⟩ := step_cleanupTimer a
    unfold SceneInv
    rw [f1, f2, f3, f4]
    exact ⟨h1, h2, h3, h4⟩

/-- Every reachable state satisfies the scene invariant. -/
theorem sceneInv_run (es : List Event) (a : App) (h : SceneInv a) : SceneInv (run es a) := by
  induction es generalizing a with
  | nil => exact h
  | cons e es ih => exact ih (step e a) (sceneInv_step e a h)

/-- Every reachable state satisfies the scene invariant. -/
theorem sceneInv_of_reachable (popups : PopupCatalog) (a : App) (h : Reachable popups a) :
    SceneInv a := by
  obtain ⟨es, rfl⟩ := h
  exact sceneInv_run es _ (sceneInv_initial popups)

/-- In a reachable state in the main or rooftop scene the game has started. -/
theorem gameStarted_of_reachable (popups : PopupCatalog) (a : App) (h : Reachable popups a)
    (hs : a.state.currentScene ≠ Scene.home) : a.gameStarted = true :=
  (sceneInv_of_reachable popups a h).1.mpr hs

/-- Once the scene is not `home`, no run of events makes it `home` again. -/
theorem run_never_home (es : List Event) (a : App) (h : a.state.currentScene ≠ Scene.home) :
    (run es a).state.currentScene ≠ Scene.home := by
  induction es generalizing a with
  | nil => exact h
  | cons e es ih =>
    apply ih (step e a)
    rcases step_scene e a with h0 | ⟨_, _, h0⟩ | ⟨_, _, h0⟩ | ⟨_, _, h0⟩
    · rw [h0]; exact h
    · rw [h0]; decide
    · rw [h0]; simp [switchToRooftop]
    · rw [h0]; simp [switchToMain]

/-- C19: the scene mode is a state machine over `home`, `main`, `rooftop` that starts in
`home`; in every reachable state the only events that change the mode are the continue
button (home to main), a canvas click that calls `switchToRooftop` (main to rooftop) and
a canvas click that calls `switchToMain` (rooftop to main); exactly one mode is current at
any time; no handler assigns `home`, and once the mode has left `home` no run of events
brings it back. -/
theorem scene_mode_machine (popups : PopupCatalog) :
    (initialApp popups).state.currentScene = Scene.home ∧
    (∀ a : App, Reachable popups a → ∀ e : Event,
      (step e a).state.currentScene ≠ a.state.currentScene →
        (a.state.currentScene = Scene.home ∧ e = Event.continueClick ∧
          (step e a).state.currentScene = Scene.main) ∨
        (a.state.currentScene = Scene.main ∧ e = Event.canvasClick true true ∧
          (step e a).state = switchToRooftop a.state ∧
          (step e a).state.currentScene = Scene.rooftop) ∨
        (a.state.currentScene = Scene.rooftop ∧ e = Event.canvasClick true true ∧
          (step e a).state = switchToMain a.state ∧
          (step e a).state.currentScene = Scene.main)) ∧
    (∀ a : App, (a.state.currentScene = Scene.home ∧ a.state.currentScene ≠ Scene.main ∧
        a.state.currentScene ≠ Scene.rooftop) ∨
      (a.state.currentScene = Scene.main ∧ a.state.currentScene ≠ Scene.home ∧
        a.state.currentScene ≠ Scene.rooftop) ∨
      (a.state.currentScene = Scene.rooftop ∧ a.state.currentScene ≠ Scene.home ∧
        a.state.currentScene ≠ Scene.main)) ∧
    (∀ a : App, (continueHandler a).state.currentScene = Scene.main) ∧
    (∀ s : State, (switchToRooftop s).currentScene = Scene.rooftop ∧
      (switchToMain s).currentScene = Scene.main) ∧
    (∀ (a : App) (es : List Event), a.state.currentScene ≠ Scene.home →
      (run es a).state.currentScene ≠ Scene.home) := by
  refine ⟨rfl, ?_, ?_, fun _ => rfl, fun _ => ⟨rfl, rfl⟩, fun a es h => run_never_home es a h⟩
  · intro a hr e hne
    have hinv := sceneInv_of_reachable popups a hr
    rcases step_scene e a with h0 | ⟨h1, h2, h3⟩ | ⟨h1, h2, h3⟩ | ⟨h1, h2, h3⟩
    · exact absurd h0 hne
    · left
      exact ⟨hinv.2.1 h2, h1, h3⟩
    · right; left
      exact ⟨h2, h1, h3, by rw [h3]; rfl⟩
    · right; right
      exact ⟨h2, h1, h3, by rw [h3]; rfl⟩
  · intro a
    cases a.state.currentScene <;> simp

/-- Witness for C19: after the start and continue buttons the scene is `main`; a canvas
click on the button then changes it to `rooftop` through `switchToRooftop`. -/
theorem scene_mode_machine_witness :
    Reachable sampleCatalog sampleStarted ∧
    sampleStarted.state.currentScene = Scene.main ∧
    (step (Event.canvasClick true true) sampleStarted).state.currentScene ≠
      sampleStarted.state.currentScene ∧
    (step (Event.canvasClick true true) sampleStarted).state =
      switchToRooftop sampleStarted.state ∧
    (run [Event.canvasClick true true, Event.cleanupTimer, Event.canvasClick true true,
      Event.continueClick, Event.startClick] sampleStarted).state.currentScene ≠ Scene.home :=
  have hr : Reachable sampleCatalog sampleStarted := ⟨_, rfl⟩
  have hmain : sampleStarted.state.currentScene = Scene.main := rfl
  have hne : (step (Event.canvasClick true true) sampleStarted).state.currentScene ≠
      sampleStarted.state.currentScene := by decide
  have h := scene_mode_machine sampleCatalog
  have hedge := h.2.1 sampleStarted hr (Event.canvasClick true true) hne
  ⟨hr, hmain, hne,
    hedge.elim (fun h1 => absurd (hmain.symm.trans h1.1) (by decide))
      (fun h2 => h2.elim (fun h3 => h3.2.2.1)
        (fun h4 => absurd (hmain.symm.trans h4.1) (by decide))),
    h.2.2.2.2.2 sampleStarted _ (by decide)⟩

/-! ## Audio mixer -/

/-- Unfolding of `updateAudio` in the main scene once the game has started. -/
theorem updateAudio_main (distanceTo : Vector3 → Vector3 → ℚ) (camera : Vector3)
    (g : AudioGraph) :
    updateAudio distanceTo true Scene.main camera (some g) =
      some
        { staticGain := (updateAmbient camera.x g).staticGain
          musicGain := (updateAmbient camera.x g).musicGain
          riverSource := updateRiver distanceTo camera (updateAmbient camera.x g).riverSource
          fireSources := updateFires distanceTo camera (updateAmbient camera.x g).fireSources
          rooftopMusicGain := setGain (updateAmbient camera.x g).rooftopMusicGain 0 } := rfl

/-- Unfolding of `updateAudio` in the rooftop scene once the game has started. -/
theorem updateAudio_rooftop (distanceTo : Vector3 → Vector3 → ℚ) (camera : Vector3)
    (g : AudioGraph) :
    updateAudio distanceTo true Scene.rooftop camera (some g) =
      some
        { staticGain := setGain g.staticGain 0
          musicGain := setGain g.musicGain 0
          riverSource := g.riverSource.map (setEmitterGain 0)
          fireSources := g.fireSources.map (setEmitterGain 0)
          rooftopMusicGain := setGain g.rooftopMusicGain (3 / 10) } := rfl

/-- The ambient block touches only the two ambient gains. -/
theorem updateAmbient_fields (x : ℚ) (g : AudioGraph) :
    (updateAmbient x g).rooftopMusicGain = g.rooftopMusicGain ∧
    (updateAmbient x g).riverSource = g.riverSource ∧
    (updateAmbient x g).fireSources = g.fireSources := by
  unfold updateAmbient
  split
  · exact ⟨rfl, rfl, rfl⟩
  · split <;> exact ⟨rfl, rfl, rfl⟩

/-- The two ambient gains after the ambient block, by zone. -/
theorem updateAmbient_gains (x : ℚ) (g : AudioGraph) :
    (x < -(1 / 2) →
      (updateAmbient x g).staticGain = setGain g.staticGain (staticLevel x) ∧
      (updateAmbient x g).musicGain = setGain g.musicGain 0) ∧
    (x > 1 / 2 →
      (updateAmbient x g).musicGain = setGain g.musicGain (musicLevel x) ∧
      (updateAmbient x g).staticGain = setGain g.staticGain 0) ∧
    (¬ x < -(1 / 2) → ¬ x > 1 / 2 →
      (updateAmbient x g).staticGain = setGain g.staticGain 0 ∧
      (updateAmbient x g).musicGain = setGain g.musicGain 0) := by
  refine ⟨fun h => ?_, fun h => ?_, fun h1 h2 => ?_⟩
  · unfold updateAmbient
    rw [if_pos h]
    exact ⟨rfl, rfl⟩
  · have h1 : ¬ x < -(1 / 2) := by
      intro h2
      linarith
    unfold updateAmbient
    rw [if_neg h1, if_pos h]
    exact ⟨rfl, rfl⟩
  · unfold updateAmbient
    rw [if_neg h1, if_neg h2]
    exact ⟨rfl, rfl⟩

/-- A gain that was just set has the value it was set to. -/
theorem setGain_eq_some (node : Option ℚ) (v w : ℚ) (h : setGain node v = some w) : w = v := by
  cases node with
  | none => simp [setGain] at h
  | some u =>
    simp only [setGain, Option.map_some', Option.some.injEq] at h
    exact h.symm

/-- C14: in the main scene (in any reachable state, where the game has then started),
for every camera position, `updateAudio` sets the two ambient loop gains as follows: for
`x < -0.5` the static gain is `min(|x| / (ROOM_WIDTH/2), 0.02)` and the music gain 0; for
`x > 0.5` the music gain is `min(x / (ROOM_WIDTH/2), 0.5)` and the static gain 0;
otherwise both are 0.  Hence at most one of the two is non-zero. -/
theorem ambient_gains_by_offset (popups : PopupCatalog) (a : App)
    (hreach : Reachable popups a) (hmain : a.state.currentScene = Scene.main)
    (distanceTo : Vector3 → Vector3 → ℚ) (camera : Vector3) (g : AudioGraph) :
    ∃ r : AudioGraph,
      updateAudio distanceTo a.gameStarted a.state.currentScene camera (some g) = some r ∧
      (camera.x < -(1 / 2) →
        r.staticGain = setGain g.staticGain (min (|camera.x| / (ROOM_WIDTH / 2)) (2 / 100)) ∧
        r.musicGain = setGain g.musicGain 0) ∧
      (camera.x > 1 / 2 →
        r.musicGain = setGain g.musicGain (min (camera.x / (ROOM_WIDTH / 2)) (1 / 2)) ∧
        r.staticGain = setGain g.staticGain 0) ∧
      (¬ camera.x < -(1 / 2) → ¬ camera.x > 1 / 2 →
        r.staticGain = setGain g.staticGain 0 ∧ r.musicGain = setGain g.musicGain 0) ∧
      (∀ sv mv : ℚ, r.staticGain = some sv → r.musicGain = some mv → sv = 0 ∨ mv = 0) := by
  have hg : a.gameStarted = true :=
    gameStarted_of_reachable popups a hreach (by rw [hmain]; decide)
  rw [hg, hmain, updateAudio_main]
  obtain ⟨h1, h2, h3⟩ := updateAmbient_gains camera.x g
  refine ⟨_, rfl, h1, h2, h3, ?_⟩
  intro sv mv hs hm
  by_cases hd : camera.x < -(1 / 2)
  · right
    have := (h1 hd).2
    exact setGain_eq_some _ _ _ ((this.symm.trans hm))
  · left
    by_cases hl : camera.x > 1 / 2
    · have := (h2 hl).2
      exact setGain_eq_some _ _ _ (this.symm.trans hs)
    · have := (h3 hd hl).1
      exact setGain_eq_some _ _ _ (this.symm.trans hs)

/-- Witness for C14: after the start screens, camera at `x = -10` with all nodes loaded:
the static gain is 0.02 and the music gain 0. -/
theorem ambient_gains_by_offset_witness :
    Reachable sampleCatalog sampleStarted ∧
    sampleStarted.state.currentScene = Scene.main ∧
    (∃ r : AudioGraph,
      updateAudio sampleDistance sampleStarted.gameStarted sampleStarted.state.currentScene
        { x := -10, y := 8 / 5, z := 0 } (some loadedAudio) = some r ∧
      r.staticGain = some (2 / 100) ∧ r.musicGain = some 0) :=
  have hr : Reachable sampleCatalog sampleStarted := ⟨_, rfl⟩
  have hm : sampleStarted.state.currentScene = Scene.main := rfl
  have h := ambient_gains_by_offset sampleCatalog sampleStarted hr hm sampleDistance
    { x := -10, y := 8 / 5, z := 0 } loadedAudio
  ⟨hr, hm, h.elim fun r hr2 =>
    ⟨r, hr2.1, by
      have h3 := hr2.2.1 (by norm_num)
      constructor
      · rw [h3.1]
        norm_num [setGain, loadedAudio, ROOM_WIDTH]
      · rw [h3.2]
        rfl⟩⟩

/-- The level of the static loop is positive on the dark side, the level of the music loop
on the light side. -/
theorem ambient_levels_pos (x : ℚ) :
    (x < -(1 / 2) → 0 < staticLevel x) ∧ (x > 1 / 2 → 0 < musicLevel x) := by
  constructor
  · intro h
    unfold staticLevel
    apply lt_min
    · exact div_pos (abs_pos.mpr (ne_of_lt (by linarith))) (by norm_num [ROOM_WIDTH])
    · norm_num
  · intro h
    unfold musicLevel
    apply lt_min
    · exact div_pos (by linarith) (by norm_num [ROOM_WIDTH])
    · norm_num

/-- Off the two boundary points, the ambient block of `updateAudio` turns the static loop
on exactly where the guard and the side of `updatePopups` say dark side, the music loop on
exactly where they say light side, and sets both to 0 exactly in the dead zone. -/
theorem updateAmbient_zone (x : ℚ) (g : AudioGraph) (v w : ℚ)
    (hs : g.staticGain = some v) (hm : g.musicGain = some w) (hx : |x| ≠ 1 / 2) :
    ((∃ u : ℚ, 0 < u ∧ (updateAmbient x g).staticGain = some u) ↔
      (¬ |x| < 1 / 2 ∧ isOnDarkSide x = true)) ∧
    ((∃ u : ℚ, 0 < u ∧ (updateAmbient x g).musicGain = some u) ↔
      (¬ |x| < 1 / 2 ∧ isOnDarkSide x = false)) ∧
    (((updateAmbient x g).staticGain = some 0 ∧ (updateAmbient x g).musicGain = some 0) ↔
      |x| < 1 / 2) ∧
    (¬ |x| < 1 / 2 → isOnDarkSide x = true →
      (updateAmbient x g).staticGain = some (staticLevel x) ∧
      (updateAmbient x g).musicGain = some 0) ∧
    (¬ |x| < 1 / 2 → isOnDarkSide x = false →
      (updateAmbient x g).musicGain = some (musicLevel x) ∧
      (updateAmbient x g).staticGain = some 0) := by
  have hset : ∀ (n : Option ℚ) (c u : ℚ), n = some c → setGain n u = some u := by
    intro n c u hn
    rw [hn]
    rfl
  have hne : ∀ u : ℚ, 0 < u → (some u : Option ℚ) ≠ some 0 := by
    intro u hu h
    have := Option.some.inj h
    linarith
  by_cases h1 : x < -(1 / 2)
  · -- dark side for both
    obtain ⟨e1, e2⟩ := (updateAmbient_gains x g).1 h1
    rw [hset _ v _ hs] at e1
    rw [hset _ w _ hm] at e2
    have hpos := (ambient_levels_pos x).1 h1
    have hnd : ¬ |x| < 1 / 2 := by
      intro h
      linarith [(abs_lt.mp h).1]
    have hdk : isOnDarkSide x = true := by
      unfold isOnDarkSide
      exact decide_eq_true (by linarith)
    refine ⟨⟨fun _ => ⟨hnd, hdk⟩, fun _ => ⟨staticLevel x, hpos, e1⟩⟩, ⟨?_, ?_⟩, ⟨?_, ?_⟩,
      fun _ _ => ⟨e1, e2⟩, ?_⟩
    · rintro ⟨u, hu, e⟩
      rw [e2] at e
      exact absurd e.symm (hne u hu)
    · rintro ⟨_, hl⟩
      rw [hdk] at hl
      cases hl
    · rintro ⟨e, _⟩
      rw [e1] at e
      exact absurd e (hne _ hpos)
    · intro h
      exact absurd h hnd
    · intro _ hl
      rw [hdk] at hl
      cases hl
  · by_cases h2 : x > 1 / 2
    · -- light side for both
      obtain ⟨e2, e1⟩ := (updateAmbient_gains x g).2.1 h2
      rw [hset _ v _ hs] at e1
      rw [hset _ w _ hm] at e2
      have hpos := (ambient_levels_pos x).2 h2
      have hnd : ¬ |x| < 1 / 2 := by
        intro h
        linarith [(abs_lt.mp h).2]
      have hlt : isOnDarkSide x = false := by
        unfold isOnDarkSide
        exact decide_eq_false (by linarith)
      refine ⟨⟨?_, ?_⟩, ⟨fun _ => ⟨hnd, hlt⟩, fun _ => ⟨musicLevel x, hpos, e2⟩⟩, ⟨?_, ?_⟩,
        ?_, fun _ _ => ⟨e2, e1⟩⟩
      · rintro ⟨u, hu, e⟩
        rw [e1] at e
        exact absurd e.symm (hne u hu)
      · rintro ⟨_, hl⟩
        rw [hlt] at hl
        cases hl
      · rintro ⟨_, e⟩
        rw [e2] at e
        exact absurd e (hne _ hpos)
      · intro h
        exact absurd h hnd
      · intro _ hl
        rw [hlt] at hl
        cases hl
    · -- neutral for both
      obtain ⟨e1, e2⟩ := (updateAmbient_gains x g).2.2 h1 h2
      rw [hset _ v _ hs] at e1
      rw [hset _ w _ hm] at e2
      have hdz : |x| < 1 / 2 :=
        lt_of_le_of_ne (abs_le.mpr ⟨not_lt.mp h1, not_lt.mp h2⟩) hx
      refine ⟨⟨?_, ?_⟩, ⟨?_, ?_⟩, ⟨fun _ => hdz, fun _ => ⟨e1, e2⟩⟩, ?_, ?_⟩
      · rintro ⟨u, hu, e⟩
        rw [e1] at e
        exact absurd e.symm (hne u hu)
      · rintro ⟨hnd, _⟩
        exact absurd hdz hnd
      · rintro ⟨u, hu, e⟩
        rw [e2] at e
        exact absurd e.symm (hne u hu)
      · rintro ⟨hnd, _⟩
        exact absurd hdz hnd
      · intro hnd _
        exact absurd hdz hnd
      · intro hnd _
        exact absurd hdz hnd

/-- Counterexample to C15 as stated: at `x = 0.5` (and at `x = -0.5`), in the main scene of
a started game with every node loaded, `updateAudio` takes its neutral branch and sets both
loops to 0, while `updatePopups` is outside its dead zone (`|x| < 0.5` is false): it
reconciles on the light (resp. dark) side and applies the light-side (resp. dark-side)
effects. -/
theorem audio_gating_boundary_counterexample :
    Reachable sampleCatalog sampleStarted ∧
    sampleStarted.state.currentScene = Scene.main ∧
    (∃ r : AudioGraph,
      updateAudio sampleDistance sampleStarted.gameStarted sampleStarted.state.currentScene
        { x := 1 / 2, y := 8 / 5, z := 0 } (some loadedAudio) = some r ∧
      r.staticGain = some 0 ∧ r.musicGain = some 0) ∧
    ¬ (|(1 / 2 : ℚ)| < 1 / 2) ∧ isOnDarkSide (1 / 2) = false ∧
    updatePopups 1000 (1 / 2) sampleStarted.state =
      updateLightSideEffects (progress ROOM_WIDTH (1 / 2))
        (reconcile 1000 false (newTier (progress ROOM_WIDTH (1 / 2)))
          { sampleStarted.state with lastPopupUpdate := 1000 }) ∧
    (updatePopups 1000 (1 / 2) sampleStarted.state).fogDensity = 71 / 3600 ∧
    (∃ r : AudioGraph,
      updateAudio sampleDistance sampleStarted.gameStarted sampleStarted.state.currentScene
        { x := -(1 / 2), y := 8 / 5, z := 0 } (some loadedAudio) = some r ∧
      r.staticGain = some 0 ∧ r.musicGain = some 0) ∧
    ¬ (|(-(1 / 2) : ℚ)| < 1 / 2) ∧ isOnDarkSide (-(1 / 2)) = true ∧
    updatePopups 1000 (-(1 / 2)) sampleStarted.state =
      updateDarkSideEffects (progress ROOM_WIDTH (-(1 / 2)))
        (reconcile 1000 true (newTier (progress ROOM_WIDTH (-(1 / 2))))
          { sampleStarted.state with lastPopupUpdate := 1000 }) ∧
    (updatePopups 1000 (-(1 / 2)) sampleStarted.state).fogDensity = 73 / 3600 := by
  have h1 : sampleStarted.state.currentScene = Scene.main := rfl
  have h2 : ¬ (1000 - sampleStarted.state.lastPopupUpdate < popupUpdateInterval) := by
    show ¬ ((1000 : Int) - 0 < popupUpdateInterval)
    norm_num [popupUpdateInterval]
  have hndp : ¬ (|(1 / 2 : ℚ)| < 1 / 2) := by norm_num [abs_of_pos]
  have hndn : ¬ (|(-(1 / 2) : ℚ)| < 1 / 2) := by norm_num [abs_of_pos]
  have hdp : isOnDarkSide (1 / 2) = false := by simp [isOnDarkSide]
  have hdn : isOnDarkSide (-(1 / 2)) = true := by simp [isOnDarkSide]
  have hgp := (updateAmbient_gains (1 / 2) loadedAudio).2.2 (by norm_num) (by norm_num)
  have hgn := (updateAmbient_gains (-(1 / 2)) loadedAudio).2.2 (by norm_num) (by norm_num)
  have hrp : needsReconcile (newTier (progress ROOM_WIDTH (1 / 2)))
      { sampleStarted.state with lastPopupUpdate := 1000 } = true :=
    (needsReconcile_iff _ _).mpr (Or.inr rfl)
  have hrn : needsReconcile (newTier (progress ROOM_WIDTH (-(1 / 2))))
      { sampleStarted.state with lastPopupUpdate := 1000 } = true :=
    (needsReconcile_iff _ _).mpr (Or.inr rfl)
  have ep : updatePopups 1000 (1 / 2) sampleStarted.state =
      updateLightSideEffects (progress ROOM_WIDTH (1 / 2))
        (reconcile 1000 false (newTier (progress ROOM_WIDTH (1 / 2)))
          { sampleStarted.state with lastPopupUpdate := 1000 }) := by
    show updatePopupsAt ROOM_WIDTH 1000 (1 / 2) sampleStarted.state = _
    rw [updatePopupsAt_outside ROOM_WIDTH 1000 (1 / 2) sampleStarted.state h1 h2 hndp, hdp,
      if_pos hrp]
    rfl
  have en : updatePopups 1000 (-(1 / 2)) sampleStarted.state =
      updateDarkSideEffects (progress ROOM_WIDTH (-(1 / 2)))
        (reconcile 1000 true (newTier (progress ROOM_WIDTH (-(1 / 2))))
          { sampleStarted.state with lastPopupUpdate := 1000 }) := by
    show updatePopupsAt ROOM_WIDTH 1000 (-(1 / 2)) sampleStarted.state = _
    rw [updatePopupsAt_outside ROOM_WIDTH 1000 (-(1 / 2)) sampleStarted.state h1 h2 hndn, hdn,
      if_pos hrn]
    rfl
  refine ⟨⟨_, rfl⟩, h1, ⟨_, updateAudio_main _ _ _, hgp.1, hgp.2⟩, hndp, hdp, ep, ?_,
    ⟨_, updateAudio_main _ _ _, hgn.1, hgn.2⟩, hndn, hdn, en, ?_⟩
  · rw [ep]
    show max (1 / 100 : ℚ) (2 / 100 - progress ROOM_WIDTH (1 / 2) * (1 / 100)) = 71 / 3600
    norm_num [progress, maxDistance, ROOM_WIDTH, abs_of_pos]
  · rw [en]
    show (2 / 100 : ℚ) + progress ROOM_WIDTH (-(1 / 2)) * (1 / 100) = 73 / 3600
    norm_num [progress, maxDistance, ROOM_WIDTH, abs_of_pos]

/-- C15 (amended): in the main scene of a started game, for every camera abscissa `x` with
`|x| ≠ 0.5`, `updateAudio` treats `x` as dark side (static loop on, music 0) exactly when
`updatePopups` is outside its dead zone with the dark side (it reads the dark-side catalog
and applies the dark-side effects), as light side (music loop on, static 0) exactly when
`updatePopups` is outside its dead zone with the light side, and as neutral (both loops 0)
exactly when `updatePopups` takes its dead-zone branch.  (At `x = 0.5` and `x = -0.5`
`updateAudio` is neutral while `updatePopups` assigns a side.) -/
theorem audio_gating_matches_side_off_boundary (popups : PopupCatalog) (a : App)
    (hreach : Reachable popups a) (hmain : a.state.currentScene = Scene.main)
    (distanceTo : Vector3 → Vector3 → ℚ) (camera : Vector3) (g : AudioGraph) (v w : ℚ)
    (hs : g.staticGain = some v) (hm : g.musicGain = some w)
    (now : Int) (hthr : ¬ now - a.state.lastPopupUpdate < popupUpdateInterval)
    (hx : |camera.x| ≠ 1 / 2) :
    ∃ r : AudioGraph,
      updateAudio distanceTo a.gameStarted a.state.currentScene camera (some g) = some r ∧
      ((∃ u : ℚ, 0 < u ∧ r.staticGain = some u) ↔
        (¬ |camera.x| < 1 / 2 ∧ isOnDarkSide camera.x = true)) ∧
      ((∃ u : ℚ, 0 < u ∧ r.musicGain = some u) ↔
        (¬ |camera.x| < 1 / 2 ∧ isOnDarkSide camera.x = false)) ∧
      ((r.staticGain = some 0 ∧ r.musicGain = some 0) ↔ |camera.x| < 1 / 2) ∧
      (¬ |camera.x| < 1 / 2 → isOnDarkSide camera.x = true →
        r.staticGain = some (staticLevel camera.x) ∧ r.musicGain = some 0 ∧
        relevantPopups (isOnDarkSide camera.x) a.state.popups = a.state.popups.negative ∧
        updatePopups now camera.x a.state =
          updateDarkSideEffects (progress ROOM_WIDTH camera.x)
            (if needsReconcile (newTier (progress ROOM_WIDTH camera.x))
                { a.state with lastPopupUpdate := now } then
              reconcile now true (newTier (progress ROOM_WIDTH camera.x))
                { a.state with lastPopupUpdate := now }
             else { a.state with lastPopupUpdate := now })) ∧
      (¬ |camera.x| < 1 / 2 → isOnDarkSide camera.x = false →
        r.musicGain = some (musicLevel camera.x) ∧ r.staticGain = some 0 ∧
        relevantPopups (isOnDarkSide camera.x) a.state.popups = a.state.popups.positive ∧
        updatePopups now camera.x a.state =
          updateLightSideEffects (progress ROOM_WIDTH camera.x)
            (if needsReconcile (newTier (progress ROOM_WIDTH camera.x))
                { a.state with lastPopupUpdate := now } then
              reconcile now false (newTier (progress ROOM_WIDTH camera.x))
                { a.state with lastPopupUpdate := now }
             else { a.state with lastPopupUpdate := now })) ∧
      (|camera.x| < 1 / 2 →
        updatePopups now camera.x a.state =
          { clearAllPopups { a.state with lastPopupUpdate := now } with
            currentPopupTier := 0 }) := by
  have hgs : a.gameStarted = true :=
    gameStarted_of_reachable popups a hreach (by rw [hmain]; decide)
  obtain ⟨z1, z2, z3, z4, z5⟩ := updateAmbient_zone camera.x g v w hs hm hx
  rw [hgs, hmain, updateAudio_main]
  refine ⟨_, rfl, z1, z2, z3, fun hnd hdk => ?_, fun hnd hlt => ?_, fun hdz => ?_⟩
  · refine ⟨(z4 hnd hdk).1, (z4 hnd hdk).2, by rw [hdk]; rfl, ?_⟩
    show updatePopupsAt ROOM_WIDTH now camera.x a.state = _
    rw [updatePopupsAt_outside ROOM_WIDTH now camera.x a.state hmain hthr hnd, hdk]
    rfl
  · refine ⟨(z5 hnd hlt).1, (z5 hnd hlt).2, by rw [hlt]; rfl, ?_⟩
    show updatePopupsAt ROOM_WIDTH now camera.x a.state = _
    rw [updatePopupsAt_outside ROOM_WIDTH now camera.x a.state hmain hthr hnd, hlt]
    rfl
  · exact updatePopupsAt_neutral ROOM_WIDTH now camera.x a.state hmain hthr hdz

/-- Witness for C15 (amended): after the start screens, camera at `x = -12` with every node
loaded: the static loop is on, and `updatePopups` is outside its dead zone on the dark
side. -/
theorem audio_gating_matches_side_off_boundary_witness :
    Reachable sampleCatalog sampleStarted ∧
    sampleStarted.state.currentScene = Scene.main ∧
    loadedAudio.staticGain = some 0 ∧ loadedAudio.musicGain = some 0 ∧
    ¬ (1000 - sampleStarted.state.lastPopupUpdate < popupUpdateInterval) ∧
    |(-12 : ℚ)| ≠ 1 / 2 ∧
    ¬ (|(-12 : ℚ)| < 1 / 2) ∧ isOnDarkSide (-12) = true ∧
    (∃ r : AudioGraph,
      updateAudio sampleDistance sampleStarted.gameStarted sampleStarted.state.currentScene
        { x := -12, y := 8 / 5, z := 0 } (some loadedAudio) = some r ∧
      ∃ u : ℚ, 0 < u ∧ r.staticGain = some u) :=
  have hr : Reachable sampleCatalog sampleStarted := ⟨_, rfl⟩
  have hmn : sampleStarted.state.currentScene = Scene.main := rfl
  have hthr : ¬ (1000 - sampleStarted.state.lastPopupUpdate < popupUpdateInterval) := by
    show ¬ ((1000 : Int) - 0 < popupUpdateInterval)
    norm_num [popupUpdateInterval]
  have hx : |(-12 : ℚ)| ≠ 1 / 2 := by norm_num
  have hnd : ¬ (|(-12 : ℚ)| < 1 / 2) := by norm_num
  have hdk : isOnDarkSide (-12) = true := by simp [isOnDarkSide]
  have h := audio_gating_matches_side_off_boundary sampleCatalog sampleStarted hr hmn
    sampleDistance { x := -12, y := 8 / 5, z := 0 } loadedAudio 0 0 rfl rfl 1000 hthr hx
  ⟨hr, hmn, rfl, rfl, hthr, hx, hnd, hdk,
    h.elim fun r hr2 => ⟨r, hr2.1, hr2.2.1.mpr ⟨hnd, hdk⟩⟩⟩

/-- Range, zero set and monotonicity of the falloff `max(0, 1 - d / radius) * maxGain`. -/
theorem falloff_properties (radius maxGain : ℚ) (hr : 0 < radius) (hm : 0 < maxGain) :
    (∀ d : ℚ, 0 ≤ d → 0 ≤ max 0 (1 - d / radius) * maxGain ∧
      max 0 (1 - d / radius) * maxGain ≤ maxGain) ∧
    (∀ d : ℚ, max 0 (1 - d / radius) * maxGain = 0 ↔ radius ≤ d) ∧
    (∀ d1 d2 : ℚ, d1 ≤ d2 →
      max 0 (1 - d2 / radius) * maxGain ≤ max 0 (1 - d1 / radius) * maxGain) := by
  refine ⟨fun d hd => ⟨?_, ?_⟩, fun d => ?_, fun d1 d2 h => ?_⟩
  · exact mul_nonneg (le_max_left _ _) (le_of_lt hm)
  · have h1 : max 0 (1 - d / radius) ≤ 1 := by
      apply max_le (by norm_num)
      have : 0 ≤ d / radius := div_nonneg hd (le_of_lt hr)
      linarith
    calc max 0 (1 - d / radius) * maxGain ≤ 1 * maxGain :=
          mul_le_mul_of_nonneg_right h1 (le_of_lt hm)
      _ = maxGain := one_mul _
  · constructor
    · intro h
      rcases mul_eq_zero.mp h with h0 | h0
      · have h2 : 1 - d / radius ≤ 0 := by
          have := le_max_right 0 (1 - d / radius)
          rw [h0] at this
          exact this
        have h3 : 1 ≤ d / radius := by linarith
        exact (one_le_div hr).mp h3
      · exact absurd h0 (ne_of_gt hm)
    · intro h
      have h3 : 1 ≤ d / radius := (one_le_div hr).mpr h
      have h0 : max 0 (1 - d / radius) = 0 := max_eq_left (by linarith)
      rw [h0, zero_mul]
  · apply mul_le_mul_of_nonneg_right _ (le_of_lt hm)
    apply max_le_max (le_refl _)
    have : d1 / radius ≤ d2 / radius := div_le_div_of_nonneg_right h (le_of_lt hr)
    linarith

/-- C16: in the main scene (in any reachable state), `updateAudio` sets the gain of the
river emitter to `max(0, 1 - d / 10) * 0.4` and of each fire emitter to
`max(0, 1 - d / 8) * 0.5`, where `d` is the distance from the camera to the emitter's
position, which it leaves unchanged; for every `d >= 0` each gain lies in `[0, maxGain]`,
it is 0 exactly when `d >= radius`, and it is non-increasing in `d`. -/
theorem emitter_gains_by_distance (popups : PopupCatalog) (a : App)
    (hreach : Reachable popups a) (hmain : a.state.currentScene = Scene.main)
    (distanceTo : Vector3 → Vector3 → ℚ) (camera : Vector3) (g : AudioGraph) :
    (∃ r : AudioGraph,
      updateAudio distanceTo a.gameStarted a.state.currentScene camera (some g) = some r ∧
      r.riverSource = g.riverSource.map (fun e =>
        setEmitterGain (max 0 (1 - distanceTo camera e.position / 10) * (4 / 10)) e) ∧
      r.fireSources = g.fireSources.map (fun e =>
        setEmitterGain (max 0 (1 - distanceTo camera e.position / 8) * (5 / 10)) e) ∧
      r.riverSource.map Emitter.position = g.riverSource.map Emitter.position ∧
      r.fireSources.map Emitter.position = g.fireSources.map Emitter.position) ∧
    (∀ d : ℚ, 0 ≤ d → 0 ≤ riverVolume d ∧ riverVolume d ≤ 4 / 10) ∧
    (∀ d : ℚ, riverVolume d = 0 ↔ 10 ≤ d) ∧
    (∀ d1 d2 : ℚ, d1 ≤ d2 → riverVolume d2 ≤ riverVolume d1) ∧
    (∀ d : ℚ, 0 ≤ d → 0 ≤ fireVolume d ∧ fireVolume d ≤ 5 / 10) ∧
    (∀ d : ℚ, fireVolume d = 0 ↔ 8 ≤ d) ∧
    (∀ d1 d2 : ℚ, d1 ≤ d2 → fireVolume d2 ≤ fireVolume d1) := by
  have hg : a.gameStarted = true :=
    gameStarted_of_reachable popups a hreach (by rw [hmain]; decide)
  obtain ⟨r1, r2, r3⟩ := falloff_properties 10 (4 / 10) (by norm_num) (by norm_num)
  obtain ⟨f1, f2, f3⟩ := falloff_properties 8 (5 / 10) (by norm_num) (by norm_num)
  refine ⟨?_, r1, r2, r3, f1, f2, f3⟩
  rw [hg, hmain, updateAudio_main]
  obtain ⟨_, h2, h3⟩ := updateAmbient_fields camera.x g
  refine ⟨_, rfl, ?_, ?_, ?_, ?_⟩
  · show updateRiver distanceTo camera (updateAmbient camera.x g).riverSource = _
    rw [h2]; rfl
  · show updateFires distanceTo camera (updateAmbient camera.x g).fireSources = _
    rw [h3]; rfl
  · show (updateRiver distanceTo camera (updateAmbient camera.x g).riverSource).map
      Emitter.position = _
    rw [h2]
    cases g.riverSource <;> rfl
  · show (updateFires distanceTo camera (updateAmbient camera.x g).fireSources).map
      Emitter.position = _
    rw [h3]
    simp [updateFires, setEmitterGain, Function.comp_def]

/-- Witness for C16: camera at `x = 7` with the emitters of `initializeMusic`; the river,
5 units away, gets gain 0.2. -/
theorem emitter_gains_by_distance_witness :
    Reachable sampleCatalog sampleStarted ∧
    sampleStarted.state.currentScene = Scene.main ∧
    riverVolume (sampleDistance { x := 7, y := 8 / 5, z := 0 } { x := 12, y := 0, z := 0 }) =
      2 / 10 ∧
    (∃ r : AudioGraph,
      updateAudio sampleDistance sampleStarted.gameStarted sampleStarted.state.currentScene
        { x := 7, y := 8 / 5, z := 0 } (some loadedAudio) = some r ∧
      r.riverSource = loadedAudio.riverSource.map (fun e =>
        setEmitterGain
          (max 0 (1 - sampleDistance { x := 7, y := 8 / 5, z := 0 } e.position / 10) * (4 / 10))
          e)) :=
  have hr : Reachable sampleCatalog sampleStarted := ⟨_, rfl⟩
  have hm : sampleStarted.state.currentScene = Scene.main := rfl
  have h := emitter_gains_by_distance sampleCatalog sampleStarted hr hm sampleDistance
    { x := 7, y := 8 / 5, z := 0 } loadedAudio
  ⟨hr, hm, by norm_num [riverVolume, sampleDistance, abs_of_neg],
    h.1.elim fun r hr2 => ⟨r, hr2.1, hr2.2.1⟩⟩

/-- C17: after every `updateAudio` call made once the game has started (in any reachable
state), the channels of at most one scene context are non-zero: in the scene `main` the
rooftop music gain is 0; in the scene `rooftop` the static, music, river and every fire
gain are 0 and the rooftop music gain is 0.3; and the scene is one of the two. -/
theorem one_context_audible (popups : PopupCatalog) (a : App)
    (hreach : Reachable popups a) (hstarted : a.gameStarted = true)
    (distanceTo : Vector3 → Vector3 → ℚ) (camera : Vector3) (g : AudioGraph) :
    ∃ r : AudioGraph,
      updateAudio distanceTo a.gameStarted a.state.currentScene camera (some g) = some r ∧
      (a.state.currentScene = Scene.main ∨ a.state.currentScene = Scene.rooftop) ∧
      (a.state.currentScene = Scene.main →
        r.rooftopMusicGain = setGain g.rooftopMusicGain 0 ∧
        (∀ v : ℚ, r.rooftopMusicGain = some v → v = 0)) ∧
      (a.state.currentScene = Scene.rooftop →
        (∀ v : ℚ, r.staticGain = some v → v = 0) ∧
        (∀ v : ℚ, r.musicGain = some v → v = 0) ∧
        (∀ e : Emitter, r.riverSource = some e → e.gain = 0) ∧
        (∀ e : Emitter, e ∈ r.fireSources → e.gain = 0) ∧
        (∀ v : ℚ, r.rooftopMusicGain = some v → v = 3 / 10) ∧
        r.rooftopMusicGain = setGain g.rooftopMusicGain (3 / 10)) := by
  have hne : a.state.currentScene ≠ Scene.home :=
    (sceneInv_of_reachable popups a hreach).1.mp hstarted
  rw [hstarted]
  cases hs : a.state.currentScene with
  | home => exact absurd hs hne
  | main =>
    rw [updateAudio_main]
    refine ⟨_, rfl, Or.inl rfl, fun _ => ⟨?_, ?_⟩, fun h => by cases h⟩
    · show setGain (updateAmbient camera.x g).rooftopMusicGain 0 = _
      rw [(updateAmbient_fields camera.x g).1]
    · intro v hv
      exact setGain_eq_some _ _ _ hv
  | rooftop =>
    rw [updateAudio_rooftop]
    refine ⟨_, rfl, Or.inr rfl, (fun h => by cases h), fun _ => ⟨?_, ?_, ?_, ?_, ?_, rfl⟩⟩
    · intro v hv
      exact setGain_eq_some _ _ _ hv
    · intro v hv
      exact setGain_eq_some _ _ _ hv
    · intro e he
      have he2 : g.riverSource.map (setEmitterGain 0) = some e := he
      cases hr : g.riverSource with
      | none => rw [hr] at he2; cases he2
      | some r0 =>
        rw [hr] at he2
        simp only [Option.map_some', Option.some.injEq] at he2
        rw [← he2]; rfl
    · intro e he
      have he2 : e ∈ g.fireSources.map (setEmitterGain 0) := he
      rw [List.mem_map] at he2
      obtain ⟨f, _, rfl⟩ := he2
      rfl
    · intro v hv
      exact setGain_eq_some _ _ _ hv

/-- Witness for C17: after the start screens and a switch to the rooftop, with a river gain
left at 0.5, `updateAudio` silences the main context and sets the rooftop music to 0.3. -/
theorem one_context_audible_witness :
    Reachable sampleCatalog (step (Event.canvasClick true true) sampleStarted) ∧
    (step (Event.canvasClick true true) sampleStarted).gameStarted = true ∧
    (step (Event.canvasClick true true) sampleStarted).state.currentScene = Scene.rooftop ∧
    updateAudio sampleDistance (step (Event.canvasClick true true) sampleStarted).gameStarted
        (step (Event.canvasClick true true) sampleStarted).state.currentScene
        { x := 0, y := 508 / 5, z := 5 } (some loadedAudioRiverOn) =
      some { loadedAudio with rooftopMusicGain := some (3 / 10) } :=
  have hr : Reachable sampleCatalog (step (Event.canvasClick true true) sampleStarted) :=
    ⟨[Event.startClick, Event.continueClick, Event.canvasClick true true], rfl⟩
  have hg : (step (Event.canvasClick true true) sampleStarted).gameStarted = true := rfl
  have h := one_context_audible sampleCatalog _ hr hg sampleDistance
    { x := 0, y := 508 / 5, z := 5 } loadedAudioRiverOn
  ⟨hr, hg, rfl, h.elim fun _ _ => rfl⟩

/-- Setting a gain twice is setting it to the last value. -/
theorem setGain_setGain (node : Option ℚ) (v w : ℚ) :
    setGain (setGain node v) w = setGain node w := by
  cases node <;> rfl

/-- A gain that is set depends only on whether the node exists. -/
theorem setGain_congr (m n : Option ℚ) (v : ℚ) (h : m.isSome = n.isSome) :
    setGain m v = setGain n v := by
  cases m <;> cases n <;> simp [setGain] at h ⊢

/-- The ambient block depends on the graph only through the nodes that exist. -/
theorem updateAmbient_gains_closed (x : ℚ) (g : AudioGraph) :
    ∃ v w : ℚ, (updateAmbient x g).staticGain = setGain g.staticGain v ∧
      (updateAmbient x g).musicGain = setGain g.musicGain w ∧
      ∀ h : AudioGraph, (updateAmbient x h).staticGain = setGain h.staticGain v ∧
        (updateAmbient x h).musicGain = setGain h.musicGain w := by
  by_cases h1 : x < -(1 / 2)
  · refine ⟨staticLevel x, 0, ?_, ?_, fun h => ?_⟩
    · exact ((updateAmbient_gains x g).1 h1).1
    · exact ((updateAmbient_gains x g).1 h1).2
    · exact (updateAmbient_gains x h).1 h1
  · by_cases h2 : x > 1 / 2
    · refine ⟨0, musicLevel x, ?_, ?_, fun h => ?_⟩
      · exact ((updateAmbient_gains x g).2.1 h2).2
      · exact ((updateAmbient_gains x g).2.1 h2).1
      · exact ⟨((updateAmbient_gains x h).2.1 h2).2, ((updateAmbient_gains x h).2.1 h2).1⟩
    · refine ⟨0, 0, ?_, ?_, fun h => ?_⟩
      · exact ((updateAmbient_gains x g).2.2 h1 h2).1
      · exact ((updateAmbient_gains x g).2.2 h1 h2).2
      · exact (updateAmbient_gains x h).2.2 h1 h2

/-- The river block depends on the source only through its position. -/
theorem updateRiver_eq (distanceTo : Vector3 → Vector3 → ℚ) (camera : Vector3)
    (r : Option Emitter) :
    updateRiver distanceTo camera r =
      (r.map Emitter.position).map
        (fun p => { position := p, gain := riverVolume (distanceTo camera p) }) := by
  cases r <;> rfl

/-- The fire block depends on the sources only through their positions. -/
theorem updateFires_eq (distanceTo : Vector3 → Vector3 → ℚ) (camera : Vector3)
    (l : List Emitter) :
    updateFires distanceTo camera l =
      (l.map Emitter.position).map
        (fun p => { position := p, gain := fireVolume (distanceTo camera p) }) := by
  induction l with
  | nil => rfl
  | cons e l ih =>
    simp only [updateFires, List.map_cons] at ih ⊢
    rw [ih]
    rfl

/-- Silencing the emitters depends on them only through their positions. -/
theorem map_setEmitterGain_eq (v : ℚ) (l : List Emitter) :
    l.map (setEmitterGain v) =
      (l.map Emitter.position).map (fun p => { position := p, gain := v }) := by
  induction l with
  | nil => rfl
  | cons e l ih =>
    simp only [List.map_cons] at ih ⊢
    rw [ih]
    rfl

/-- Once the game has started, in the main or rooftop scene, the result of `updateAudio`
is a function of the nodes that exist and of the emitter positions only. -/
theorem updateAudio_memoryless (distanceTo : Vector3 → Vector3 → ℚ) (currentScene : Scene)
    (camera : Vector3) (g h : AudioGraph) (hs : currentScene ≠ Scene.home)
    (hn : sameNodes g h) :
    updateAudio distanceTo true currentScene camera (some g) =
      updateAudio distanceTo true currentScene camera (some h) := by
  obtain ⟨n1, n2, n3, n4, n5⟩ := hn
  cases currentScene with
  | home => exact absurd rfl hs
  | main =>
    rw [updateAudio_main, updateAudio_main]
    obtain ⟨v, w, e1, e2, e3⟩ := updateAmbient_gains_closed camera.x g
    obtain ⟨g1, g2, g3⟩ := updateAmbient_fields camera.x g
    obtain ⟨k1, k2, k3⟩ := updateAmbient_fields camera.x h
    rw [e1, e2, (e3 h).1, (e3 h).2, g1, g2, g3, k1, k2, k3, updateRiver_eq, updateFires_eq,
      updateRiver_eq distanceTo camera h.riverSource, updateFires_eq distanceTo camera
      h.fireSources, n4, n5, setGain_congr _ _ _ n1, setGain_congr _ _ _ n2,
      setGain_congr _ _ _ n3]
  | rooftop =>
    rw [updateAudio_rooftop, updateAudio_rooftop]
    have hr : g.riverSource.map (setEmitterGain 0) = h.riverSource.map (setEmitterGain 0) := by
      have e : ∀ r : Option Emitter, r.map (setEmitterGain 0) =
          (r.map Emitter.position).map (fun p => { position := p, gain := 0 }) := by
        intro r; cases r <;> rfl
      rw [e, e h.riverSource, n4]
    rw [hr, map_setEmitterGain_eq, map_setEmitterGain_eq 0 h.fireSources, n5,
      setGain_congr _ _ _ n1, setGain_congr _ _ _ n2, setGain_congr _ _ _ n3]

/-- The result of `updateAudio` has the nodes and emitter positions of its argument. -/
theorem updateAudio_sameNodes (distanceTo : Vector3 → Vector3 → ℚ) (gameStarted : Bool)
    (currentScene : Scene) (camera : Vector3) (g : AudioGraph) :
    ∃ r : AudioGraph, updateAudio distanceTo gameStarted currentScene camera (some g) = some r ∧
      sameNodes r g := by
  have hrefl : sameNodes g g := ⟨rfl, rfl, rfl, rfl, rfl⟩
  have hsome : ∀ (n : Option ℚ) (v : ℚ), (setGain n v).isSome = n.isSome := by
    intro n v; cases n <;> rfl
  cases gameStarted with
  | false => exact ⟨g, rfl, hrefl⟩
  | true =>
    cases currentScene with
    | home => exact ⟨g, rfl, hrefl⟩
    | main =>
      rw [updateAudio_main]
      obtain ⟨v, w, e1, e2, _⟩ := updateAmbient_gains_closed camera.x g
      obtain ⟨g1, g2, g3⟩ := updateAmbient_fields camera.x g
      refine ⟨_, rfl, ?_, ?_, ?_, ?_, ?_⟩
      · show ((updateAmbient camera.x g).staticGain).isSome = _
        rw [e1, hsome]
      · show ((updateAmbient camera.x g).musicGain).isSome = _
        rw [e2, hsome]
      · show (setGain (updateAmbient camera.x g).rooftopMusicGain 0).isSome = _
        rw [g1, hsome]
      · show (updateRiver distanceTo camera (updateAmbient camera.x g).riverSource).map
          Emitter.position = _
        rw [g2]
        cases g.riverSource <;> rfl
      · show (updateFires distanceTo camera (updateAmbient camera.x g).fireSources).map
          Emitter.position = _
        rw [g3]
        simp [updateFires, setEmitterGain, Function.comp_def]
    | rooftop =>
      rw [updateAudio_rooftop]
      refine ⟨_, rfl, hsome _ _, hsome _ _, hsome _ _, ?_, ?_⟩
      · show (g.riverSource.map (setEmitterGain 0)).map Emitter.position = _
        cases g.riverSource <;> rfl
      · show (g.fireSources.map (setEmitterGain 0)).map Emitter.position = _
        simp [setEmitterGain, Function.comp_def]

/-- Before the game has started the guard `if (!audioContext || !gameStarted) return;`
returns at once and the call leaves every gain as it was.  (The program does not make this
call: `animate` calls `updateAudio` only in the main scene, which is entered together with
`gameStarted = true`.) -/
theorem updateAudio_before_start (distanceTo : Vector3 → Vector3 → ℚ) (currentScene : Scene)
    (camera : Vector3) (audio : Option AudioGraph) :
    updateAudio distanceTo false currentScene camera audio = audio := by
  cases audio <;> rfl

/-- C18: `updateAudio` is idempotent on the gain state: for a fixed camera position, scene
mode and emitter set, applying it twice gives the same gains as applying it once; and the
resulting gains do not depend on the gain values before the call: once the game has
started, in the main or rooftop scene, and so in every reachable state whose scene is not
`home` (`animate` calls `updateAudio` in the main scene only), two audio graphs with the
same nodes and the same emitter positions give the same result. -/
theorem updateAudio_idempotent (distanceTo : Vector3 → Vector3 → ℚ) (gameStarted : Bool)
    (currentScene : Scene) (camera : Vector3) (audio : Option AudioGraph) :
    updateAudio distanceTo gameStarted currentScene camera
        (updateAudio distanceTo gameStarted currentScene camera audio) =
      updateAudio distanceTo gameStarted currentScene camera audio ∧
    (gameStarted = true → currentScene ≠ Scene.home → ∀ g h : AudioGraph, sameNodes g h →
      updateAudio distanceTo gameStarted currentScene camera (some g) =
        updateAudio distanceTo gameStarted currentScene camera (some h)) ∧
    (∀ (popups : PopupCatalog) (a : App), Reachable popups a →
      a.state.currentScene ≠ Scene.home → ∀ g h : AudioGraph, sameNodes g h →
      updateAudio distanceTo a.gameStarted a.state.currentScene camera (some g) =
        updateAudio distanceTo a.gameStarted a.state.currentScene camera (some h)) := by
  refine ⟨?_, ?_, ?_⟩
  · cases audio with
    | none => rfl
    | some g =>
      cases gameStarted with
      | false => rfl
      | true =>
        cases currentScene with
        | home => rfl
        | main =>
          obtain ⟨r, hr, hn⟩ := updateAudio_sameNodes distanceTo true Scene.main camera g
          rw [hr, updateAudio_memoryless distanceTo Scene.main camera r g (by decide) hn, hr]
        | rooftop =>
          obtain ⟨r, hr, hn⟩ := updateAudio_sameNodes distanceTo true Scene.rooftop camera g
          rw [hr, updateAudio_memoryless distanceTo Scene.rooftop camera r g (by decide) hn, hr]
  · intro hg hs g h hn
    rw [hg]
    exact updateAudio_memoryless distanceTo currentScene camera g h hs hn
  · intro popups a hreach hs g h hn
    rw [gameStarted_of_reachable popups a hreach hs]
    exact updateAudio_memoryless distanceTo a.state.currentScene camera g h hs hn

/-- Witness for C18: in the main scene after the start screens, the two graphs that differ
in the river gain give the same result, and a second call changes nothing. -/
theorem updateAudio_idempotent_witness :
    Reachable sampleCatalog sampleStarted ∧
    sampleStarted.state.currentScene ≠ Scene.home ∧
    sameNodes loadedAudio loadedAudioRiverOn ∧
    loadedAudio ≠ loadedAudioRiverOn ∧
    updateAudio sampleDistance sampleStarted.gameStarted sampleStarted.state.currentScene
        { x := 7, y := 8 / 5, z := 0 } (some loadedAudio) =
      updateAudio sampleDistance sampleStarted.gameStarted sampleStarted.state.currentScene
        { x := 7, y := 8 / 5, z := 0 } (some loadedAudioRiverOn) ∧
    updateAudio sampleDistance true Scene.main { x := 7, y := 8 / 5, z := 0 }
        (updateAudio sampleDistance true Scene.main { x := 7, y := 8 / 5, z := 0 }
          (some loadedAudioRiverOn)) =
      updateAudio sampleDistance true Scene.main { x := 7, y := 8 / 5, z := 0 }
        (some loadedAudioRiverOn) :=
  have hr : Reachable sampleCatalog sampleStarted := ⟨_, rfl⟩
  have hs : sampleStarted.state.currentScene ≠ Scene.home := by decide
  have hn : sameNodes loadedAudio loadedAudioRiverOn := ⟨rfl, rfl, rfl, rfl, rfl⟩
  have hne : loadedAudio ≠ loadedAudioRiverOn := by
    intro h
    have h2 : loadedAudio.riverSource = loadedAudioRiverOn.riverSource := by rw [h]
    simp [loadedAudio, loadedAudioRiverOn] at h2
  ⟨hr, hs, hn, hne,
    (updateAudio_idempotent sampleDistance true Scene.main { x := 7, y := 8 / 5, z := 0 }
      (some loadedAudio)).2.2 sampleCatalog sampleStarted hr hs loadedAudio loadedAudioRiverOn
      hn,
    (updateAudio_idempotent sampleDistance true Scene.main { x := 7, y := 8 / 5, z := 0 }
      (some loadedAudioRiverOn)).1⟩

/-! ## Stale staggered timers -/

/-- The removal filter, on the displayed messages. -/
theorem displayed_filterActive (c : Nat) (l : List ActivePopup) :
    (filterActive c l).map ActivePopup.data =
      (l.map ActivePopup.data).filter (fun m => decide (m.number ≤ c)) := by
  induction l with
  | nil => rfl
  | cons p l ih =>
    unfold filterActive at ih ⊢
    by_cases h : p.data.number > c
    · have h2 : ¬ p.data.number ≤ c := by omega
      simp only [List.filter_cons, h, if_true, List.map_cons, h2, decide_False]
      simpa using ih
    · have h2 : p.data.number ≤ c := by omega
      simp only [List.filter_cons, h, if_false, List.map_cons, h2, decide_True, if_true]
      rw [← ih]

/-- The numbers on display are the numbers of the displayed messages. -/
theorem existingNumbers_eq (l : List ActivePopup) :
    existingNumbers l = (l.map ActivePopup.data).map Message.number := by
  simp [existingNumbers, List.map_map, Function.comp_def]

/-- The catalog is never changed by `updatePopups`. -/
theorem updatePopupsAt_popups (roomWidth : ℚ) (now : Int) (x : ℚ) (s : State) :
    (updatePopupsAt roomWidth now x s).popups = s.popups := by
  by_cases hscene : s.currentScene = Scene.main
  · by_cases hthr : now - s.lastPopupUpdate < popupUpdateInterval
    · rw [updatePopupsAt_throttled roomWidth now x s hthr]
    · by_cases hx : |x| < 1 / 2
      · rw [updatePopupsAt_neutral roomWidth now x s hscene hthr hx]
        rfl
      · rw [updatePopupsAt_outside roomWidth now x s hscene hthr hx]
        by_cases hrec : needsReconcile (newTier (progress roomWidth x))
            { s with lastPopupUpdate := now } = true
        · rw [if_pos hrec]
          cases isOnDarkSide x <;> rfl
        · rw [if_neg hrec]
          cases isOnDarkSide x <;> rfl
  · rw [updatePopupsAt_not_main roomWidth now x s hscene]

/-- A reconciling call, on the displayed messages and the pending timers. -/
theorem reconcile_displayed (now : Int) (x : ℚ) (s : State)
    (hscene : s.currentScene = Scene.main)
    (hthr : ¬ now - s.lastPopupUpdate < popupUpdateInterval)
    (hx : 1 / 2 ≤ |x|)
    (hrec : newTier (progress ROOM_WIDTH x) ≠ s.currentPopupTier ∨ s.activePopups.length = 0) :
    displayed (updatePopups now x s) =
      (displayed s).filter
        (fun m => decide (m.number ≤ maxPopups (newTier (progress ROOM_WIDTH x)))) ∧
    (updatePopups now x s).timers = s.timers ++
      (((((relevantPopups (isOnDarkSide x) s.popups).take
          (maxPopups (newTier (progress ROOM_WIDTH x)))).filter
        (fun d => !(((displayed s).filter (fun m => decide
          (m.number ≤ maxPopups (newTier (progress ROOM_WIDTH x))))).map
            Message.number).contains d.number)).enumFrom 0).map
        (mkTimer now (isOnDarkSide x))) := by
  have hact := activePopups_reconcile now x s hscene hthr hx hrec
  have hd : displayed (updatePopups now x s) =
      (displayed s).filter
        (fun m => decide (m.number ≤ maxPopups (newTier (progress ROOM_WIDTH x)))) := by
    unfold displayed
    rw [hact, displayed_filterActive]
  refine ⟨hd, ?_⟩
  rw [timers_eq_append_scheduled now x s hscene hthr hx,
    scheduledTimers_reconcile now x s hscene hthr hx hrec]
  unfold firstEntriesNotDisplayed
  rw [existingNumbers_eq, displayed_filterActive]
  rfl

/-- Counterexample to C13 as stated: with messages 1 to 10 on display at tier 1, a call at
tier 2 schedules 11, 12, 13; 11 and 12 appear; a call back at tier 1 removes them while
the timer of 13 is still pending; that timer then fires, so message 13 (above the ceiling
10 of the current tier 1) is displayed; the next call that passes the throttle at the same
tier and side does not reconcile, and message 13 stays displayed. -/
theorem stale_popup_stays_counterexample :
    staleTierOne.currentPopupTier = 1 ∧ maxPopups staleTierOne.currentPopupTier = 10 ∧
    staleTierOne.timers = [mkTimer 2000 true (2, { number := 13, text := "n" })] ∧
    displayed staleTierOne = (List.range 10).map (fun i => { number := i + 1, text := "n" }) ∧
    displayed staleShown =
      (List.range 10).map (fun i => { number := i + 1, text := "n" }) ++
        [{ number := 13, text := "n" }] ∧
    staleShown.currentScene = Scene.main ∧
    ¬ (4000 - staleShown.lastPopupUpdate < popupUpdateInterval) ∧
    newTier (progress ROOM_WIDTH (-7)) = staleShown.currentPopupTier ∧
    isOnDarkSide (-7) = true ∧
    (updatePopups 4000 (-7) staleShown).activePopups = staleShown.activePopups ∧
    ({ number := 13, text := "n" } : Message) ∈ displayed (updatePopups 4000 (-7) staleShown) ∧
    maxPopups (updatePopups 4000 (-7) staleShown).currentPopupTier = 10 := by
  -- the offsets
  have hxA : 1 / 2 ≤ |(-15 / 2 : ℚ)| := by rw [abs_of_neg (by norm_num)]; norm_num
  have hxC : 1 / 2 ≤ |(-7 : ℚ)| := by norm_num
  have htA : newTier (progress ROOM_WIDTH (-15 / 2)) = 2 := by
    norm_num [newTier, progress, maxDistance, ROOM_WIDTH, abs_of_neg]
  have htC : newTier (progress ROOM_WIDTH (-7)) = 1 := by
    norm_num [newTier, progress, maxDistance, ROOM_WIDTH]
  have hdA : isOnDarkSide (-15 / 2) = true := by simp [isOnDarkSide]; norm_num
  have hdC : isOnDarkSide (-7) = true := by simp [isOnDarkSide]
  -- the call at tier 2
  have a1 : staleStart.currentScene = Scene.main := rfl
  have a2 : ¬ (2000 - staleStart.lastPopupUpdate < popupUpdateInterval) := by
    norm_num [staleStart, popupUpdateInterval]
  have a3 : newTier (progress ROOM_WIDTH (-15 / 2)) ≠ staleStart.currentPopupTier ∨
      staleStart.activePopups.length = 0 := Or.inl (by rw [htA]; decide)
  obtain ⟨aD, aT⟩ := reconcile_displayed 2000 (-15 / 2) staleStart a1 a2 hxA a3
  rw [htA, hdA] at aT
  rw [htA] at aD
  have A_scene : staleTierTwo.currentScene = Scene.main :=
    updatePopupsAt_currentScene ROOM_WIDTH 2000 (-15 / 2) staleStart
  have A_last : staleTierTwo.lastPopupUpdate = 2000 :=
    updatePopupsAt_lastPopupUpdate ROOM_WIDTH 2000 (-15 / 2) staleStart a1 a2
  have A_tier : staleTierTwo.currentPopupTier = 2 :=
    (updatePopupsAt_tier ROOM_WIDTH 2000 (-15 / 2) staleStart a1 a2 (not_lt.mpr hxA)).trans htA
  have A_pop : staleTierTwo.popups = staleStart.popups :=
    updatePopupsAt_popups ROOM_WIDTH 2000 (-15 / 2) staleStart
  have A_disp : displayed staleTierTwo =
      (List.range 10).map (fun i => { number := i + 1, text := "n" }) := by
    show displayed (updatePopups 2000 (-15 / 2) staleStart) = _
    rw [aD]
    decide
  have A_tim : staleTierTwo.timers =
      [mkTimer 2000 true (0, { number := 11, text := "n" }),
       mkTimer 2000 true (1, { number := 12, text := "n" }),
       mkTimer 2000 true (2, { number := 13, text := "n" })] := by
    show (updatePopups 2000 (-15 / 2) staleStart).timers = _
    rw [aT]
    decide
  -- the timers of 11 and 12 fire
  have f1 := fireTimer_fields false sampleWindow (fun _ => 0) sampleRect 0 staleTierTwo
    (mkTimer 2000 true (0, { number := 11, text := "n" })) (by rw [A_tim]; rfl)
  have f1_tim : (fireTimer false sampleWindow (fun _ => 0) sampleRect 0 staleTierTwo).timers =
      [mkTimer 2000 true (1, { number := 12, text := "n" }),
       mkTimer 2000 true (2, { number := 13, text := "n" })] := by
    rw [f1.2.2.2.2.1, A_tim]; rfl
  have f2 := fireTimer_fields false sampleWindow (fun _ => 0) sampleRect 0
    (fireTimer false sampleWindow (fun _ => 0) sampleRect 0 staleTierTwo)
    (mkTimer 2000 true (1, { number := 12, text := "n" })) (by rw [f1_tim]; rfl)
  have B_scene : staleTwoFired.currentScene = Scene.main := (f2.1.trans f1.1).trans A_scene
  have B_last : staleTwoFired.lastPopupUpdate = 2000 := (f2.2.1.trans f1.2.1).trans A_last
  have B_tier : staleTwoFired.currentPopupTier = 2 := (f2.2.2.1.trans f1.2.2.1).trans A_tier
  have B_pop : staleTwoFired.popups = staleStart.popups :=
    (f2.2.2.2.1.trans f1.2.2.2.1).trans A_pop
  have B_tim : staleTwoFired.timers = [mkTimer 2000 true (2, { number := 13, text := "n" })] := by
    show (fireTimer false sampleWindow (fun _ => 0) sampleRect 0
      (fireTimer false sampleWindow (fun _ => 0) sampleRect 0 staleTierTwo)).timers = _
    rw [f2.2.2.2.2.1, f1_tim]; rfl
  have B_disp : displayed staleTwoFired =
      (List.range 10).map (fun i => { number := i + 1, text := "n" }) ++
        [{ number := 11, text := "n" }, { number := 12, text := "n" }] := by
    show (fireTimer false sampleWindow (fun _ => 0) sampleRect 0
      (fireTimer false sampleWindow (fun _ => 0) sampleRect 0
        staleTierTwo)).activePopups.map ActivePopup.data = _
    rw [f2.2.2.2.2.2, f1.2.2.2.2.2]
    have : staleTierTwo.activePopups.map ActivePopup.data =
        (List.range 10).map (fun i => { number := i + 1, text := "n" }) := A_disp
    rw [this]
    decide
  -- the call back at tier 1
  have c2 : ¬ (3000 - staleTwoFired.lastPopupUpdate < popupUpdateInterval) := by
    rw [B_last]; norm_num [popupUpdateInterval]
  have c3 : newTier (progress ROOM_WIDTH (-7)) ≠ staleTwoFired.currentPopupTier ∨
      staleTwoFired.activePopups.length = 0 := Or.inl (by rw [htC, B_tier]; decide)
  obtain ⟨cD, cT⟩ := reconcile_displayed 3000 (-7) staleTwoFired B_scene c2 hxC c3
  rw [htC, hdC, B_disp, B_tim, B_pop] at cT
  rw [htC, B_disp] at cD
  have C_scene : staleTierOne.currentScene = Scene.main :=
    (updatePopupsAt_currentScene ROOM_WIDTH 3000 (-7) staleTwoFired).trans B_scene
  have C_last : staleTierOne.lastPopupUpdate = 3000 :=
    updatePopupsAt_lastPopupUpdate ROOM_WIDTH 3000 (-7) staleTwoFired B_scene c2
  have C_tier : staleTierOne.currentPopupTier = 1 :=
    (updatePopupsAt_tier ROOM_WIDTH 3000 (-7) staleTwoFired B_scene c2 (not_lt.mpr hxC)).trans htC
  have C_disp : displayed staleTierOne =
      (List.range 10).map (fun i => { number := i + 1, text := "n" }) := by
    show displayed (updatePopups 3000 (-7) staleTwoFired) = _
    rw [cD]
    decide
  have C_tim : staleTierOne.timers = [mkTimer 2000 true (2, { number := 13, text := "n" })] := by
    show (updatePopups 3000 (-7) staleTwoFired).timers = _
    rw [cT]
    decide
  -- the timer of 13 fires
  have f3 := fireTimer_fields false sampleWindow (fun _ => 0) sampleRect 0 staleTierOne
    (mkTimer 2000 true (2, { number := 13, text := "n" })) (by rw [C_tim]; rfl)
  have D_scene : staleShown.currentScene = Scene.main := f3.1.trans C_scene
  have D_last : staleShown.lastPopupUpdate = 3000 := f3.2.1.trans C_last
  have D_tier : staleShown.currentPopupTier = 1 := f3.2.2.1.trans C_tier
  have D_disp : displayed staleShown =
      (List.range 10).map (fun i => { number := i + 1, text := "n" }) ++
        [{ number := 13, text := "n" }] := by
    show (fireTimer false sampleWindow (fun _ => 0) sampleRect 0
      staleTierOne).activePopups.map ActivePopup.data = _
    rw [f3.2.2.2.2.2]
    have : staleTierOne.activePopups.map ActivePopup.data =
        (List.range 10).map (fun i => { number := i + 1, text := "n" }) := C_disp
    rw [this]
    rfl
  have D_len : staleShown.activePopups.length ≠ 0 := by
    have := congrArg List.length D_disp
    simp only [displayed, List.length_map, List.length_append, List.length_range,
      List.length_singleton] at this
    omega
  -- the next call at the same tier and side
  have e2 : ¬ (4000 - staleShown.lastPopupUpdate < popupUpdateInterval) := by
    rw [D_last]; norm_num [popupUpdateInterval]
  have e := same_tier_skips_reconcile 4000 (-7) staleShown D_scene e2 hxC
    (htC.trans D_tier.symm) D_len
  have E_tier : (updatePopups 4000 (-7) staleShown).currentPopupTier = 1 :=
    (updatePopupsAt_tier ROOM_WIDTH 4000 (-7) staleShown D_scene e2 (not_lt.mpr hxC)).trans htC
  refine ⟨C_tier, by rw [C_tier]; rfl, C_tim, C_disp, D_disp, D_scene, e2,
    htC.trans D_tier.symm, hdC, e.1, ?_, by rw [E_tier]; rfl⟩
  show _ ∈ (updatePopups 4000 (-7) staleShown).activePopups.map ActivePopup.data
  rw [e.1]
  have : staleShown.activePopups.map ActivePopup.data = _ := D_disp
  rw [this]
  simp

/-- C13 (amended): when a still-pending staggered timer creates a popup, a later
`updatePopups` call that passes the throttle removes it only if that call reconciles:
in the dead zone everything is cleared; outside it, a call whose tier differs from
`currentPopupTier` leaves only popups with index within its ceiling, so a popup above that
ceiling is removed; a call at the same tier as `currentPopupTier` changes no popup, so the
popup stays displayed whatever its index. -/
theorem stale_popup_removed_only_on_reconcile (isMobile : Bool) (win : Window)
    (random : Nat → ℚ) (rect : Rect) (i : Nat) (s : State) (t : Timer) (now : Int) (x : ℚ)
    (ht : s.timers.get? i = some t)
    (hscene : s.currentScene = Scene.main)
    (hthr : ¬ now - s.lastPopupUpdate < popupUpdateInterval) :
    t.popupData ∈ displayed (fireTimer isMobile win random rect i s) ∧
    (|x| < 1 / 2 →
      (updatePopups now x (fireTimer isMobile win random rect i s)).activePopups = []) ∧
    (1 / 2 ≤ |x| → newTier (progress ROOM_WIDTH x) ≠ s.currentPopupTier →
      (∀ m ∈ displayed (updatePopups now x (fireTimer isMobile win random rect i s)),
        m.number ≤ maxPopups (newTier (progress ROOM_WIDTH x))) ∧
      (maxPopups (newTier (progress ROOM_WIDTH x)) < t.popupData.number →
        t.popupData ∉ displayed (updatePopups now x (fireTimer isMobile win random rect i s)))) ∧
    (1 / 2 ≤ |x| → newTier (progress ROOM_WIDTH x) = s.currentPopupTier →
      (updatePopups now x (fireTimer isMobile win random rect i s)).activePopups =
        (fireTimer isMobile win random rect i s).activePopups ∧
      t.popupData ∈ displayed (updatePopups now x (fireTimer isMobile win random rect i s))) := by
  obtain ⟨f1, f2, f3, _, _, f6⟩ := fireTimer_fields isMobile win random rect i s t ht
  have hscene1 : (fireTimer isMobile win random rect i s).currentScene = Scene.main :=
    f1.trans hscene
  have hthr1 : ¬ now - (fireTimer isMobile win random rect i s).lastPopupUpdate <
      popupUpdateInterval := by rw [f2]; exact hthr
  have hmem : t.popupData ∈ displayed (fireTimer isMobile win random rect i s) := by
    unfold displayed
    rw [f6]
    simp
  have hlen : (fireTimer isMobile win random rect i s).activePopups.length ≠ 0 := by
    intro h0
    have : displayed (fireTimer isMobile win random rect i s) = [] := by
      unfold displayed
      rw [List.length_eq_zero.mp h0]
      rfl
    rw [this] at hmem
    cases hmem
  refine ⟨hmem, fun hx => ?_, fun hx hne => ?_, fun hx heq => ?_⟩
  · show (updatePopupsAt ROOM_WIDTH now x _).activePopups = []
    rw [updatePopupsAt_neutral ROOM_WIDTH now x _ hscene1 hthr1 hx]
    rfl
  · have hrec : newTier (progress ROOM_WIDTH x) ≠
        (fireTimer isMobile win random rect i s).currentPopupTier ∨
        (fireTimer isMobile win random rect i s).activePopups.length = 0 :=
      Or.inl (by rw [f3]; exact hne)
    have hd := (reconcile_displayed now x _ hscene1 hthr1 hx hrec).1
    have hall : ∀ m ∈ displayed (updatePopups now x (fireTimer isMobile win random rect i s)),
        m.number ≤ maxPopups (newTier (progress ROOM_WIDTH x)) := by
      intro m hm
      rw [hd, List.mem_filter] at hm
      exact of_decide_eq_true hm.2
    refine ⟨hall, fun hgt hin => ?_⟩
    have := hall _ hin
    omega
  · have hskip := same_tier_skips_reconcile now x _ hscene1 hthr1 hx (by rw [f3]; exact heq) hlen
    refine ⟨hskip.1, ?_⟩
    unfold displayed at hmem ⊢
    rw [hskip.1]
    exact hmem

/-- Witness for C13 (amended): tier 1 current, the pending timer of message 13 fires, and
a call at `x = -7` (tier 1 again) one second later leaves message 13 displayed. -/
theorem stale_popup_removed_only_on_reconcile_witness :
    stalePending.timers.get? 0 = some (mkTimer 500 true (2, { number := 13, text := "n" })) ∧
    stalePending.currentScene = Scene.main ∧
    ¬ (2000 - stalePending.lastPopupUpdate < popupUpdateInterval) ∧
    1 / 2 ≤ |(-7 : ℚ)| ∧
    newTier (progress ROOM_WIDTH (-7)) = stalePending.currentPopupTier ∧
    ({ number := 13, text := "n" } : Message) ∈ displayed (updatePopups 2000 (-7)
      (fireTimer false sampleWindow (fun _ => 0) sampleRect 0 stalePending)) :=
  have h1 : stalePending.timers.get? 0 =
      some (mkTimer 500 true (2, { number := 13, text := "n" })) := rfl
  have h2 : stalePending.currentScene = Scene.main := rfl
  have h3 : ¬ (2000 - stalePending.lastPopupUpdate < popupUpdateInterval) := by
    norm_num [stalePending, sampleShown, popupUpdateInterval]
  have h4 : 1 / 2 ≤ |(-7 : ℚ)| := by norm_num
  have h5 : newTier (progress ROOM_WIDTH (-7)) = stalePending.currentPopupTier := by
    norm_num [newTier, progress, maxDistance, ROOM_WIDTH, stalePending, sampleShown]
  have h := stale_popup_removed_only_on_reconcile false sampleWindow (fun _ => 0) sampleRect 0
    stalePending (mkTimer 500 true (2, { number := 13, text := "n" })) 2000 (-7) h1 h2 h3
  ⟨h1, h2, h3, h4, h5, (h.2.2.2 h4 h5).2⟩

/-! ## Parsing the popup text -/

/-- Dropping a prefix run stops at the first character outside the run. -/
theorem dropWhile_append_cons_neg (p : Char → Bool) (u v : List Char) (x : Char)
    (hx : p x = false) :
    (u ++ x :: v).dropWhile p = u.dropWhile p ++ x :: v := by
  induction u with
  | nil => simp [List.dropWhile_cons, hx]
  | cons a u ih =>
    by_cases ha : p a = true
    · simp only [List.cons_append, List.dropWhile_cons, ha, if_true]
      exact ih
    · simp [List.dropWhile_cons, ha]

/-- Dropping a suffix run stops at the last character outside the run. -/
theorem rdropWhile_append_cons_neg (p : Char → Bool) (u v : List Char) (x : Char)
    (hx : p x = false) :
    (u ++ x :: v).rdropWhile p = u ++ x :: v.rdropWhile p := by
  unfold List.rdropWhile
  have h : (u ++ x :: v).reverse = v.reverse ++ x :: u.reverse := by simp
  rw [h, dropWhile_append_cons_neg p _ _ x hx]
  simp

/-- The trimmed line is a part of the line. -/
theorem jsTrim_within (l : List Char) : jsTrim l <:+: l :=
  List.IsInfix.trans (List.dropWhile_suffix _).isInfix (List.rdropWhile_prefix _ _).isInfix

/-- Trimming twice is trimming once. -/
theorem jsTrim_jsTrim (l : List Char) : jsTrim (jsTrim l) = jsTrim l := by
  unfold jsTrim
  have hsuf : (l.rdropWhile isJsWhitespace).dropWhile isJsWhitespace <:+
      l.rdropWhile isJsWhitespace := List.dropWhile_suffix _
  have hr : ((l.rdropWhile isJsWhitespace).dropWhile isJsWhitespace).rdropWhile
      isJsWhitespace = (l.rdropWhile isJsWhitespace).dropWhile isJsWhitespace := by
    rw [List.rdropWhile_eq_self_iff]
    intro hne
    have hne2 : l.rdropWhile isJsWhitespace ≠ [] := by
      intro h0
      rw [h0] at hne
      exact hne rfl
    rw [hsuf.getLast hne]
    exact List.rdropWhile_last_not _ _ hne2
  rw [hr, List.dropWhile_idempotent]

/-- A phrase that begins and ends with a character that is not white space survives
trimming: a line that contains it still contains it once trimmed. -/
theorem infix_jsTrim (first last : Char) (mid l : List Char)
    (hfirst : isJsWhitespace first = false) (hlast : isJsWhitespace last = false)
    (h : first :: (mid ++ [last]) <:+: l) :
    first :: (mid ++ [last]) <:+: jsTrim l := by
  obtain ⟨a, b, hab⟩ := h
  have h1 : l = (a ++ first :: mid) ++ last :: b := by
    rw [← hab]; simp
  have h2 : l.rdropWhile isJsWhitespace =
      (a ++ first :: mid) ++ last :: b.rdropWhile isJsWhitespace := by
    rw [h1]
    exact rdropWhile_append_cons_neg _ _ _ _ hlast
  have h3 : jsTrim l = a.dropWhile isJsWhitespace ++
      first :: (mid ++ last :: b.rdropWhile isJsWhitespace) := by
    unfold jsTrim
    rw [h2]
    have : (a ++ first :: mid) ++ last :: b.rdropWhile isJsWhitespace =
        a ++ first :: (mid ++ last :: b.rdropWhile isJsWhitespace) := by simp
    rw [this]
    exact dropWhile_append_cons_neg _ _ _ _ hfirst
  rw [h3]
  exact ⟨a.dropWhile isJsWhitespace, b.rdropWhile isJsWhitespace, by simp⟩

/-- A digit is not white space. -/
theorem not_whitespace_of_digit (c : Char) (h : isAsciiDigit c = true) :
    isJsWhitespace c = false := by
  unfold isAsciiDigit at h
  simp only [Bool.and_eq_true, decide_eq_true_eq] at h
  unfold isJsWhitespace
  rw [Bool.eq_false_iff]
  intro hc
  simp only [List.contains_eq_any_beq, List.any_cons, List.any_nil, Bool.or_false,
    Bool.or_eq_true, beq_iff_eq] at hc
  omega

/-- The decimal digits of the numbers up to 30: they are digits, and `parseInt` reads the
number back. -/
theorem decimal_facts : ∀ k, k < 31 →
    parseInt (toString k).toList = k ∧
    (∀ c ∈ (toString k).toList, isAsciiDigit c = true) ∧
    (toString k).toList ≠ [] := by
  decide
/-- The trimmed form of a numbered line: the digits, the dot, and the text without its
trailing white space. -/
theorem jsTrim_entryLine (k : Nat) (hk : k < 31) (t : List Char) :
    jsTrim (entryLine k t) = (toString k).toList ++ '.' :: t.rdropWhile isJsWhitespace := by
  obtain ⟨_, hd, hne⟩ := decimal_facts k hk
  unfold jsTrim entryLine
  rw [rdropWhile_append_cons_neg _ _ _ _ (by decide)]
  cases hD : (toString k).toList with
  | nil => exact absurd hD hne
  | cons d ds =>
    have hdig : isAsciiDigit d = true := hd d (by rw [hD]; exact List.mem_cons_self _ _)
    have hws : isJsWhitespace d = false := not_whitespace_of_digit d hdig
    simp [List.dropWhile_cons, hws]

/-- The leading digits of a trimmed numbered line, and what follows them. -/
theorem digits_of_entryLine (k : Nat) (hk : k < 31) (r : List Char) :
    ((toString k).toList ++ '.' :: r).takeWhile isAsciiDigit = (toString k).toList ∧
    ((toString k).toList ++ '.' :: r).dropWhile isAsciiDigit = '.' :: r := by
  obtain ⟨_, hd, _⟩ := decimal_facts k hk
  constructor
  · rw [List.takeWhile_append_of_pos hd]
    simp [List.takeWhile_cons, show isAsciiDigit '.' = false by decide]
  · rw [List.dropWhile_append_of_pos hd]
    simp [List.dropWhile_cons, show isAsciiDigit '.' = false by decide]

/-- One acceptable numbered line pushes its message to the active category. -/
theorem processLine_entry (k : Nat) (hk : k < 31) (t : List Char) (hg : GoodText k t)
    (st : LoadState) :
    processLine st (entryLine k t) =
      pushMessage { number := k, text := String.mk (jsTrim t) } st := by
  obtain ⟨_, hne, hlt, hnN, hnP⟩ := hg
  obtain ⟨hparse, _, _⟩ := decimal_facts k hk
  have htrim := jsTrim_entryLine k hk t
  obtain ⟨htake, hdrop⟩ := digits_of_entryLine k hk (t.rdropWhile isJsWhitespace)
  have hiN : includes negativeHeader (jsTrim (entryLine k t)) = false := by
    unfold includes
    rw [decide_eq_false_iff_not]
    exact fun h => hnN (h.trans (jsTrim_within _))
  have hiP : includes positiveHeader (jsTrim (entryLine k t)) = false := by
    unfold includes
    rw [decide_eq_false_iff_not]
    exact fun h => hnP (h.trans (jsTrim_within _))
  have hnum : matchesNumbered (jsTrim (entryLine k t)) = true := by
    unfold matchesNumbered
    rw [htrim, htake, hdrop]
    have := (decimal_facts k hk).2.2
    cases hD : (toString k).toList with
    | nil => exact absurd hD this
    | cons d ds => rfl
  have hmn : matchNumber (jsTrim (entryLine k t)) = (toString k).toList := by
    unfold matchNumber
    rw [htrim, htake]
  have hmt : matchText (jsTrim (entryLine k t)) = jsTrim t := by
    unfold matchText
    rw [htrim, hdrop]
    show List.takeWhile _ (jsTrim t) = jsTrim t
    rw [List.takeWhile_eq_self_iff]
    intro c hc
    rw [hlt c hc]
    rfl
  unfold processLine
  simp only [hiN, hiP, hnum, hmn, hmt, jsTrim_jsTrim, hparse, Bool.false_eq_true, if_false,
    if_true]
  have : (jsTrim t).isEmpty = false := by
    cases hj : jsTrim t with
    | nil => exact absurd hj hne
    | cons a b => rfl
  simp [this]
/-- A line that contains `Negative thoughts` makes the dark-side category active. -/
theorem processLine_negativeHeader (h : List Char) (hN : negativeHeader <:+: h)
    (st : LoadState) :
    processLine st h = { st with currentType := some Category.negative } := by
  have hi : includes negativeHeader (jsTrim h) = true := by
    unfold includes
    rw [decide_eq_true_iff]
    exact infix_jsTrim 'N' 's' "egative thought".toList h (by decide) (by decide) hN
  unfold processLine
  simp only [hi, if_true]

/-- A line that contains `Positive thoughts` and not `Negative thoughts` makes the
light-side category active. -/
theorem processLine_positiveHeader (h : List Char) (hP : positiveHeader <:+: h)
    (hPN : ¬ negativeHeader <:+: h) (st : LoadState) :
    processLine st h = { st with currentType := some Category.positive } := by
  have hiN : includes negativeHeader (jsTrim h) = false := by
    unfold includes
    rw [decide_eq_false_iff_not]
    exact fun hh => hPN (hh.trans (jsTrim_within _))
  have hi : includes positiveHeader (jsTrim h) = true := by
    unfold includes
    rw [decide_eq_true_iff]
    exact infix_jsTrim 'P' 's' "ositive thought".toList h (by decide) (by decide) hP
  unfold processLine
  simp only [hiN, hi, if_true, Bool.false_eq_true, if_false]

/-- Pushing a list of messages while the dark-side category is active. -/
theorem foldl_pushMessage_negative (msgs : List Message) (st : LoadState)
    (hc : st.currentType = some Category.negative) :
    msgs.foldl (fun s m => pushMessage m s) st =
      { st with popups := { st.popups with negative := st.popups.negative ++ msgs } } := by
  induction msgs generalizing st with
  | nil => simp
  | cons m msgs ih =>
    have h1 : pushMessage m st =
        { st with popups := { st.popups with negative := st.popups.negative ++ [m] } } := by
      unfold pushMessage
      rw [hc]
    rw [List.foldl_cons, h1]
    refine (ih { st with popups := { st.popups with negative := st.popups.negative ++ [m] } }
      hc).trans ?_
    simp

/-- Pushing a list of messages while the light-side category is active. -/
theorem foldl_pushMessage_positive (msgs : List Message) (st : LoadState)
    (hc : st.currentType = some Category.positive) :
    msgs.foldl (fun s m => pushMessage m s) st =
      { st with popups := { st.popups with positive := st.popups.positive ++ msgs } } := by
  induction msgs generalizing st with
  | nil => simp
  | cons m msgs ih =>
    have h1 : pushMessage m st =
        { st with popups := { st.popups with positive := st.popups.positive ++ [m] } } := by
      unfold pushMessage
      rw [hc]
    rw [List.foldl_cons, h1]
    refine (ih { st with popups := { st.popups with positive := st.popups.positive ++ [m] } }
      hc).trans ?_
    simp

/-- A run of acceptable numbered lines pushes the expected messages, in order. -/
theorem foldl_entryLines (n : Nat) (hn : n ≤ 30) (texts : Nat → List Char)
    (hg : ∀ i, i < n → GoodText (i + 1) (texts i)) (st : LoadState) :
    (entryLines n texts).foldl processLine st =
      (expectedMessages n texts).foldl (fun s m => pushMessage m s) st := by
  induction n with
  | zero => rfl
  | succ n ih =>
    have h1 : entryLines (n + 1) texts =
        entryLines n texts ++ [entryLine (n + 1) (texts n)] := by
      simp [entryLines, List.range_succ]
    have h2 : expectedMessages (n + 1) texts =
        expectedMessages n texts ++
          [{ number := n + 1, text := String.mk (jsTrim (texts n)) }] := by
      simp [expectedMessages, List.range_succ]
    rw [h1, h2, List.foldl_append, List.foldl_append,
      ih (by omega) (fun i hi => hg i (by omega))]
    simp only [List.foldl_cons, List.foldl_nil]
    exact processLine_entry (n + 1) (by omega) (texts n) (hg n (by omega)) _

/-- Splitting a line without line feed gives that line. -/
theorem splitNewline_line (l : List Char) (h : ∀ c ∈ l, c.toNat ≠ 10) :
    splitNewline l = [l] := by
  induction l with
  | nil => rfl
  | cons c l ih =>
    have hc : c.toNat ≠ 10 := h c (List.mem_cons_self _ _)
    have hl := ih (fun d hd => h d (List.mem_cons_of_mem _ hd))
    simp [splitNewline, hc, hl]

/-- Splitting after a first line without line feed. -/
theorem splitNewline_append (l rest : List Char) (h : ∀ c ∈ l, c.toNat ≠ 10) :
    splitNewline (l ++ Char.ofNat 10 :: rest) = l :: splitNewline rest := by
  induction l with
  | nil =>
    have : (Char.ofNat 10).toNat = 10 := by decide
    simp [splitNewline, this]
  | cons c l ih =>
    have hc : c.toNat ≠ 10 := h c (List.mem_cons_self _ _)
    have hl := ih (fun d hd => h d (List.mem_cons_of_mem _ hd))
    simp [splitNewline, hc, hl]

/-- Splitting at line feeds undoes joining lines that contain none. -/
theorem splitNewline_joinLines (ls : List (List Char)) (hne : ls ≠ [])
    (h : ∀ l ∈ ls, ∀ c ∈ l, c.toNat ≠ 10) : splitNewline (joinLines ls) = ls := by
  induction ls with
  | nil => exact absurd rfl hne
  | cons l ls ih =>
    cases ls with
    | nil => exact splitNewline_line l (h l (List.mem_cons_self _ _))
    | cons l2 ls =>
      have h1 : joinLines (l :: l2 :: ls) = l ++ Char.ofNat 10 :: joinLines (l2 :: ls) := rfl
      rw [h1, splitNewline_append l _ (h l (List.mem_cons_self _ _)),
        ih (by simp) (fun m hm => h m (List.mem_cons_of_mem _ hm))]

/-- A numbered line contains no line feed when its text contains none. -/
theorem entryLine_no_newline (k : Nat) (hk : k < 31) (t : List Char)
    (ht : ∀ c ∈ t, c.toNat ≠ 10) : ∀ c ∈ entryLine k t, c.toNat ≠ 10 := by
  intro c hc
  unfold entryLine at hc
  rw [List.mem_append, List.mem_cons] at hc
  rcases hc with h | h | h
  · have := (decimal_facts k hk).2.1 c h
    unfold isAsciiDigit at this
    simp only [Bool.and_eq_true, decide_eq_true_eq] at this
    omega
  · rw [h]; decide
  · exact ht c h

/-- The parse of a two-section text of acceptable lines: the expected messages, side by
side. -/
theorem parse_two_sections (headerN headerP : List Char) (n : Nat) (hn : n ≤ 30)
    (neg pos : Nat → List Char)
    (hN : negativeHeader <:+: headerN) (hP : positiveHeader <:+: headerP)
    (hPN : ¬ negativeHeader <:+: headerP)
    (hneg : ∀ i, i < n → GoodText (i + 1) (neg i))
    (hpos : ∀ i, i < n → GoodText (i + 1) (pos i)) :
    ((headerN :: entryLines n neg ++ headerP :: entryLines n pos).foldl processLine
      { currentType := none, popups := emptyCatalog }).popups =
      { negative := expectedMessages n neg, positive := expectedMessages n pos } := by
  have e1 : (headerN :: entryLines n neg).foldl processLine
      { currentType := none, popups := emptyCatalog } =
      { currentType := some Category.negative,
        popups := { negative := expectedMessages n neg, positive := [] } } := by
    rw [List.foldl_cons, processLine_negativeHeader headerN hN,
      foldl_entryLines n hn neg hneg, foldl_pushMessage_negative _ _ rfl]
    simp [emptyCatalog]
  rw [List.foldl_append, e1, List.foldl_cons, processLine_positiveHeader headerP hP hPN,
    foldl_entryLines n hn pos hpos, foldl_pushMessage_positive _ _ rfl]
  simp
/-- Counterexample to C20 as stated: a text of the claimed shape (header, 30 numbered lines
with non-empty text, header, 30 numbered lines) whose second dark-side entry reads
`2. Positive thoughts help`.  That line is taken for the light-side header: the dark side
receives one message only and the light side 58. -/
theorem header_phrase_in_entry_counterexample :
    (∀ i, i < 30 → jsTrim (trapTexts i) ≠ [] ∧ jsTrim (plainTexts i) ≠ []) ∧
    (loadPopups (some (sectionsText negativeHeader positiveHeader 30 trapTexts plainTexts))
      emptyCatalog).negative = [{ number := 1, text := "x" }] ∧
    (loadPopups (some (sectionsText negativeHeader positiveHeader 30 trapTexts plainTexts))
      emptyCatalog).positive.length = 58 ∧
    loadPopups (some (sectionsText negativeHeader positiveHeader 30 trapTexts plainTexts))
        emptyCatalog ≠
      { negative := expectedMessages 30 trapTexts,
        positive := expectedMessages 30 plainTexts } := by
  set_option maxRecDepth 1000000 in decide

/-- C20 (amended): for every text made of a line containing `Negative thoughts`, 30 lines
`k.<text>` for k = 1..30, a line containing `Positive thoughts` (and not
`Negative thoughts`), and 30 more such lines, where every entry has a non-empty trimmed
text without line terminator and no entry line contains either category phrase,
`loadPopups` starting from the empty catalog yields exactly 30 entries in
`popups.negative` and 30 in `popups.positive`, with numbers 1..30 in order and each text
equal to the trimmed text of its line. -/
theorem loadPopups_two_sections (headerN headerP : List Char) (neg pos : Nat → List Char)
    (hN : negativeHeader <:+: headerN) (hNnl : ∀ c ∈ headerN, c.toNat ≠ 10)
    (hP : positiveHeader <:+: headerP) (hPN : ¬ negativeHeader <:+: headerP)
    (hPnl : ∀ c ∈ headerP, c.toNat ≠ 10)
    (hneg : ∀ i, i < 30 → GoodText (i + 1) (neg i))
    (hpos : ∀ i, i < 30 → GoodText (i + 1) (pos i)) :
    loadPopups (some (sectionsText headerN headerP 30 neg pos)) emptyCatalog =
      { negative := expectedMessages 30 neg, positive := expectedMessages 30 pos } ∧
    (loadPopups (some (sectionsText headerN headerP 30 neg pos)) emptyCatalog).negative.length
      = 30 ∧
    (loadPopups (some (sectionsText headerN headerP 30 neg pos)) emptyCatalog).positive.length
      = 30 ∧
    (loadPopups (some (sectionsText headerN headerP 30 neg pos)) emptyCatalog).negative.map
      Message.number = (List.range 30).map (fun i => i + 1) ∧
    (loadPopups (some (sectionsText headerN headerP 30 neg pos)) emptyCatalog).positive.map
      Message.number = (List.range 30).map (fun i => i + 1) ∧
    (∀ i, i < 30 →
      (loadPopups (some (sectionsText headerN headerP 30 neg pos)) emptyCatalog).negative.get? i
        = some { number := i + 1, text := String.mk (jsTrim (neg i)) } ∧
      (loadPopups (some (sectionsText headerN headerP 30 neg pos)) emptyCatalog).positive.get? i
        = some { number := i + 1, text := String.mk (jsTrim (pos i)) }) := by
  have hlines : ∀ l ∈ headerN :: entryLines 30 neg ++ headerP :: entryLines 30 pos,
      ∀ c ∈ l, c.toNat ≠ 10 := by
    intro l hl
    have hentry : ∀ texts : Nat → List Char, (∀ i, i < 30 → GoodText (i + 1) (texts i)) →
        l ∈ entryLines 30 texts → ∀ c ∈ l, c.toNat ≠ 10 := by
      intro texts hg hmem
      unfold entryLines at hmem
      rw [List.mem_map] at hmem
      obtain ⟨i, hi, rfl⟩ := hmem
      rw [List.mem_range] at hi
      exact entryLine_no_newline (i + 1) (by omega) (texts i) (hg i hi).1
    rw [List.mem_append, List.mem_cons, List.mem_cons] at hl
    rcases hl with (h | h) | (h | h)
    · rw [h]; exact hNnl
    · exact hentry neg hneg h
    · rw [h]; exact hPnl
    · exact hentry pos hpos h
  have hparse := parse_two_sections headerN headerP 30 (le_refl _) neg pos hN hP hPN hneg hpos
  have hlen : ∀ texts : Nat → List Char, (expectedMessages 30 texts).length = 30 := by
    intro texts
    simp [expectedMessages]
  have hload : loadPopups (some (sectionsText headerN headerP 30 neg pos)) emptyCatalog =
      { negative := expectedMessages 30 neg, positive := expectedMessages 30 pos } := by
    unfold loadPopups sectionsText
    simp only []
    have hsplit : splitNewline (String.mk (joinLines
        (headerN :: entryLines 30 neg ++ headerP :: entryLines 30 pos))).toList =
        headerN :: entryLines 30 neg ++ headerP :: entryLines 30 pos :=
      splitNewline_joinLines _ (by simp) hlines
    rw [hsplit]
    have hparse2 : (List.foldl processLine { currentType := none, popups := emptyCatalog }
        (headerN :: entryLines 30 neg ++ headerP :: entryLines 30 pos)).popups =
        { negative := expectedMessages 30 neg, positive := expectedMessages 30 pos } := hparse
    rw [hparse2]
    simp only [hlen]
    simp
  rw [hload]
  refine ⟨rfl, hlen neg, hlen pos, ?_, ?_, fun i hi => ⟨?_, ?_⟩⟩
  · simp [expectedMessages, Function.comp_def]
  · simp [expectedMessages, Function.comp_def]
  · simp [expectedMessages, List.getElem?_range, hi]
  · simp [expectedMessages, List.getElem?_range, hi]

/-- Witness for C20 (amended): the two plain headers and 30 + 30 entries `k.<tab>ok `:
every stored text is `ok`. -/
theorem loadPopups_two_sections_witness :
    negativeHeader <:+: negativeHeader ∧ positiveHeader <:+: positiveHeader ∧
    ¬ negativeHeader <:+: positiveHeader ∧
    (∀ i, i < 30 → GoodText (i + 1) (plainTexts i)) ∧
    jsTrim (plainTexts 0) = "ok".toList ∧
    loadPopups (some (sectionsText negativeHeader positiveHeader 30 plainTexts plainTexts))
        emptyCatalog =
      { negative := expectedMessages 30 plainTexts,
        positive := expectedMessages 30 plainTexts } :=
  have hN : negativeHeader <:+: negativeHeader := List.infix_refl _
  have hP : positiveHeader <:+: positiveHeader := List.infix_refl _
  have hPN : ¬ negativeHeader <:+: positiveHeader := by decide
  have hg : ∀ i, i < 30 → GoodText (i + 1) (plainTexts i) := by
    set_option maxRecDepth 1000000 in decide
  ⟨hN, hP, hPN, hg, by decide,
    (loadPopups_two_sections negativeHeader positiveHeader plainTexts plainTexts hN (by decide)
      hP hPN (by decide) hg hg).1⟩

/-! ## Tiers along the room -/

/-- The tier left by a call that passes the throttle in the main scene is `selectedTier`. -/
theorem updatePopups_selectedTier (now : Int) (x : ℚ) (s : State)
    (hscene : s.currentScene = Scene.main)
    (hthr : ¬ now - s.lastPopupUpdate < popupUpdateInterval) :
    (updatePopups now x s).currentPopupTier = selectedTier x := by
  unfold selectedTier
  by_cases hx : |x| < 1 / 2
  · rw [if_pos hx]
    show (updatePopupsAt ROOM_WIDTH now x s).currentPopupTier = 0
    rw [updatePopupsAt_neutral ROOM_WIDTH now x s hscene hthr hx]
  · rw [if_neg hx]
    exact updatePopupsAt_tier ROOM_WIDTH now x s hscene hthr hx

/-- The tier cascade is monotone in the progress. -/
theorem newTier_mono (p q : ℚ) (h : p ≤ q) : newTier p ≤ newTier q := by
  unfold newTier
  split_ifs <;> first | omega | (exfalso; linarith)

/-- The progress depends on the offset through its absolute value, monotonically. -/
theorem progress_mono (x y : ℚ) (h : |x| ≤ |y|) :
    progress ROOM_WIDTH x ≤ progress ROOM_WIDTH y := by
  have h18 : maxDistance ROOM_WIDTH = 18 := by norm_num [maxDistance, ROOM_WIDTH]
  unfold progress
  rw [h18]
  exact min_le_min (div_le_div_of_nonneg_right h (by norm_num)) (le_refl _)

/-- C26: the floor progress lines mark the zones they are labelled with: at the `x` of
each line the tier selected by `updatePopups` is the tier of the label, that is tier 1 at
`x = -3` and `x = 3`, tier 2 at `x = -8` and `x = 8`, tier 3 at `x = -15` and `x = 15`,
for `ROOM_WIDTH = 40`. -/
theorem progress_lines_match_tiers :
    ROOM_WIDTH = 40 ∧
    (∀ line ∈ progressLines, selectedTier line.1 = line.2) ∧
    selectedTier (-3) = 1 ∧ selectedTier 3 = 1 ∧
    selectedTier (-8) = 2 ∧ selectedTier 8 = 2 ∧
    selectedTier (-15) = 3 ∧ selectedTier 15 = 3 ∧
    (updatePopups 1000 (-3) sampleStart).currentPopupTier = 1 ∧
    (updatePopups 1000 8 sampleStart).currentPopupTier = 2 ∧
    (updatePopups 1000 (-15) sampleStart).currentPopupTier = 3 := by
  have h1 : selectedTier (-3) = 1 := by
    norm_num [selectedTier, newTier, progress, maxDistance, ROOM_WIDTH]
  have h2 : selectedTier 3 = 1 := by
    norm_num [selectedTier, newTier, progress, maxDistance, ROOM_WIDTH]
  have h3 : selectedTier (-8) = 2 := by
    norm_num [selectedTier, newTier, progress, maxDistance, ROOM_WIDTH]
  have h4 : selectedTier 8 = 2 := by
    norm_num [selectedTier, newTier, progress, maxDistance, ROOM_WIDTH]
  have h5 : selectedTier (-15) = 3 := by
    norm_num [selectedTier, newTier, progress, maxDistance, ROOM_WIDTH]
  have h6 : selectedTier 15 = 3 := by
    norm_num [selectedTier, newTier, progress, maxDistance, ROOM_WIDTH]
  have a1 : sampleStart.currentScene = Scene.main := rfl
  have a2 : ¬ (1000 - sampleStart.lastPopupUpdate < popupUpdateInterval) := by
    norm_num [sampleStart, popupUpdateInterval]
  refine ⟨rfl, ?_, h1, h2, h3, h4, h5, h6,
    (updatePopups_selectedTier 1000 (-3) sampleStart a1 a2).trans h1,
    (updatePopups_selectedTier 1000 8 sampleStart a1 a2).trans h4,
    (updatePopups_selectedTier 1000 (-15) sampleStart a1 a2).trans h5⟩
  intro line hl
  simp only [progressLines, List.mem_cons, List.mem_singleton, List.not_mem_nil,
    or_false] at hl
  rcases hl with h | h | h | h | h | h <;> rw [h] <;> assumption

/-- C28: the tier selected by `updatePopups` (the dead zone counting as tier 0) is symmetric
and monotone in the lateral offset: `tier(x) = tier(-x)`, and `|x1| <= |x2|` gives
`tier(x1) <= tier(x2)`; it is always one of 0, 1, 2, 3. -/
theorem tier_symmetric_monotone (now : Int) (s : State)
    (hscene : s.currentScene = Scene.main)
    (hthr : ¬ now - s.lastPopupUpdate < popupUpdateInterval) :
    (∀ x : ℚ, (updatePopups now x s).currentPopupTier = selectedTier x) ∧
    (∀ x : ℚ, (updatePopups now x s).currentPopupTier =
      (updatePopups now (-x) s).currentPopupTier) ∧
    (∀ x1 x2 : ℚ, |x1| ≤ |x2| →
      (updatePopups now x1 s).currentPopupTier ≤ (updatePopups now x2 s).currentPopupTier) ∧
    (∀ x : ℚ, (updatePopups now x s).currentPopupTier ≤ 3) ∧
    (∀ x : ℚ, selectedTier x = selectedTier (-x)) ∧
    (∀ x1 x2 : ℚ, |x1| ≤ |x2| → selectedTier x1 ≤ selectedTier x2) := by
  have hsel := fun x => updatePopups_selectedTier now x s hscene hthr
  have hsym : ∀ x : ℚ, selectedTier x = selectedTier (-x) := by
    intro x
    unfold selectedTier progress
    rw [abs_neg]
  have hmono : ∀ x1 x2 : ℚ, |x1| ≤ |x2| → selectedTier x1 ≤ selectedTier x2 := by
    intro x1 x2 h
    unfold selectedTier
    by_cases h1 : |x1| < 1 / 2
    · rw [if_pos h1]
      exact Nat.zero_le _
    · have h2 : ¬ |x2| < 1 / 2 := fun h2 => h1 (lt_of_le_of_lt h h2)
      rw [if_neg h1, if_neg h2]
      exact newTier_mono _ _ (progress_mono x1 x2 h)
  have hle : ∀ x : ℚ, selectedTier x ≤ 3 := by
    intro x
    unfold selectedTier newTier
    split_ifs <;> omega
  refine ⟨hsel, fun x => ?_, fun x1 x2 h => ?_, fun x => ?_, hsym, hmono⟩
  · rw [hsel, hsel, ← hsym]
  · rw [hsel, hsel]
    exact hmono x1 x2 h
  · rw [hsel]
    exact hle x

/-- Witness for C28: from the start state, the tiers at 8 and -8 agree and the tier at 3 is
at most the tier at -15. -/
theorem tier_symmetric_monotone_witness :
    sampleStart.currentScene = Scene.main ∧
    ¬ (1000 - sampleStart.lastPopupUpdate < popupUpdateInterval) ∧
    (updatePopups 1000 8 sampleStart).currentPopupTier =
      (updatePopups 1000 (-8) sampleStart).currentPopupTier ∧
    (updatePopups 1000 3 sampleStart).currentPopupTier ≤
      (updatePopups 1000 (-15) sampleStart).currentPopupTier :=
  have h1 : sampleStart.currentScene = Scene.main := rfl
  have h2 : ¬ (1000 - sampleStart.lastPopupUpdate < popupUpdateInterval) := by
    norm_num [sampleStart, popupUpdateInterval]
  have h := tier_symmetric_monotone 1000 sampleStart h1 h2
  ⟨h1, h2, h.2.1 8, h.2.2.1 3 (-15) (by norm_num)⟩

/-- C25 (evaluation of the code at the failing input): at progress 0.08 (camera
`x = 1.44`) the comment of `createProgressLines` puts the player in tier 1
(`progress > 0.05`), while `updatePopups` selects tier 0, its tier 1 starting above 0.1;
likewise at progress 0.35 (`x = 6.3`) and 0.68 (`x = 12.24`) the comment gives tiers 2 and
3 and the code tiers 1 and 2. -/
theorem comment_thresholds_differ :
    progress ROOM_WIDTH (36 / 25) = 8 / 100 ∧
    commentTier (progress ROOM_WIDTH (36 / 25)) = 1 ∧
    newTier (progress ROOM_WIDTH (36 / 25)) = 0 ∧
    (updatePopups 1000 (36 / 25) sampleStart).currentPopupTier = 0 ∧
    progress ROOM_WIDTH (63 / 10) = 35 / 100 ∧
    commentTier (35 / 100) = 2 ∧ newTier (35 / 100) = 1 ∧
    progress ROOM_WIDTH (306 / 25) = 68 / 100 ∧
    commentTier (68 / 100) = 3 ∧ newTier (68 / 100) = 2 := by
  have hp : progress ROOM_WIDTH (36 / 25) = 8 / 100 := by
    norm_num [progress, maxDistance, ROOM_WIDTH, abs_of_pos]
  have ht : newTier (progress ROOM_WIDTH (36 / 25)) = 0 := by
    rw [hp]; norm_num [newTier]
  have a1 : sampleStart.currentScene = Scene.main := rfl
  have a2 : ¬ (1000 - sampleStart.lastPopupUpdate < popupUpdateInterval) := by
    norm_num [sampleStart, popupUpdateInterval]
  have hsel : selectedTier (36 / 25) = 0 := by
    unfold selectedTier
    rw [if_neg (by rw [abs_of_pos (by norm_num)]; norm_num), ht]
  refine ⟨hp, by rw [hp]; norm_num [commentTier], ht,
    (updatePopups_selectedTier 1000 (36 / 25) sampleStart a1 a2).trans hsel,
    by norm_num [progress, maxDistance, ROOM_WIDTH, abs_of_pos],
    by norm_num [commentTier], by norm_num [newTier],
    by norm_num [progress, maxDistance, ROOM_WIDTH, abs_of_pos],
    by norm_num [commentTier], by norm_num [newTier]⟩

/-- C29: for every camera `x < -0.5` the static gain that `updateAudio` sets is exactly
0.02: the linear term `|x| / (ROOM_WIDTH/2)` is greater than 0.025 on the whole dark side,
so the cap 0.02 always applies and the level does not vary with the position. -/
theorem static_gain_is_capped (x : ℚ) (hx : x < -(1 / 2)) :
    25 / 1000 < |x| / (ROOM_WIDTH / 2) ∧
    staticLevel x = 2 / 100 ∧
    (∀ g : AudioGraph, (updateAmbient x g).staticGain = setGain g.staticGain (2 / 100)) ∧
    (∀ (distanceTo : Vector3 → Vector3 → ℚ) (y z : ℚ) (g : AudioGraph),
      ∃ r : AudioGraph,
        updateAudio distanceTo true Scene.main { x := x, y := y, z := z } (some g) = some r ∧
        r.staticGain = setGain g.staticGain (2 / 100)) ∧
    (∀ x2 : ℚ, x2 < -(1 / 2) → staticLevel x2 = staticLevel x) := by
  have hlin : ∀ u : ℚ, u < -(1 / 2) → 25 / 1000 < |u| / (ROOM_WIDTH / 2) := by
    intro u hu
    have habs : |u| = -u := abs_of_neg (by linarith)
    rw [habs]
    norm_num [ROOM_WIDTH]
    linarith
  have hlev : ∀ u : ℚ, u < -(1 / 2) → staticLevel u = 2 / 100 := by
    intro u hu
    unfold staticLevel
    apply min_eq_right
    have := hlin u hu
    linarith
  have hamb : ∀ g : AudioGraph,
      (updateAmbient x g).staticGain = setGain g.staticGain (2 / 100) := by
    intro g
    rw [((updateAmbient_gains x g).1 hx).1, hlev x hx]
  refine ⟨hlin x hx, hlev x hx, hamb, ?_, fun x2 h2 => by rw [hlev x2 h2, hlev x hx]⟩
  intro distanceTo y z g
  rw [updateAudio_main]
  exact ⟨_, rfl, hamb g⟩

/-- Witness for C29: `x = -0.6` and `x = -19`, both with static level 0.02. -/
theorem static_gain_is_capped_witness :
    (-(3 / 5) : ℚ) < -(1 / 2) ∧ (-19 : ℚ) < -(1 / 2) ∧
    staticLevel (-(3 / 5)) = 2 / 100 ∧ staticLevel (-19) = staticLevel (-(3 / 5)) :=
  have h1 : (-(3 / 5) : ℚ) < -(1 / 2) := by norm_num
  have h2 : (-19 : ℚ) < -(1 / 2) := by norm_num
  have h := static_gain_is_capped (-(3 / 5)) h1
  ⟨h1, h2, h.2.1, h.2.2.2.2 (-19) h2⟩

/-! ## Mobile slots and the fallback catalog -/

/-- C27: the mobile slice layout keeps popups on screen: for every window height
`H >= 190` and every number `n` of active popups, the `y` given to a new popup satisfies
`y >= 10` and `y + 80 <= H - 100`; it is the wrapped slot
`10 + (n mod floor((H - 120) / 70)) * 70` whenever the unwrapped slot `10 + 70 * n` would
exceed that bound, and the unwrapped slot otherwise. -/
theorem mobile_slot_on_screen (win : Window) (n : Nat) (hH : 190 ≤ win.innerHeight) :
    10 ≤ mobileY win n ∧
    mobileY win n + 80 ≤ (win.innerHeight : Int) - 100 ∧
    ((n : Int) * 70 + 10 + 80 > (win.innerHeight : Int) - 100 →
      mobileY win n = 10 + ((n : Int) % (((win.innerHeight : Int) - 120) / 70)) * 70) ∧
    (¬ ((n : Int) * 70 + 10 + 80 > (win.innerHeight : Int) - 100) →
      mobileY win n = 10 + 70 * (n : Int)) ∧
    (∀ (random : Nat → ℚ) (aps : List ActivePopup), aps.length = n →
      popupPosition true win random aps = (some 10, some ((mobileY win n : Int) : ℚ))) := by
  have hk1 : 1 ≤ ((win.innerHeight : Int) - 120) / 70 := by omega
  have hk2 : (((win.innerHeight : Int) - 120) / 70) * 70 ≤ (win.innerHeight : Int) - 120 := by
    omega
  have hr0 : 0 ≤ (n : Int) % (((win.innerHeight : Int) - 120) / 70) :=
    Int.emod_nonneg _ (by omega)
  have hr1 : (n : Int) % (((win.innerHeight : Int) - 120) / 70) <
      ((win.innerHeight : Int) - 120) / 70 := Int.emod_lt_of_pos _ (by omega)
  have hwrap : (n : Int) * 70 + 10 + 80 > (win.innerHeight : Int) - 100 →
      mobileY win n = 10 + ((n : Int) % (((win.innerHeight : Int) - 120) / 70)) * 70 := by
    intro h
    unfold mobileY
    simp only []
    rw [if_pos h]
  have hfit : ¬ ((n : Int) * 70 + 10 + 80 > (win.innerHeight : Int) - 100) →
      mobileY win n = 10 + 70 * (n : Int) := by
    intro h
    unfold mobileY
    simp only []
    rw [if_neg h]
    ring
  refine ⟨?_, ?_, hwrap, hfit, ?_⟩
  · by_cases h : (n : Int) * 70 + 10 + 80 > (win.innerHeight : Int) - 100
    · rw [hwrap h]
      generalize (n : Int) % (((win.innerHeight : Int) - 120) / 70) = r at hr0 hr1
      omega
    · rw [hfit h]
      omega
  · by_cases h : (n : Int) * 70 + 10 + 80 > (win.innerHeight : Int) - 100
    · rw [hwrap h]
      generalize (n : Int) % (((win.innerHeight : Int) - 120) / 70) = r at hr0 hr1
      generalize ((win.innerHeight : Int) - 120) / 70 = k at hk1 hk2 hr1
      omega
    · rw [hfit h]
      omega
  · intro random aps hlen
    show (some 10, some ((mobileY win aps.length : Int) : ℚ)) = _
    rw [hlen]

/-- Witness for C27: height 800 and 12 popups on arrival: the unwrapped slot 850 is off
screen and the popup goes to the wrapped slot 10 + (12 mod 9) * 70 = 220. -/
theorem mobile_slot_on_screen_witness :
    190 ≤ sampleWindow.innerHeight ∧
    ((12 : Nat) : Int) * 70 + 10 + 80 > (sampleWindow.innerHeight : Int) - 100 ∧
    mobileY sampleWindow 12 = 220 ∧
    10 ≤ mobileY sampleWindow 12 ∧
    mobileY sampleWindow 12 + 80 ≤ (sampleWindow.innerHeight : Int) - 100 :=
  have hH : 190 ≤ sampleWindow.innerHeight := by decide
  have h := mobile_slot_on_screen sampleWindow 12 hH
  ⟨hH, by decide, by decide, h.1, h.2.1⟩

/-- The built-in fallback set: 30 entries per category, numbered 1 to 30 in order. -/
theorem fallback_shape :
    createFallbackPopups.negative.length = 30 ∧ createFallbackPopups.positive.length = 30 ∧
    createFallbackPopups.negative.map Message.number = (List.range 30).map (fun i => i + 1) ∧
    createFallbackPopups.positive.map Message.number = (List.range 30).map (fun i => i + 1) := by
  decide

/-- The fallback test of `loadPopups`, on the parsed catalog. -/
theorem loadPopups_some (text : String) (popups : PopupCatalog) :
    loadPopups (some text) popups =
      if (parsePopups text popups).negative.length = 0 ∨
          (parsePopups text popups).positive.length = 0 then createFallbackPopups
      else parsePopups text popups := rfl

/-- C21: `loadPopups` always returns a catalog (it raises nothing), and it replaces both
categories with the built-in fallback set whenever the fetch fails or parsing leaves
either category without a message, in particular for an empty text and for a text without
any header or numbered line; the fallback set has exactly 30 entries per category,
numbered 1 to 30 in order. -/
theorem loadPopups_falls_back (popups : PopupCatalog) :
    loadPopups none popups = createFallbackPopups ∧
    (∀ text : String,
      (parsePopups text popups).negative.length = 0 ∨
        (parsePopups text popups).positive.length = 0 →
      loadPopups (some text) popups = createFallbackPopups) ∧
    (∀ text : String,
      ¬ ((parsePopups text popups).negative.length = 0 ∨
        (parsePopups text popups).positive.length = 0) →
      loadPopups (some text) popups = parsePopups text popups) ∧
    loadPopups (some "") emptyCatalog = createFallbackPopups ∧
    loadPopups (some "no header here\n\n1. orphan entry") emptyCatalog = createFallbackPopups ∧
    loadPopups (some "Negative thoughts\n1. only one side") emptyCatalog =
      createFallbackPopups ∧
    createFallbackPopups.negative.length = 30 ∧ createFallbackPopups.positive.length = 30 ∧
    createFallbackPopups.negative.map Message.number = (List.range 30).map (fun i => i + 1) ∧
    createFallbackPopups.positive.map Message.number =
      (List.range 30).map (fun i => i + 1) := by
  obtain ⟨f1, f2, f3, f4⟩ := fallback_shape
  refine ⟨rfl, fun text h => ?_, fun text h => ?_, ?_, ?_, ?_, f1, f2, f3, f4⟩
  · rw [loadPopups_some, if_pos h]
  · rw [loadPopups_some, if_neg h]
  · decide
  · set_option maxRecDepth 100000 in decide
  · set_option maxRecDepth 100000 in decide

/-- Witness for C21: a text with a dark-side section only, loaded over the empty catalog:
the light side stays empty and the fallback set is installed. -/
theorem loadPopups_falls_back_witness :
    (parsePopups "Negative thoughts\n1. only one side" emptyCatalog).negative =
      [{ number := 1, text := "only one side" }] ∧
    ((parsePopups "Negative thoughts\n1. only one side" emptyCatalog).negative.length = 0 ∨
      (parsePopups "Negative thoughts\n1. only one side" emptyCatalog).positive.length = 0) ∧
    loadPopups (some "Negative thoughts\n1. only one side") emptyCatalog =
      createFallbackPopups :=
  have h : (parsePopups "Negative thoughts\n1. only one side" emptyCatalog).negative.length = 0 ∨
      (parsePopups "Negative thoughts\n1. only one side" emptyCatalog).positive.length = 0 := by
    set_option maxRecDepth 100000 in decide
  ⟨by set_option maxRecDepth 100000 in decide, h,
    (loadPopups_falls_back emptyCatalog).2.1 _ h⟩

/-! ## The parsing rule of `loadPopups` (C22) -/

/-- The trimmed form of a line that begins with digits and a dot. -/
theorem jsTrim_numbered (digits rest : List Char) (hne : digits ≠ [])
    (hd : ∀ c ∈ digits, isAsciiDigit c = true) :
    jsTrim (digits ++ '.' :: rest) = digits ++ '.' :: rest.rdropWhile isJsWhitespace := by
  unfold jsTrim
  rw [rdropWhile_append_cons_neg _ _ _ _ (by decide)]
  cases digits with
  | nil => exact absurd rfl hne
  | cons d ds =>
    have hws : isJsWhitespace d = false :=
      not_whitespace_of_digit d (hd d (List.mem_cons_self _ _))
    simp [List.dropWhile_cons, hws]

/-- What the two regular expressions find in a line `<digits>.<rest>`: the line is a
numbered line, its number is `digits`, and its text is what follows the dot, without the
surrounding white space, up to the first line terminator. -/
theorem match_numbered (digits rest : List Char) (hne : digits ≠ [])
    (hd : ∀ c ∈ digits, isAsciiDigit c = true) :
    matchesNumbered (jsTrim (digits ++ '.' :: rest)) = true ∧
    matchNumber (jsTrim (digits ++ '.' :: rest)) = digits ∧
    matchText (jsTrim (digits ++ '.' :: rest)) =
      (jsTrim rest).takeWhile (fun c => !isLineTerminator c) ∧
    ((∀ c ∈ jsTrim rest, isLineTerminator c = false) →
      jsTrim (matchText (jsTrim (digits ++ '.' :: rest))) = jsTrim rest) := by
  have htake : (digits ++ '.' :: rest.rdropWhile isJsWhitespace).takeWhile isAsciiDigit =
      digits := by
    rw [List.takeWhile_append_of_pos hd]
    simp [List.takeWhile_cons, show isAsciiDigit '.' = false by decide]
  have hdrop : (digits ++ '.' :: rest.rdropWhile isJsWhitespace).dropWhile isAsciiDigit =
      '.' :: rest.rdropWhile isJsWhitespace := by
    rw [List.dropWhile_append_of_pos hd]
    simp [List.dropWhile_cons, show isAsciiDigit '.' = false by decide]
  have hmt : matchText (jsTrim (digits ++ '.' :: rest)) =
      (jsTrim rest).takeWhile (fun c => !isLineTerminator c) := by
    unfold matchText
    rw [jsTrim_numbered digits rest hne hd, hdrop]
    rfl
  refine ⟨?_, ?_, hmt, fun hlt => ?_⟩
  · unfold matchesNumbered
    rw [jsTrim_numbered digits rest hne hd, htake, hdrop]
    cases digits with
    | nil => exact absurd rfl hne
    | cons d ds => rfl
  · unfold matchNumber
    rw [jsTrim_numbered digits rest hne hd, htake]
  · rw [hmt]
    have : (jsTrim rest).takeWhile (fun c => !isLineTerminator c) = jsTrim rest := by
      rw [List.takeWhile_eq_self_iff]
      intro c hc
      rw [hlt c hc]
      rfl
    rw [this, jsTrim_jsTrim]

/-- A trimmed line passes the test `/^\d+\./` exactly when it is a non-empty run of digits,
a dot, and anything. -/
theorem matchesNumbered_iff (line : List Char) :
    matchesNumbered line = true ↔
      ∃ digits rest : List Char, digits ≠ [] ∧ (∀ c ∈ digits, isAsciiDigit c = true) ∧
        line = digits ++ '.' :: rest := by
  constructor
  · intro h
    unfold matchesNumbered at h
    simp only [Bool.and_eq_true, Bool.not_eq_true', beq_iff_eq] at h
    obtain ⟨h1, h2⟩ := h
    have hsplit := List.takeWhile_append_dropWhile isAsciiDigit line
    cases hdw : line.dropWhile isAsciiDigit with
    | nil => rw [hdw] at h2; cases h2
    | cons c rest =>
      rw [hdw] at h2
      simp only [List.head?_cons, Option.some.injEq] at h2
      refine ⟨line.takeWhile isAsciiDigit, rest, ?_, ?_, ?_⟩
      · intro h0
        rw [h0] at h1
        cases h1
      · intro d hdm
        exact (List.mem_takeWhile_imp hdm)
      · rw [← h2, ← hdw, hsplit]
  · rintro ⟨digits, rest, hne, hd, rfl⟩
    unfold matchesNumbered
    have htake : (digits ++ '.' :: rest).takeWhile isAsciiDigit = digits := by
      rw [List.takeWhile_append_of_pos hd]
      simp [List.takeWhile_cons, show isAsciiDigit '.' = false by decide]
    have hdrop : (digits ++ '.' :: rest).dropWhile isAsciiDigit = '.' :: rest := by
      rw [List.dropWhile_append_of_pos hd]
      simp [List.dropWhile_cons, show isAsciiDigit '.' = false by decide]
    rw [htake, hdrop]
    cases digits with
    | nil => exact absurd rfl hne
    | cons d ds => rfl

/-- Counterexample to C22 as stated: with the dark-side category active, the line
`2. Positive thoughts help` is a numbered entry with non-empty text, yet it is not
appended: it is taken for a header and makes the light-side category active.  And a
numbered entry met before any header is appended nowhere. -/
theorem numbered_entry_not_appended_counterexample :
    matchesNumbered (jsTrim "2. Positive thoughts help".toList) = true ∧
    jsTrim (matchText (jsTrim "2. Positive thoughts help".toList)) =
      "Positive thoughts help".toList ∧
    processLine { currentType := some Category.negative, popups := emptyCatalog }
        "2. Positive thoughts help".toList =
      { currentType := some Category.positive, popups := emptyCatalog } ∧
    matchesNumbered (jsTrim "1. hello".toList) = true ∧
    processLine { currentType := none, popups := emptyCatalog } "1. hello".toList =
      { currentType := none, popups := emptyCatalog } := by
  set_option maxRecDepth 100000 in decide

/-- C22 (amended): `loadPopups` parses the text line by line, in order, on the trimmed
line: a line containing `Negative thoughts` makes the dark-side category active; any other
line containing `Positive thoughts` makes the light-side category active; any other line
of the form `<digits>.<text>`, whose text (taken after the white space that follows the
dot, up to the first line terminator) is non-empty once trimmed, appends
`{number: the integer, text: the trimmed text}` to the active category, and to nothing
while no category is active; all remaining lines add nothing. -/
theorem processLine_rule (st : LoadState) (line : List Char) (text : String)
    (popups : PopupCatalog) :
    parsePopups text popups =
      ((splitNewline text.toList).foldl processLine
        { currentType := none, popups := popups }).popups ∧
    (negativeHeader <:+: jsTrim line →
      processLine st line = { st with currentType := some Category.negative }) ∧
    (¬ negativeHeader <:+: jsTrim line → positiveHeader <:+: jsTrim line →
      processLine st line = { st with currentType := some Category.positive }) ∧
    (¬ negativeHeader <:+: jsTrim line → ¬ positiveHeader <:+: jsTrim line →
      matchesNumbered (jsTrim line) = true → jsTrim (matchText (jsTrim line)) ≠ [] →
      processLine st line =
        pushMessage { number := parseInt (matchNumber (jsTrim line)),
                      text := String.mk (jsTrim (matchText (jsTrim line))) } st) ∧
    (¬ negativeHeader <:+: jsTrim line → ¬ positiveHeader <:+: jsTrim line →
      (matchesNumbered (jsTrim line) = false ∨ jsTrim (matchText (jsTrim line)) = []) →
      processLine st line = st) ∧
    (∀ m : Message,
      (st.currentType = some Category.negative →
        pushMessage m st =
          { st with popups := { st.popups with negative := st.popups.negative ++ [m] } }) ∧
      (st.currentType = some Category.positive →
        pushMessage m st =
          { st with popups := { st.popups with positive := st.popups.positive ++ [m] } }) ∧
      (st.currentType = none → pushMessage m st = st)) ∧
    (∀ digits rest : List Char, digits ≠ [] → (∀ c ∈ digits, isAsciiDigit c = true) →
      matchesNumbered (jsTrim (digits ++ '.' :: rest)) = true ∧
      matchNumber (jsTrim (digits ++ '.' :: rest)) = digits ∧
      matchText (jsTrim (digits ++ '.' :: rest)) =
        (jsTrim rest).takeWhile (fun c => !isLineTerminator c) ∧
      ((∀ c ∈ jsTrim rest, isLineTerminator c = false) →
        jsTrim (matchText (jsTrim (digits ++ '.' :: rest))) = jsTrim rest)) := by
  have hinc : ∀ p l : List Char, includes p l = true ↔ p <:+: l := by
    intro p l
    unfold includes
    exact decide_eq_true_iff
  have hincf : ∀ p l : List Char, includes p l = false ↔ ¬ p <:+: l := by
    intro p l
    unfold includes
    exact decide_eq_false_iff_not
  refine ⟨rfl, fun hN => ?_, fun hN hP => ?_, fun hN hP hnum htxt => ?_,
    fun hN hP hor => ?_, fun m => ⟨fun hc => ?_, fun hc => ?_, fun hc => ?_⟩,
    fun digits rest hne hd => match_numbered digits rest hne hd⟩
  · unfold processLine
    simp only [(hinc _ _).mpr hN, if_true]
  · unfold processLine
    simp only [(hincf _ _).mpr hN, (hinc _ _).mpr hP, if_true, Bool.false_eq_true, if_false]
  · have hemp : (jsTrim (matchText (jsTrim line))).isEmpty = false := by
      cases hj : jsTrim (matchText (jsTrim line)) with
      | nil => exact absurd hj htxt
      | cons a b => rfl
    unfold processLine
    simp only [(hincf _ _).mpr hN, (hincf _ _).mpr hP, hnum, hemp, if_true,
      Bool.false_eq_true, if_false, Bool.not_false]
  · unfold processLine
    simp only [(hincf _ _).mpr hN, (hincf _ _).mpr hP, Bool.false_eq_true, if_false]
    rcases hor with h | h
    · simp only [h, Bool.false_eq_true, if_false]
    · simp only [h, List.isEmpty_nil, Bool.not_true, Bool.false_eq_true, if_false, ite_self]
  · unfold pushMessage
    rw [hc]
  · unfold pushMessage
    rw [hc]
  · unfold pushMessage
    rw [hc]

/-- Witness for C22 (amended): the line `  7.<tab>hello  ` while the dark side is active
appends message 7 with text `hello`. -/
theorem processLine_rule_witness :
    ¬ negativeHeader <:+: jsTrim "  7.\thello  ".toList ∧
    ¬ positiveHeader <:+: jsTrim "  7.\thello  ".toList ∧
    matchesNumbered (jsTrim "  7.\thello  ".toList) = true ∧
    jsTrim (matchText (jsTrim "  7.\thello  ".toList)) ≠ [] ∧
    processLine { currentType := some Category.negative, popups := emptyCatalog }
        "  7.\thello  ".toList =
      pushMessage { number := parseInt (matchNumber (jsTrim "  7.\thello  ".toList)),
                    text := String.mk (jsTrim (matchText (jsTrim "  7.\thello  ".toList))) }
        { currentType := some Category.negative, popups := emptyCatalog } ∧
    pushMessage { number := parseInt (matchNumber (jsTrim "  7.\thello  ".toList)),
                  text := String.mk (jsTrim (matchText (jsTrim "  7.\thello  ".toList))) }
        { currentType := some Category.negative, popups := emptyCatalog } =
      { currentType := some Category.negative,
        popups := { negative := [{ number := 7, text := "hello" }], positive := [] } } :=
  have h1 : ¬ negativeHeader <:+: jsTrim "  7.\thello  ".toList := by decide
  have h2 : ¬ positiveHeader <:+: jsTrim "  7.\thello  ".toList := by decide
  have h3 : matchesNumbered (jsTrim "  7.\thello  ".toList) = true := by decide
  have h4 : jsTrim (matchText (jsTrim "  7.\thello  ".toList)) ≠ [] := by decide
  ⟨h1, h2, h3, h4,
    (processLine_rule { currentType := some Category.negative, popups := emptyCatalog }
      "  7.\thello  ".toList "" emptyCatalog).2.2.2.1 h1 h2 h3 h4,
    by decide⟩

/-! ## Gain ramps at a scene switch (C23) -/

/-- The ramps of a guarded ramp statement. -/
theorem rampIf_some (v : ℚ) (channel : Channel) (start : ℚ → ℚ) (target duration : ℚ) :
    rampIf (some v) channel start target duration =
      [{ channel := channel, start := start v, target := target, duration := duration }] := rfl

/-- Every ramp of a guarded ramp statement has the channel and duration of the statement. -/
theorem mem_rampIf (node : Option ℚ) (channel : Channel) (start : ℚ → ℚ)
    (target duration : ℚ) (r : Ramp) (h : r ∈ rampIf node channel start target duration) :
    r.channel = channel ∧ r.target = target ∧ r.duration = duration := by
  cases node with
  | none => simp [rampIf] at h
  | some v =>
    simp only [rampIf, List.mem_singleton] at h
    rw [h]
    exact ⟨rfl, rfl, rfl⟩

/-- Counterexample to C23 as stated: with every node loaded and the river and a fire
audible, `switchToRooftop` schedules exactly three ramps (static, music, rooftop music) and
none on the river or on a fire; `switchToMain` schedules exactly one ramp (rooftop music)
and none on a channel of the main context. -/
theorem switch_ramps_missing_counterexample :
    switchToRooftopAudio loadedAudioPlaying =
      [{ channel := Channel.static, start := 2 / 100, target := 0, duration := 1 / 2 },
       { channel := Channel.music, start := 0, target := 0, duration := 1 / 2 },
       { channel := Channel.rooftopMusic, start := 0, target := 3 / 10, duration := 1 }] ∧
    (∀ r ∈ switchToRooftopAudio loadedAudioPlaying,
      r.channel ≠ Channel.river ∧ ∀ i, r.channel ≠ Channel.fire i) ∧
    switchToMainAudio loadedAudioPlaying =
      [{ channel := Channel.rooftopMusic, start := 0, target := 0, duration := 1 }] ∧
    (∀ r ∈ switchToMainAudio loadedAudioPlaying,
      r.channel ≠ Channel.static ∧ r.channel ≠ Channel.music ∧
      r.channel ≠ Channel.river ∧ ∀ i, r.channel ≠ Channel.fire i) := by
  have h1 : switchToRooftopAudio loadedAudioPlaying =
      [{ channel := Channel.static, start := 2 / 100, target := 0, duration := 1 / 2 },
       { channel := Channel.music, start := 0, target := 0, duration := 1 / 2 },
       { channel := Channel.rooftopMusic, start := 0, target := 3 / 10, duration := 1 }] := rfl
  have h2 : switchToMainAudio loadedAudioPlaying =
      [{ channel := Channel.rooftopMusic, start := 0, target := 0, duration := 1 }] := rfl
  refine ⟨h1, ?_, h2, ?_⟩
  · intro r hr
    rw [h1] at hr
    simp only [List.mem_cons, List.mem_singleton, List.not_mem_nil, or_false] at hr
    rcases hr with rfl | rfl | rfl
    · exact ⟨(fun h => by cases h), (fun i h => by cases h)⟩
    · exact ⟨(fun h => by cases h), (fun i h => by cases h)⟩
    · exact ⟨(fun h => by cases h), (fun i h => by cases h)⟩
  · intro r hr
    rw [h2] at hr
    simp only [List.mem_singleton] at hr
    rw [hr]
    exact ⟨(fun h => by cases h), (fun h => by cases h), (fun h => by cases h),
      (fun i h => by cases h)⟩

/-- C23 (amended): `switchToRooftop` gives the static and the music gain, when the node
exists, a linear ramp from its current value to 0 over 0.5 s, and the rooftop music a
linear ramp from 0 to 0.3 over 1 s; `switchToMain` gives the rooftop music a linear ramp
from its current value to 0 over 1 s and schedules nothing else; every ramp lasts at most
1 s.  The static and music gains of the main context are not ramped back: the next frame
in the main scene writes their target value directly, whatever value they had. -/
theorem scene_switch_ramps (g : AudioGraph) :
    (∀ v, g.staticGain = some v →
      { channel := Channel.static, start := v, target := 0, duration := 1 / 2 } ∈
        switchToRooftopAudio g) ∧
    (∀ v, g.musicGain = some v →
      { channel := Channel.music, start := v, target := 0, duration := 1 / 2 } ∈
        switchToRooftopAudio g) ∧
    (∀ v, g.rooftopMusicGain = some v →
      { channel := Channel.rooftopMusic, start := 0, target := 3 / 10, duration := 1 } ∈
        switchToRooftopAudio g) ∧
    (∀ v, g.rooftopMusicGain = some v →
      switchToMainAudio g =
        [{ channel := Channel.rooftopMusic, start := v, target := 0, duration := 1 }]) ∧
    (g.rooftopMusicGain = none → switchToMainAudio g = []) ∧
    (∀ r ∈ switchToRooftopAudio g ++ switchToMainAudio g,
      0 < r.duration ∧ r.duration ≤ 1) ∧
    (∀ (distanceTo : Vector3 → Vector3 → ℚ) (camera : Vector3) (g2 : AudioGraph),
      updateAudio distanceTo true Scene.main camera (some g) = some g2 →
      (camera.x < -(1 / 2) →
        g2.staticGain = setGain g.staticGain (staticLevel camera.x) ∧
        g2.musicGain = setGain g.musicGain 0) ∧
      (camera.x > 1 / 2 →
        g2.musicGain = setGain g.musicGain (musicLevel camera.x) ∧
        g2.staticGain = setGain g.staticGain 0) ∧
      (¬ camera.x < -(1 / 2) → ¬ camera.x > 1 / 2 →
        g2.staticGain = setGain g.staticGain 0 ∧ g2.musicGain = setGain g.musicGain 0)) := by
  refine ⟨fun v hv => ?_, fun v hv => ?_, fun v hv => ?_, fun v hv => ?_, fun hn => ?_,
    fun r hr => ?_, fun distanceTo camera g2 hg2 => ?_⟩
  · unfold switchToRooftopAudio
    rw [hv, rampIf_some]
    simp
  · unfold switchToRooftopAudio
    rw [hv, rampIf_some]
    simp
  · unfold switchToRooftopAudio
    rw [hv, rampIf_some]
    simp
  · unfold switchToMainAudio
    rw [hv, rampIf_some]
  · unfold switchToMainAudio
    rw [hn]
    rfl
  · unfold switchToRooftopAudio switchToMainAudio at hr
    simp only [List.mem_append] at hr
    rcases hr with ((hr | hr) | hr) | hr
    · rw [(mem_rampIf _ _ _ _ _ r hr).2.2]
      norm_num
    · rw [(mem_rampIf _ _ _ _ _ r hr).2.2]
      norm_num
    · rw [(mem_rampIf _ _ _ _ _ r hr).2.2]
      norm_num
    · rw [(mem_rampIf _ _ _ _ _ r hr).2.2]
      norm_num
  · rw [updateAudio_main] at hg2
    have hg : g2 = _ := (Option.some.inj hg2).symm
    subst hg
    exact updateAmbient_gains camera.x g

/-- Witness for C23 (amended) on the loaded audio graph. -/
theorem scene_switch_ramps_witness :
    loadedAudioPlaying.staticGain = some (2 / 100) ∧
    { channel := Channel.static, start := 2 / 100, target := 0, duration := 1 / 2 } ∈
      switchToRooftopAudio loadedAudioPlaying ∧
    switchToMainAudio loadedAudioPlaying =
      [{ channel := Channel.rooftopMusic, start := 0, target := 0, duration := 1 }] :=
  ⟨rfl, (scene_switch_ramps loadedAudioPlaying).1 (2 / 100) rfl,
    (scene_switch_ramps loadedAudioPlaying).2.2.2.1 0 rfl⟩

/-! ## A staggered timer that fires on the rooftop (C24) -/

/-- The first call from the start state, at time 1000 and `x = -1.9`: the scene stays
`main`, nothing is displayed yet, and the two dark-side messages are scheduled. -/
theorem sideChangeFirst_fields :
    sideChangeFirst.currentScene = Scene.main ∧
    sideChangeFirst.activePopups = [] ∧
    sideChangeFirst.timers =
      [mkTimer 1000 true (0, { number := 1, text := "n1" }),
       mkTimer 1000 true (1, { number := 2, text := "n2" })] := by
  have hd1 : isOnDarkSide (-19 / 10) = true := by simp [isOnDarkSide]; norm_num
  have ht1 : newTier (progress ROOM_WIDTH (-19 / 10)) = 1 := by
    norm_num [newTier, progress, maxDistance, ROOM_WIDTH, abs_of_neg]
  have a1 : sampleStart.currentScene = Scene.main := rfl
  have a2 : ¬ (1000 - sampleStart.lastPopupUpdate < popupUpdateInterval) := by
    norm_num [sampleStart, popupUpdateInterval]
  have a3 : 1 / 2 ≤ |(-19 / 10 : ℚ)| := by rw [abs_of_neg (by norm_num)]; norm_num
  refine ⟨updatePopupsAt_currentScene ROOM_WIDTH 1000 (-19 / 10) sampleStart,
    (activePopups_reconcile 1000 (-19 / 10) sampleStart a1 a2 a3 (Or.inr rfl)).trans rfl, ?_⟩
  show (updatePopups 1000 (-19 / 10) sampleStart).timers = _
  rw [timers_eq_append_scheduled 1000 (-19 / 10) sampleStart a1 a2 a3,
    scheduledTimers_reconcile 1000 (-19 / 10) sampleStart a1 a2 a3 (Or.inr rfl), ht1, hd1]
  decide

/-- C24 (evaluation of the code at the failing input): the player starts the game, a frame
on the dark side schedules the two dark-side messages 800 ms apart, the first one appears,
the player clicks the take-back button, and the deferred cleanup of `switchToRooftop` runs:
the scene is `rooftop`, no cleanup is pending, nothing is displayed, but the timer of the
second message is still pending.  It then fires: in that reachable state the scene is
`rooftop`, the cleanup has run, and `activePopups` holds message 2. -/
theorem popup_created_on_rooftop :
    Reachable sampleCatalog rooftopCleaned ∧
    rooftopCleaned.state.currentScene = Scene.rooftop ∧
    rooftopCleaned.pendingCleanups = 0 ∧
    rooftopCleaned.state.activePopups = [] ∧
    rooftopCleaned.state.timers = [mkTimer 1000 true (1, { number := 2, text := "n2" })] ∧
    Reachable sampleCatalog rooftopLate ∧
    rooftopLate.state.currentScene = Scene.rooftop ∧
    rooftopLate.pendingCleanups = 0 ∧
    displayed rooftopLate.state = [{ number := 2, text := "n2" }] ∧
    rooftopLate.state.activePopups ≠ [] := by
  obtain ⟨f_scene, f_act, f_tim⟩ := sideChangeFirst_fields
  -- the first timer fires
  have g := fireTimer_fields false sampleWindow (fun _ => 0) sampleRect 0 sideChangeFirst
    (mkTimer 1000 true (0, { number := 1, text := "n1" })) (by rw [f_tim]; rfl)
  have g_scene : (fireTimer false sampleWindow (fun _ => 0) sampleRect 0
      sideChangeFirst).currentScene = Scene.main := g.1.trans f_scene
  have g_tim : (fireTimer false sampleWindow (fun _ => 0) sampleRect 0 sideChangeFirst).timers =
      [mkTimer 1000 true (1, { number := 2, text := "n2" })] := by
    rw [g.2.2.2.2.1, f_tim]; rfl
  -- the run up to the cleanup
  have e3 : run (rooftopEvents.take 4) (initialApp sampleCatalog) =
      { state := fireTimer false sampleWindow (fun _ => 0) sampleRect 0 sideChangeFirst
        gameStarted := true, homeScreenVisible := false, tutorialVisible := false
        pendingCleanups := 0 } := rfl
  have e4 : run (rooftopEvents.take 5) (initialApp sampleCatalog) =
      { state := switchToRooftop
          (fireTimer false sampleWindow (fun _ => 0) sampleRect 0 sideChangeFirst)
        gameStarted := true, homeScreenVisible := false, tutorialVisible := false
        pendingCleanups := 1 } := by
    have h : run (rooftopEvents.take 5) (initialApp sampleCatalog) =
        canvasClickHandler true true (run (rooftopEvents.take 4) (initialApp sampleCatalog)) :=
      rfl
    rw [h, e3]
    simp [canvasClickHandler, g_scene]
  have e5 : rooftopCleaned =
      { state := rooftopCleanup (switchToRooftop
          (fireTimer false sampleWindow (fun _ => 0) sampleRect 0 sideChangeFirst))
        gameStarted := true, homeScreenVisible := false, tutorialVisible := false
        pendingCleanups := 0 } := by
    have h : rooftopCleaned =
        step Event.cleanupTimer (run (rooftopEvents.take 5) (initialApp sampleCatalog)) := rfl
    rw [h, e4]
    rfl
  have e6 : rooftopLate =
      { state := fireTimer false sampleWindow (fun _ => 0) sampleRect 0
          (rooftopCleanup (switchToRooftop
            (fireTimer false sampleWindow (fun _ => 0) sampleRect 0 sideChangeFirst)))
        gameStarted := true, homeScreenVisible := false, tutorialVisible := false
        pendingCleanups := 0 } := by
    have h : rooftopLate =
        step (Event.popupTimer false sampleWindow (fun _ => 0) sampleRect 0) rooftopCleaned :=
      rfl
    rw [h, e5]
    rfl
  -- the second timer fires on the rooftop
  have c_tim : (rooftopCleanup (switchToRooftop
      (fireTimer false sampleWindow (fun _ => 0) sampleRect 0 sideChangeFirst))).timers =
      [mkTimer 1000 true (1, { number := 2, text := "n2" })] := g_tim
  have k := fireTimer_fields false sampleWindow (fun _ => 0) sampleRect 0
    (rooftopCleanup (switchToRooftop
      (fireTimer false sampleWindow (fun _ => 0) sampleRect 0 sideChangeFirst)))
    (mkTimer 1000 true (1, { number := 2, text := "n2" })) (by rw [c_tim]; rfl)
  have l_disp : displayed rooftopLate.state = [{ number := 2, text := "n2" }] := by
    rw [e6]
    exact k.2.2.2.2.2
  refine ⟨⟨rooftopEvents.take 6, rfl⟩, ?_, ?_, ?_, ?_, ⟨rooftopEvents, rfl⟩, ?_, ?_, l_disp, ?_⟩
  · rw [e5]
    rfl
  · rw [e5]
  · rw [e5]
    rfl
  · rw [e5]
    exact c_tim
  · rw [e6]
    exact k.1
  · rw [e6]
  · intro h
    rw [displayed, h] at l_disp
    cases l_disp

/-! ## Two timers for the same message (C30) -/

/-- C30 (evaluation of the code at the failing input): the catalog has the 13 distinct
numbers 1 to 13 on each side.  A call at time 1000 on the dark side at tier 1 schedules
messages 1 to 10; messages 1 and 2 appear; a call at time 2000 at tier 2 passes the
throttle, finds only 1 and 2 displayed, and schedules 3 to 13, although the timers of the
first call for 3 to 10 are still pending; the two timers of message 3 then fire, and
`activePopups` holds message 3 twice. -/
theorem duplicate_popup_after_tier_change :
    (catalogThirteen.map Message.number).Nodup ∧
    dupStart.currentScene = Scene.main ∧
    ¬ (1000 - dupStart.lastPopupUpdate < popupUpdateInterval) ∧
    ¬ (2000 - dupTwoFired.lastPopupUpdate < popupUpdateInterval) ∧
    dupTwoFired.timers =
      (List.range 8).map (fun i => mkTimer 1000 true (i + 2, { number := i + 3, text := "n" })) ∧
    displayed dupTwoFired = [{ number := 1, text := "n" }, { number := 2, text := "n" }] ∧
    dupTierTwo.timers = dupTwoFired.timers ++
      (List.range 11).map (fun i => mkTimer 2000 true (i, { number := i + 3, text := "n" })) ∧
    displayed dupShown =
      [{ number := 1, text := "n" }, { number := 2, text := "n" },
       { number := 3, text := "n" }, { number := 3, text := "n" }] ∧
    ¬ ((displayed dupShown).map Message.number).Nodup := by
  -- the offsets
  have hxA : 1 / 2 ≤ |(-7 : ℚ)| := by norm_num
  have hxC : 1 / 2 ≤ |(-15 / 2 : ℚ)| := by rw [abs_of_neg (by norm_num)]; norm_num
  have htA : newTier (progress ROOM_WIDTH (-7)) = 1 := by
    norm_num [newTier, progress, maxDistance, ROOM_WIDTH]
  have htC : newTier (progress ROOM_WIDTH (-15 / 2)) = 2 := by
    norm_num [newTier, progress, maxDistance, ROOM_WIDTH, abs_of_neg]
  have hdA : isOnDarkSide (-7) = true := by simp [isOnDarkSide]
  have hdC : isOnDarkSide (-15 / 2) = true := by simp [isOnDarkSide]; norm_num
  -- the call at tier 1
  have a1 : dupStart.currentScene = Scene.main := rfl
  have a2 : ¬ (1000 - dupStart.lastPopupUpdate < popupUpdateInterval) := by
    norm_num [dupStart, popupUpdateInterval]
  obtain ⟨aD, aT⟩ := reconcile_displayed 1000 (-7) dupStart a1 a2 hxA (Or.inr rfl)
  rw [htA, hdA] at aT
  rw [htA] at aD
  have A_scene : dupTierOne.currentScene = Scene.main :=
    updatePopupsAt_currentScene ROOM_WIDTH 1000 (-7) dupStart
  have A_last : dupTierOne.lastPopupUpdate = 1000 :=
    updatePopupsAt_lastPopupUpdate ROOM_WIDTH 1000 (-7) dupStart a1 a2
  have A_tier : dupTierOne.currentPopupTier = 1 :=
    (updatePopupsAt_tier ROOM_WIDTH 1000 (-7) dupStart a1 a2 (not_lt.mpr hxA)).trans htA
  have A_pop : dupTierOne.popups = dupStart.popups :=
    updatePopupsAt_popups ROOM_WIDTH 1000 (-7) dupStart
  have A_disp : dupTierOne.activePopups.map ActivePopup.data = [] := by
    show displayed (updatePopups 1000 (-7) dupStart) = _
    rw [aD]
    decide
  have A_tim : dupTierOne.timers =
      (List.range 10).map (fun i => mkTimer 1000 true (i, { number := i + 1, text := "n" })) := by
    show (updatePopups 1000 (-7) dupStart).timers = _
    rw [aT]
    decide
  -- the timers of 1 and 2 fire
  have f1 := fireTimer_fields false sampleWindow (fun _ => 0) sampleRect 0 dupTierOne
    (mkTimer 1000 true (0, { number := 1, text := "n" })) (by rw [A_tim]; rfl)
  have f1_tim : (fireTimer false sampleWindow (fun _ => 0) sampleRect 0 dupTierOne).timers =
      (List.range 9).map
        (fun i => mkTimer 1000 true (i + 1, { number := i + 2, text := "n" })) := by
    rw [f1.2.2.2.2.1, A_tim]; decide
  have f2 := fireTimer_fields false sampleWindow (fun _ => 0) sampleRect 0
    (fireTimer false sampleWindow (fun _ => 0) sampleRect 0 dupTierOne)
    (mkTimer 1000 true (1, { number := 2, text := "n" })) (by rw [f1_tim]; rfl)
  have B_scene : dupTwoFired.currentScene = Scene.main := (f2.1.trans f1.1).trans A_scene
  have B_last : dupTwoFired.lastPopupUpdate = 1000 := (f2.2.1.trans f1.2.1).trans A_last
  have B_tier : dupTwoFired.currentPopupTier = 1 := (f2.2.2.1.trans f1.2.2.1).trans A_tier
  have B_pop : dupTwoFired.popups = dupStart.popups :=
    (f2.2.2.2.1.trans f1.2.2.2.1).trans A_pop
  have B_tim : dupTwoFired.timers =
      (List.range 8).map
        (fun i => mkTimer 1000 true (i + 2, { number := i + 3, text := "n" })) := by
    show (fireTimer false sampleWindow (fun _ => 0) sampleRect 0
      (fireTimer false sampleWindow (fun _ => 0) sampleRect 0 dupTierOne)).timers = _
    rw [f2.2.2.2.2.1, f1_tim]; decide
  have B_disp : displayed dupTwoFired =
      [{ number := 1, text := "n" }, { number := 2, text := "n" }] := by
    show (fireTimer false sampleWindow (fun _ => 0) sampleRect 0
      (fireTimer false sampleWindow (fun _ => 0) sampleRect 0
        dupTierOne)).activePopups.map ActivePopup.data = _
    rw [f2.2.2.2.2.2, f1.2.2.2.2.2, A_disp]
    rfl
  -- the call at tier 2
  have c2 : ¬ (2000 - dupTwoFired.lastPopupUpdate < popupUpdateInterval) := by
    rw [B_last]; norm_num [popupUpdateInterval]
  have c3 : newTier (progress ROOM_WIDTH (-15 / 2)) ≠ dupTwoFired.currentPopupTier ∨
      dupTwoFired.activePopups.length = 0 := Or.inl (by rw [htC, B_tier]; decide)
  obtain ⟨cD, cT⟩ := reconcile_displayed 2000 (-15 / 2) dupTwoFired B_scene c2 hxC c3
  rw [htC, hdC, B_disp, B_pop] at cT
  rw [htC, B_disp] at cD
  have C_disp : dupTierTwo.activePopups.map ActivePopup.data =
      [{ number := 1, text := "n" }, { number := 2, text := "n" }] := by
    show displayed (updatePopups 2000 (-15 / 2) dupTwoFired) = _
    rw [cD]
    decide
  have C_tim : dupTierTwo.timers = dupTwoFired.timers ++
      (List.range 11).map
        (fun i => mkTimer 2000 true (i, { number := i + 3, text := "n" })) := by
    show (updatePopups 2000 (-15 / 2) dupTwoFired).timers = _
    rw [cT]
    congr 1
  -- the two timers of message 3 fire
  have g1 := fireTimer_fields false sampleWindow (fun _ => 0) sampleRect 8 dupTierTwo
    (mkTimer 2000 true (0, { number := 3, text := "n" })) (by rw [C_tim, B_tim]; rfl)
  have g2 := fireTimer_fields false sampleWindow (fun _ => 0) sampleRect 0
    (fireTimer false sampleWindow (fun _ => 0) sampleRect 8 dupTierTwo)
    (mkTimer 1000 true (2, { number := 3, text := "n" }))
    (by rw [g1.2.2.2.2.1, C_tim, B_tim]; rfl)
  have D_disp : displayed dupShown =
      [{ number := 1, text := "n" }, { number := 2, text := "n" },
       { number := 3, text := "n" }, { number := 3, text := "n" }] := by
    show (fireTimer false sampleWindow (fun _ => 0) sampleRect 0
      (fireTimer false sampleWindow (fun _ => 0) sampleRect 8
        dupTierTwo)).activePopups.map ActivePopup.data = _
    rw [g2.2.2.2.2.2, g1.2.2.2.2.2, C_disp]
    rfl
  refine ⟨by decide, a1, a2, c2, B_tim, B_disp, C_tim, D_disp, ?_⟩
  rw [D_disp]
  decide

/-! ## Scheduling after a change of side (remark on C6) -/

/-- The state once both dark-side timers of the first call have fired: main scene, tier 1,
the two dark-side messages on display, no timer pending. -/
theorem sideChangeShown_fields :
    sideChangeShown.currentScene = Scene.main ∧
    sideChangeShown.lastPopupUpdate = 1000 ∧
    sideChangeShown.currentPopupTier = 1 ∧
    sideChangeShown.popups = sampleCatalog ∧
    sideChangeShown.timers = [] ∧
    displayed sideChangeShown = sampleCatalog.negative := by
  obtain ⟨f_scene, f_act, f_tim⟩ := sideChangeFirst_fields
  have ht1 : newTier (progress ROOM_WIDTH (-19 / 10)) = 1 := by
    norm_num [newTier, progress, maxDistance, ROOM_WIDTH, abs_of_neg]
  have a1 : sampleStart.currentScene = Scene.main := rfl
  have a2 : ¬ (1000 - sampleStart.lastPopupUpdate < popupUpdateInterval) := by
    norm_num [sampleStart, popupUpdateInterval]
  have a3 : 1 / 2 ≤ |(-19 / 10 : ℚ)| := by rw [abs_of_neg (by norm_num)]; norm_num
  have f_last : sideChangeFirst.lastPopupUpdate = 1000 :=
    updatePopupsAt_lastPopupUpdate ROOM_WIDTH 1000 (-19 / 10) sampleStart a1 a2
  have f_tier : sideChangeFirst.currentPopupTier = 1 :=
    (updatePopupsAt_tier ROOM_WIDTH 1000 (-19 / 10) sampleStart a1 a2 (not_lt.mpr a3)).trans ht1
  have f_pop : sideChangeFirst.popups = sampleCatalog :=
    updatePopupsAt_popups ROOM_WIDTH 1000 (-19 / 10) sampleStart
  have g := fireTimer_fields false sampleWindow (fun _ => 0) sampleRect 0 sideChangeFirst
    (mkTimer 1000 true (0, { number := 1, text := "n1" })) (by rw [f_tim]; rfl)
  have g_tim : (fireTimer false sampleWindow (fun _ => 0) sampleRect 0 sideChangeFirst).timers =
      [mkTimer 1000 true (1, { number := 2, text := "n2" })] := by
    rw [g.2.2.2.2.1, f_tim]; rfl
  have k := fireTimer_fields false sampleWindow (fun _ => 0) sampleRect 0
    (fireTimer false sampleWindow (fun _ => 0) sampleRect 0 sideChangeFirst)
    (mkTimer 1000 true (1, { number := 2, text := "n2" })) (by rw [g_tim]; rfl)
  refine ⟨(k.1.trans g.1).trans f_scene, (k.2.1.trans g.2.1).trans f_last,
    (k.2.2.1.trans g.2.2.1).trans f_tier, (k.2.2.2.1.trans g.2.2.2.1).trans f_pop, ?_, ?_⟩
  · show (fireTimer false sampleWindow (fun _ => 0) sampleRect 0
      (fireTimer false sampleWindow (fun _ => 0) sampleRect 0 sideChangeFirst)).timers = _
    rw [k.2.2.2.2.1, g_tim]
    rfl
  · show (fireTimer false sampleWindow (fun _ => 0) sampleRect 0
      (fireTimer false sampleWindow (fun _ => 0) sampleRect 0
        sideChangeFirst)).activePopups.map ActivePopup.data = _
    rw [k.2.2.2.2.2, g.2.2.2.2.2, f_act]
    rfl

/-- Remark on C6: the scheduling loop compares numbers only, and a popup of the other side
counts.  With the dark-side messages 1 and 2 on display at tier 1, a call at `x = 8` (light
side, tier 2, ceiling 20) reconciles, keeps the two dark-side popups, and schedules
nothing, although the light-side messages 1 and 2 are within the ceiling and are not
displayed. -/
theorem cross_side_numbers_block_scheduling :
    sideChangeShown.currentScene = Scene.main ∧
    ¬ (5000 - sideChangeShown.lastPopupUpdate < popupUpdateInterval) ∧
    isOnDarkSide 8 = false ∧
    newTier (progress ROOM_WIDTH 8) = 2 ∧ sideChangeShown.currentPopupTier = 1 ∧
    displayed sideChangeShown = sampleCatalog.negative ∧
    Contiguous (relevantPopups (isOnDarkSide 8) sideChangeShown.popups) ∧
    scheduledTimers sideChangeShown (updatePopups 5000 8 sideChangeShown) = [] ∧
    displayed (updatePopups 5000 8 sideChangeShown) = sampleCatalog.negative ∧
    withinCeilingNotDisplayed 20 (relevantPopups (isOnDarkSide 8) sideChangeShown.popups)
      sideChangeShown.activePopups = sampleCatalog.positive := by
  obtain ⟨s_scene, s_last, s_tier, s_pop, s_tim, s_disp⟩ := sideChangeShown_fields
  have hd : isOnDarkSide 8 = false := by simp [isOnDarkSide]
  have ht : newTier (progress ROOM_WIDTH 8) = 2 := by
    norm_num [newTier, progress, maxDistance, ROOM_WIDTH, abs_of_pos]
  have hx : 1 / 2 ≤ |(8 : ℚ)| := by norm_num [abs_of_pos]
  have c2 : ¬ (5000 - sideChangeShown.lastPopupUpdate < popupUpdateInterval) := by
    rw [s_last]; norm_num [popupUpdateInterval]
  have c3 : newTier (progress ROOM_WIDTH 8) ≠ sideChangeShown.currentPopupTier ∨
      sideChangeShown.activePopups.length = 0 := Or.inl (by rw [ht, s_tier]; decide)
  obtain ⟨cD, cT⟩ := reconcile_displayed 5000 8 sideChangeShown s_scene c2 hx c3
  rw [ht, hd, s_disp, s_pop] at cT
  rw [ht, s_disp] at cD
  have hsched : scheduledTimers sideChangeShown (updatePopups 5000 8 sideChangeShown) = [] := by
    apply scheduledTimers_of_append
    rw [cT]
    congr 1
  have hmap : sideChangeShown.activePopups.map (fun p => p.data) = sampleCatalog.negative :=
    s_disp
  refine ⟨s_scene, c2, hd, ht, s_tier, s_disp, ?_, hsched, ?_, ?_⟩
  · rw [hd, s_pop]
    decide
  · rw [cD]
    decide
  · unfold withinCeilingNotDisplayed
    rw [hmap, hd, s_pop]
    decide

end WalkingWithDoom
